import Mathlib

/-! # Skity GPU layer: pipeline keys, pipeline cache, buffers, barriers, shader cache,
formats, textures, descriptor sets, render pipelines, command buffers, fences

A shallow embedding of parts of the Vulkan backend of skity and of its
pipeline-key encoding, with theorems about them.

Conventions of the embedding:

* `uint32_t` / `uint64_t` / `size_t` values are natural numbers; every
  operation that can leave the range of its C++ type is followed by an
  explicit `% 2 ^ w` (`size_t` is taken to be 64 bits wide);
* native handles and pointers are natural numbers, `0` being
  `VK_NULL_HANDLE` / `nullptr`;
* a method of a class is a function from the object's fields (a structure)
  to the new fields; the native calls it makes are returned as a list of
  events, and the outcome of each native call that can fail is an argument.
-/

namespace Skity

/-! ## `src/render/hw/hw_pipeline_key.hpp` -/

/-- Values of `HWGeometryKeyType::Value`. -/
inductive HWGeometryKeyType where
  | kPath | kPathAA | kTessFill | kTessStroke | kColorText | kGradientText
  | kRRect | kClip | kFilter
  deriving DecidableEq, Repr

/-- The enumerator value of a geometry key type. -/
def HWGeometryKeyType.toNat : HWGeometryKeyType → Nat
  | .kPath => 1
  | .kPathAA => 2
  | .kTessFill => 3
  | .kTessStroke => 4
  | .kColorText => 5
  | .kGradientText => 6
  | .kRRect => 7
  | .kClip => 8
  | .kFilter => 9

/-- Values of `HWFragmentKeyType::Value`. -/
inductive HWFragmentKeyType where
  | kSolid | kSolidVertex | kGradient | kTexture | kStencil | kBlur
  | kColorText | kEmojiText | kGradientText | kSDFText | kTextureText
  | kImageFilter
  deriving DecidableEq, Repr

/-- The enumerator value of a fragment key type. -/
def HWFragmentKeyType.toNat : HWFragmentKeyType → Nat
  | .kSolid => 1
  | .kSolidVertex => 2
  | .kGradient => 3
  | .kTexture => 4
  | .kStencil => 5
  | .kBlur => 6
  | .kColorText => 7
  | .kEmojiText => 8
  | .kGradientText => 9
  | .kSDFText => 10
  | .kTextureText => 11
  | .kImageFilter => 12

/-- Values of `HWColorFilterKeyType::Value`. -/
inductive HWColorFilterKeyType where
  | kUnknown | kClear | kSrc | kDst | kSrcOver | kDstOver | kSrcIn | kDstIn
  | kSrcOut | kDstOut | kSrcATop | kDstATop | kXor | kPlus | kModulate
  | kScreen | kMatrix | kLinearToSRGBGamma | kSRGBToLinearGamma | kCompose
  deriving DecidableEq, Repr

/-- The enumerator value of a colour-filter key type. -/
def HWColorFilterKeyType.toNat : HWColorFilterKeyType → Nat
  | .kUnknown => 0
  | .kClear => 1
  | .kSrc => 2
  | .kDst => 3
  | .kSrcOver => 4
  | .kDstOver => 5
  | .kSrcIn => 6
  | .kDstIn => 7
  | .kSrcOut => 8
  | .kDstOut => 9
  | .kSrcATop => 10
  | .kDstATop => 11
  | .kXor => 12
  | .kPlus => 13
  | .kModulate => 14
  | .kScreen => 15
  | .kMatrix => 16
  | .kLinearToSRGBGamma => 17
  | .kSRGBToLinearGamma => 18
  | .kCompose => 0xFF

/-- The constant `kFilterKeyMask`. -/
def kFilterKeyMask : Nat := 0xFF

/-- The constant `kMainKeyShift`. -/
def kMainKeyShift : Nat := 16

/-- The constant `kSubKeyShift`. -/
def kSubKeyShift : Nat := 8

/-- The function `MakeFunctionBaseKey(main, sub, filter)` on `uint32_t`:
`(main << kMainKeyShift) | (sub << kSubKeyShift) | filter`. The C++ default
arguments `sub = 0`, `filter = 0` are passed explicitly. -/
def MakeFunctionBaseKey (main sub filter : Nat) : Nat :=
  ((main <<< kMainKeyShift) % 2 ^ 32 ||| (sub <<< kSubKeyShift) % 2 ^ 32) ||| filter

/-- The constant `kCustomKeyShift`. -/
def kCustomKeyShift : Nat := 8

/-- The function `MakeMainKey(main, custom)` on `uint32_t`:
`custom << kCustomKeyShift | main`. -/
def MakeMainKey (main custom : Nat) : Nat :=
  (custom <<< kCustomKeyShift) % 2 ^ 32 ||| main

/-- The constant `kVertexKeyShift`. -/
def kVertexKeyShift : Nat := 32

/-- The function `MakePipelineBaseKey(vertex_key, fragment_key)`: both
arguments are widened to `uint64_t`, the vertex key is shifted left by 32. -/
def MakePipelineBaseKey (vertex_key fragment_key : Nat) : Nat :=
  (vertex_key <<< kVertexKeyShift) % 2 ^ 64 ||| fragment_key

/-- The struct `HWPipelineKey`: a 64-bit base key and an optional list of
32-bit compose keys. -/
structure HWPipelineKey where
  base_key : Nat
  compose_keys : Option (List Nat)
  deriving DecidableEq, Repr

/-- The comparison `HWPipelineKey::operator==`: the base keys are equal and the
optional compose lists are equal (`std::optional` / `std::vector`
comparison). -/
def HWPipelineKey.operatorEq (a other : HWPipelineKey) : Bool :=
  a.base_key == other.base_key && a.compose_keys == other.compose_keys

/-- The method `HWPipelineKey::GetVertexBaseKey`: `base_key >> 32`, returned
as a 32-bit `HWFunctionBaseKey`. -/
def HWPipelineKey.GetVertexBaseKey (k : HWPipelineKey) : Nat :=
  (k.base_key >>> kVertexKeyShift) % 2 ^ 32

/-- The method `HWPipelineKey::GetFragmentBaseKey`: `base_key & 0xFFFFFFFF`,
returned as a 32-bit `HWFunctionBaseKey`. -/
def HWPipelineKey.GetFragmentBaseKey (k : HWPipelineKey) : Nat :=
  (k.base_key &&& 0xFFFFFFFF) % 2 ^ 32

/-- The loop of `HWPipelineKeyHash::operator()` over the compose keys:
`res += std::hash<uint32_t>()(value)` in `size_t` arithmetic. The hash of a
32-bit value is a parameter (`std::hash` is implementation-defined). -/
def HWPipelineKeyHash.addComposeKeys (hash32 : Nat → Nat) (res : Nat) : List Nat → Nat
  | [] => res
  | value :: rest =>
      HWPipelineKeyHash.addComposeKeys hash32 ((res + hash32 value % 2 ^ 64) % 2 ^ 64) rest

/-- The functor `HWPipelineKeyHash::operator()`: starts at 17, adds the hash of
the base key and, when the compose list has a value, the hash of each of its
elements. `hash64` and `hash32` stand for `std::hash<uint64_t>` and
`std::hash<uint32_t>`. -/
def HWPipelineKeyHash (hash64 hash32 : Nat → Nat) (key : HWPipelineKey) : Nat :=
  let res := (17 + hash64 key.base_key % 2 ^ 64) % 2 ^ 64
  match key.compose_keys with
  | some values => HWPipelineKeyHash.addComposeKeys hash32 res values
  | none => res

/-- The pipeline key that the test `RRect_SolidVertex_Compose` expects: vertex
key `(kRRect, kSolidVertex)`, fragment key `(kSolidVertex, kRRect, kCompose)`,
compose list `[kSrcIn, kSrcATop]`. -/
def expected_pipeline_key : HWPipelineKey where
  base_key :=
    MakePipelineBaseKey
      (MakeFunctionBaseKey HWGeometryKeyType.kRRect.toNat
        HWFragmentKeyType.kSolidVertex.toNat 0)
      (MakeFunctionBaseKey HWFragmentKeyType.kSolidVertex.toNat
        HWGeometryKeyType.kRRect.toNat HWColorFilterKeyType.kCompose.toNat)
  compose_keys :=
    some [HWColorFilterKeyType.kSrcIn.toNat, HWColorFilterKeyType.kSrcATop.toNat]

/-! ## `std::unordered_map` -/

/-- The lookup `std::unordered_map::find`: the value stored under a key equal
to `k`, if there is one. The map is an association list with at most one
entry per key. -/
def unordered_map.find {κ ν : Type} [DecidableEq κ] : List (κ × ν) → κ → Option ν
  | [], _ => none
  | (k', v) :: rest, k => if k' = k then some v else unordered_map.find rest k

/-- The assignment `m[k] = v` of `std::unordered_map`: replaces the value of
the entry with key `k`, or adds a new entry when there is none. -/
def unordered_map.assign {κ ν : Type} [DecidableEq κ] : List (κ × ν) → κ → ν → List (κ × ν)
  | [], k, v => [(k, v)]
  | (k', v') :: rest, k, v =>
      if k' = k then (k', v) :: rest else (k', v') :: unordered_map.assign rest k v

/-! ## `src/gpu/vk/gpu_pipeline_cache_vk.hpp`, `gpu_pipeline_cache_vk.cc` -/

/-- The struct `PipelineKey`. -/
structure PipelineKey where
  vertex_shader_hash : String
  fragment_shader_hash : String
  vertex_layout_hash : List Nat
  render_state_hash : Nat
  deriving DecidableEq, Repr

/-- The comparison `PipelineKey::operator==`, field by field. -/
def PipelineKey.operatorEq (a other : PipelineKey) : Bool :=
  a.vertex_shader_hash == other.vertex_shader_hash &&
  a.fragment_shader_hash == other.fragment_shader_hash &&
  a.vertex_layout_hash == other.vertex_layout_hash &&
  a.render_state_hash == other.render_state_hash

/-- The fields of `GPUPipelineCacheVk` that `GetOrCreatePipeline` and
`ClearCache` use. A cached pipeline is the address of the pipeline object
(the `shared_ptr` stored in the map has an empty deleter). -/
structure GPUPipelineCacheVk where
  pipeline_cache_ : List (PipelineKey × Nat)
  cache_hits_ : Nat
  cache_misses_ : Nat
  deriving DecidableEq, Repr

/-- A newly constructed `GPUPipelineCacheVk`: empty map, counters 0. -/
def GPUPipelineCacheVk.new : GPUPipelineCacheVk :=
  { pipeline_cache_ := [], cache_hits_ := 0, cache_misses_ := 0 }

/-- The method `GPUPipelineCacheVk::GetOrCreatePipeline`.

`CreatePipelineKey` is the key function of the class (the descriptor type
`GPURenderPipelineDescriptor` is declared outside the embedded sources, so the
descriptor type is a parameter). `created` is what the one call of
`GPURenderPipelineVk::Create(device_, desc)` made by this invocation returns:
`none` for `nullptr`, `some p` for a pipeline at address `p`. The result is
the new state and the returned pointer. The counters are `size_t`. -/
def GPUPipelineCacheVk.GetOrCreatePipeline {Desc : Type}
    (CreatePipelineKey : Desc → PipelineKey) (s : GPUPipelineCacheVk) (desc : Desc)
    (created : Option Nat) : GPUPipelineCacheVk × Option Nat :=
  let key := CreatePipelineKey desc
  match unordered_map.find s.pipeline_cache_ key with
  | some _ =>
      ({ s with cache_hits_ := (s.cache_hits_ + 1) % 2 ^ 64 }, created)
  | none =>
      let s1 := { s with cache_misses_ := (s.cache_misses_ + 1) % 2 ^ 64 }
      match created with
      | none => (s1, none)
      | some pipeline =>
          ({ s1 with pipeline_cache_ := unordered_map.assign s1.pipeline_cache_ key pipeline },
            some pipeline)

/-- The method `GPUPipelineCacheVk::ClearCache`. -/
def GPUPipelineCacheVk.ClearCache (_s : GPUPipelineCacheVk) : GPUPipelineCacheVk :=
  { pipeline_cache_ := [], cache_hits_ := 0, cache_misses_ := 0 }

/-- The getter `GetHitCount`. -/
def GPUPipelineCacheVk.GetHitCount (s : GPUPipelineCacheVk) : Nat := s.cache_hits_

/-- The getter `GetMissCount`. -/
def GPUPipelineCacheVk.GetMissCount (s : GPUPipelineCacheVk) : Nat := s.cache_misses_

/-- The getter `GetCacheSize`. -/
def GPUPipelineCacheVk.GetCacheSize (s : GPUPipelineCacheVk) : Nat := s.pipeline_cache_.length

/-! ## `src/gpu/vk/gpu_buffer_vk.hpp`, `gpu_buffer_vk.cc` -/

/-- The three enumerators of `GPUBufferUsage` that `GPUBufferVk` tests. The
enum is declared in `src/gpu/gpu_buffer.hpp`, outside the embedded sources, so
the bit values are parameters. -/
structure GPUBufferUsage where
  kVertexBuffer : Nat
  kIndexBuffer : Nat
  kUniformBuffer : Nat
  deriving DecidableEq, Repr

/-- Vulkan: `VK_BUFFER_USAGE_TRANSFER_SRC_BIT`. -/
def VK_BUFFER_USAGE_TRANSFER_SRC_BIT : Nat := 0x00000001

/-- Vulkan: `VK_BUFFER_USAGE_TRANSFER_DST_BIT`. -/
def VK_BUFFER_USAGE_TRANSFER_DST_BIT : Nat := 0x00000002

/-- Vulkan: `VK_BUFFER_USAGE_UNIFORM_BUFFER_BIT`. -/
def VK_BUFFER_USAGE_UNIFORM_BUFFER_BIT : Nat := 0x00000010

/-- Vulkan: `VK_BUFFER_USAGE_INDEX_BUFFER_BIT`. -/
def VK_BUFFER_USAGE_INDEX_BUFFER_BIT : Nat := 0x00000040

/-- Vulkan: `VK_BUFFER_USAGE_VERTEX_BUFFER_BIT`. -/
def VK_BUFFER_USAGE_VERTEX_BUFFER_BIT : Nat := 0x00000080

/-- VMA: `VMA_MEMORY_USAGE_CPU_TO_GPU`. -/
def VMA_MEMORY_USAGE_CPU_TO_GPU : Nat := 3

/-- The fields of `GPUBufferVk`, with the usage mask of its base class
`GPUBuffer`. Handles and pointers are numbers, 0 is the null handle. -/
structure GPUBufferVk where
  usage : Nat
  buffer_ : Nat
  allocation_ : Nat
  mapped_ptr_ : Nat
  size_ : Nat
  is_mapped_ : Bool
  deriving DecidableEq, Repr

/-- A newly constructed `GPUBufferVk` (the default member initialisers). -/
def GPUBufferVk.new (usage : Nat) : GPUBufferVk :=
  { usage := usage, buffer_ := 0, allocation_ := 0, mapped_ptr_ := 0, size_ := 0,
    is_mapped_ := false }

/-- The native calls (and the `memcpy`) that the methods of `GPUBufferVk` make,
with the arguments that matter. -/
inductive BufferCall where
  | vmaDestroyBuffer (buffer allocation : Nat)
  | vmaCreateBuffer (size usage memoryUsage : Nat)
  | vmaMapMemory (allocation : Nat)
  | memcpy (dst src size : Nat)
  | vmaFlushAllocation (allocation offset size : Nat)
  | vmaUnmapMemory (allocation : Nat)
  deriving DecidableEq, Repr

/-- The method `GPUBufferVk::GetVulkanUsageFlags`. -/
def GPUBufferVk.GetVulkanUsageFlags (U : GPUBufferUsage) (s : GPUBufferVk) : Nat :=
  let usage := 0
  let usage := if s.usage &&& U.kVertexBuffer ≠ 0 then usage ||| VK_BUFFER_USAGE_VERTEX_BUFFER_BIT
    else usage
  let usage := if s.usage &&& U.kIndexBuffer ≠ 0 then usage ||| VK_BUFFER_USAGE_INDEX_BUFFER_BIT
    else usage
  let usage := if s.usage &&& U.kUniformBuffer ≠ 0 then usage ||| VK_BUFFER_USAGE_UNIFORM_BUFFER_BIT
    else usage
  usage ||| (VK_BUFFER_USAGE_TRANSFER_DST_BIT ||| VK_BUFFER_USAGE_TRANSFER_SRC_BIT)

/-- The method `GPUBufferVk::GetVmaMemoryUsage`: every branch returns
`VMA_MEMORY_USAGE_CPU_TO_GPU`. -/
def GPUBufferVk.GetVmaMemoryUsage (U : GPUBufferUsage) (s : GPUBufferVk) : Nat :=
  if s.usage &&& U.kIndexBuffer ≠ 0 ∨ s.usage &&& U.kVertexBuffer ≠ 0 then
    VMA_MEMORY_USAGE_CPU_TO_GPU
  else if s.usage &&& U.kUniformBuffer ≠ 0 then VMA_MEMORY_USAGE_CPU_TO_GPU
  else VMA_MEMORY_USAGE_CPU_TO_GPU

/-- The method `GPUBufferVk::GetMappedPtr`. `mapped` is the outcome of the
`vmaMapMemory` call when one is made: `some p` for `VK_SUCCESS` with the
mapping at `p`, `none` for a failure (the embedding then keeps the old value
of `mapped_ptr_`; the method returns `nullptr` whatever it is). The result is
the new state, the returned pointer and the calls made. -/
def GPUBufferVk.GetMappedPtr (s : GPUBufferVk) (mapped : Option Nat) :
    GPUBufferVk × Nat × List BufferCall :=
  if s.is_mapped_ then (s, s.mapped_ptr_, [])
  else
    match mapped with
    | none => (s, 0, [BufferCall.vmaMapMemory s.allocation_])
    | some p =>
        ({ s with mapped_ptr_ := p, is_mapped_ := true }, p,
          [BufferCall.vmaMapMemory s.allocation_])

/-- The method `GPUBufferVk::Unmap`. -/
def GPUBufferVk.Unmap (s : GPUBufferVk) : GPUBufferVk × List BufferCall :=
  if s.is_mapped_ then
    ({ s with mapped_ptr_ := 0, is_mapped_ := false }, [BufferCall.vmaUnmapMemory s.allocation_])
  else (s, [])

/-- The method `GPUBufferVk::FlushMappedRange`: the result of the flush is only
logged. -/
def GPUBufferVk.FlushMappedRange (s : GPUBufferVk) (offset size : Nat) : List BufferCall :=
  if !s.is_mapped_ then []
  else [BufferCall.vmaFlushAllocation s.allocation_ offset size]

/-- The first half of `GPUBufferVk::UploadData`, after the argument check: the
buffer is destroyed when it exists and is smaller than `size`, and a buffer of
`size` bytes is created when there is none (any more). `created` is the
outcome of the `vmaCreateBuffer` call when one is made: `some (b, a)` for
`VK_SUCCESS` with buffer `b` and allocation `a`, `none` for a failure (the
handle stays null; the embedding keeps the old value of `allocation_`). The
Boolean tells whether the method goes on (it returns early when the creation
fails). -/
def GPUBufferVk.UploadData.ensureBuffer (U : GPUBufferUsage) (s : GPUBufferVk) (size : Nat)
    (created : Option (Nat × Nat)) : GPUBufferVk × List BufferCall × Bool :=
  let (s1, ev1) :=
    if s.buffer_ ≠ 0 ∧ s.size_ < size then
      ({ s with buffer_ := 0 }, [BufferCall.vmaDestroyBuffer s.buffer_ s.allocation_])
    else (s, [])
  if s1.buffer_ = 0 then
    let s2 := { s1 with size_ := size }
    let call := BufferCall.vmaCreateBuffer s2.size_ (GPUBufferVk.GetVulkanUsageFlags U s2)
      (GPUBufferVk.GetVmaMemoryUsage U s2)
    match created with
    | none => (s2, ev1 ++ [call], false)
    | some (b, a) => ({ s2 with buffer_ := b, allocation_ := a }, ev1 ++ [call], true)
  else (s1, ev1, true)

/-- The method `GPUBufferVk::UploadData(data, size)`. `data` is the address of
the payload (0 for `nullptr`); `created` and `mapped` are the outcomes of the
`vmaCreateBuffer` and `vmaMapMemory` calls, when they are made. The result is
the new state and the calls made, in order. -/
def GPUBufferVk.UploadData (U : GPUBufferUsage) (s : GPUBufferVk) (data size : Nat)
    (created : Option (Nat × Nat)) (mapped : Option Nat) : GPUBufferVk × List BufferCall :=
  if size = 0 ∨ data = 0 then (s, [])
  else
    match GPUBufferVk.UploadData.ensureBuffer U s size created with
    | (s2, ev2, false) => (s2, ev2)
    | (s2, ev2, true) =>
        match GPUBufferVk.GetMappedPtr s2 mapped with
        | (s3, mapped_data, ev3) =>
            if mapped_data ≠ 0 then
              let ev4 := [BufferCall.memcpy mapped_data data size]
              let ev5 := GPUBufferVk.FlushMappedRange s3 0 size
              match GPUBufferVk.Unmap s3 with
              | (s6, ev6) => (s6, ev2 ++ ev3 ++ ev4 ++ ev5 ++ ev6)
            else (s3, ev2 ++ ev3)

/-- The number of `vmaCreateBuffer` calls in a list of calls. -/
def BufferCall.countCreate (calls : List BufferCall) : Nat :=
  (calls.filter (fun c => match c with
    | BufferCall.vmaCreateBuffer _ _ _ => true
    | _ => false)).length

/-- The number of `vmaDestroyBuffer` calls in a list of calls. -/
def BufferCall.countDestroy (calls : List BufferCall) : Nat :=
  (calls.filter (fun c => match c with
    | BufferCall.vmaDestroyBuffer _ _ => true
    | _ => false)).length

/-- The sizes passed to the `vmaCreateBuffer` calls in a list of calls. -/
def BufferCall.createdSizes : List BufferCall → List Nat
  | [] => []
  | BufferCall.vmaCreateBuffer size _ _ :: rest => size :: BufferCall.createdSizes rest
  | _ :: rest => BufferCall.createdSizes rest

/-- The number of `memcpy` calls in a list of calls. -/
def BufferCall.countMemcpy (calls : List BufferCall) : Nat :=
  (calls.filter (fun c => match c with
    | BufferCall.memcpy _ _ _ => true
    | _ => false)).length

/-- The condition under which `UploadData` replaces the native buffer: there
is none, or the recorded size is smaller than `size`. -/
def GPUBufferVk.needsReallocation (s : GPUBufferVk) (size : Nat) : Prop :=
  s.buffer_ = 0 ∨ s.size_ < size

instance (s : GPUBufferVk) (size : Nat) : Decidable (s.needsReallocation size) := by
  unfold GPUBufferVk.needsReallocation
  infer_instance

/-! ## `src/gpu/vk/sync_objects_vk.hpp`, `sync_objects_vk.cc` -/

/-- Vulkan: the `VkStructureType` values written by `VkSyncManager`. -/
inductive VkStructureType where
  | VK_STRUCTURE_TYPE_MEMORY_BARRIER_2_KHR
  | VK_STRUCTURE_TYPE_IMAGE_MEMORY_BARRIER_2_KHR
  | VK_STRUCTURE_TYPE_BUFFER_MEMORY_BARRIER_2_KHR
  | VK_STRUCTURE_TYPE_DEPENDENCY_INFO_KHR
  | VK_STRUCTURE_TYPE_MEMORY_BARRIER
  | VK_STRUCTURE_TYPE_IMAGE_MEMORY_BARRIER
  | VK_STRUCTURE_TYPE_BUFFER_MEMORY_BARRIER
  deriving DecidableEq, Repr

/-- Vulkan: `VK_QUEUE_FAMILY_IGNORED` (`~0U`). -/
def VK_QUEUE_FAMILY_IGNORED : Nat := 0xFFFFFFFF

/-- Vulkan: the struct `VkImageSubresourceRange`. -/
structure VkImageSubresourceRange where
  aspectMask : Nat
  baseMipLevel : Nat
  levelCount : Nat
  baseArrayLayer : Nat
  layerCount : Nat
  deriving DecidableEq, Repr

/-- The struct `skity::VkMemoryBarrier`. The stage and access masks are 32-bit
flag words. -/
structure VkMemoryBarrier where
  src_stage_mask : Nat
  dst_stage_mask : Nat
  src_access_mask : Nat
  dst_access_mask : Nat
  deriving DecidableEq, Repr

/-- The struct `skity::VkImageBarrier`. -/
structure VkImageBarrier where
  src_stage_mask : Nat
  dst_stage_mask : Nat
  src_access_mask : Nat
  dst_access_mask : Nat
  old_layout : Nat
  new_layout : Nat
  image : Nat
  subresource_range : VkImageSubresourceRange
  deriving DecidableEq, Repr

/-- The struct `skity::VkBufferBarrier`. -/
structure VkBufferBarrier where
  src_stage_mask : Nat
  dst_stage_mask : Nat
  src_access_mask : Nat
  dst_access_mask : Nat
  buffer : Nat
  offset : Nat
  size : Nat
  deriving DecidableEq, Repr

/-- Vulkan: the struct `VkMemoryBarrier2KHR` (`pNext` is always null here). -/
structure VkMemoryBarrier2KHR where
  sType : VkStructureType
  srcStageMask : Nat
  srcAccessMask : Nat
  dstStageMask : Nat
  dstAccessMask : Nat
  deriving DecidableEq, Repr

/-- Vulkan: the struct `VkImageMemoryBarrier2KHR` (`pNext` is always null). -/
structure VkImageMemoryBarrier2KHR where
  sType : VkStructureType
  srcStageMask : Nat
  srcAccessMask : Nat
  dstStageMask : Nat
  dstAccessMask : Nat
  oldLayout : Nat
  newLayout : Nat
  srcQueueFamilyIndex : Nat
  dstQueueFamilyIndex : Nat
  image : Nat
  subresourceRange : VkImageSubresourceRange
  deriving DecidableEq, Repr

/-- Vulkan: the struct `VkBufferMemoryBarrier2KHR` (`pNext` is always null). -/
structure VkBufferMemoryBarrier2KHR where
  sType : VkStructureType
  srcStageMask : Nat
  srcAccessMask : Nat
  dstStageMask : Nat
  dstAccessMask : Nat
  srcQueueFamilyIndex : Nat
  dstQueueFamilyIndex : Nat
  buffer : Nat
  offset : Nat
  size : Nat
  deriving DecidableEq, Repr

/-- Vulkan: the legacy struct `::VkMemoryBarrier`. -/
structure LegacyVkMemoryBarrier where
  sType : VkStructureType
  srcAccessMask : Nat
  dstAccessMask : Nat
  deriving DecidableEq, Repr

/-- Vulkan: the legacy struct `::VkImageMemoryBarrier`. -/
structure LegacyVkImageMemoryBarrier where
  sType : VkStructureType
  srcAccessMask : Nat
  dstAccessMask : Nat
  oldLayout : Nat
  newLayout : Nat
  srcQueueFamilyIndex : Nat
  dstQueueFamilyIndex : Nat
  image : Nat
  subresourceRange : VkImageSubresourceRange
  deriving DecidableEq, Repr

/-- Vulkan: the legacy struct `::VkBufferMemoryBarrier`. -/
structure LegacyVkBufferMemoryBarrier where
  sType : VkStructureType
  srcAccessMask : Nat
  dstAccessMask : Nat
  srcQueueFamilyIndex : Nat
  dstQueueFamilyIndex : Nat
  buffer : Nat
  offset : Nat
  size : Nat
  deriving DecidableEq, Repr

/-- Vulkan: the struct `VkDependencyInfoKHR`. Each pointer/count pair is the
count written by the code together with the array the pointer refers to. -/
structure VkDependencyInfoKHR where
  sType : VkStructureType
  dependencyFlags : Nat
  memoryBarrierCount : Nat
  pMemoryBarriers : List VkMemoryBarrier2KHR
  bufferMemoryBarrierCount : Nat
  pBufferMemoryBarriers : List VkBufferMemoryBarrier2KHR
  imageMemoryBarrierCount : Nat
  pImageMemoryBarriers : List VkImageMemoryBarrier2KHR
  deriving DecidableEq, Repr

/-- The native pipeline-barrier commands that `ExecuteBarriers` records, with
their arguments in the order of the C signature. -/
inductive BarrierCommand where
  | vkCmdPipelineBarrier2KHR (commandBuffer : Nat) (pDependencyInfo : VkDependencyInfoKHR)
  | vkCmdPipelineBarrier (commandBuffer srcStageMask dstStageMask dependencyFlags : Nat)
      (memoryBarrierCount : Nat) (pMemoryBarriers : List LegacyVkMemoryBarrier)
      (bufferMemoryBarrierCount : Nat) (pBufferMemoryBarriers : List LegacyVkBufferMemoryBarrier)
      (imageMemoryBarrierCount : Nat) (pImageMemoryBarriers : List LegacyVkImageMemoryBarrier)
  deriving DecidableEq, Repr

/-- The fields of `VkSyncManager` (without the device pointer). -/
structure VkSyncManager where
  memory_barriers_ : List VkMemoryBarrier2KHR
  image_barriers_ : List VkImageMemoryBarrier2KHR
  buffer_barriers_ : List VkBufferMemoryBarrier2KHR
  src_stage_mask_ : Nat
  dst_stage_mask_ : Nat
  deriving DecidableEq, Repr

/-- A newly constructed `VkSyncManager`: empty vectors, both masks 0. -/
def VkSyncManager.new : VkSyncManager :=
  { memory_barriers_ := [], image_barriers_ := [], buffer_barriers_ := [],
    src_stage_mask_ := 0, dst_stage_mask_ := 0 }

/-- The `VkMemoryBarrier2KHR` that `AddMemoryBarrier` builds. -/
def VkMemoryBarrier.toVk (barrier : VkMemoryBarrier) : VkMemoryBarrier2KHR :=
  { sType := VkStructureType.VK_STRUCTURE_TYPE_MEMORY_BARRIER_2_KHR
    srcStageMask := barrier.src_stage_mask
    srcAccessMask := barrier.src_access_mask
    dstStageMask := barrier.dst_stage_mask
    dstAccessMask := barrier.dst_access_mask }

/-- The `VkImageMemoryBarrier2KHR` that `AddImageBarrier` builds. -/
def VkImageBarrier.toVk (barrier : VkImageBarrier) : VkImageMemoryBarrier2KHR :=
  { sType := VkStructureType.VK_STRUCTURE_TYPE_IMAGE_MEMORY_BARRIER_2_KHR
    srcStageMask := barrier.src_stage_mask
    srcAccessMask := barrier.src_access_mask
    dstStageMask := barrier.dst_stage_mask
    dstAccessMask := barrier.dst_access_mask
    oldLayout := barrier.old_layout
    newLayout := barrier.new_layout
    srcQueueFamilyIndex := VK_QUEUE_FAMILY_IGNORED
    dstQueueFamilyIndex := VK_QUEUE_FAMILY_IGNORED
    image := barrier.image
    subresourceRange := barrier.subresource_range }

/-- The `VkBufferMemoryBarrier2KHR` that `AddBufferBarrier` builds. -/
def VkBufferBarrier.toVk (barrier : VkBufferBarrier) : VkBufferMemoryBarrier2KHR :=
  { sType := VkStructureType.VK_STRUCTURE_TYPE_BUFFER_MEMORY_BARRIER_2_KHR
    srcStageMask := barrier.src_stage_mask
    srcAccessMask := barrier.src_access_mask
    dstStageMask := barrier.dst_stage_mask
    dstAccessMask := barrier.dst_access_mask
    srcQueueFamilyIndex := VK_QUEUE_FAMILY_IGNORED
    dstQueueFamilyIndex := VK_QUEUE_FAMILY_IGNORED
    buffer := barrier.buffer
    offset := barrier.offset
    size := barrier.size }

/-- The method `VkSyncManager::AddMemoryBarrier`. -/
def VkSyncManager.AddMemoryBarrier (s : VkSyncManager) (barrier : VkMemoryBarrier) :
    VkSyncManager :=
  { s with
    memory_barriers_ := s.memory_barriers_ ++ [barrier.toVk]
    src_stage_mask_ := s.src_stage_mask_ ||| barrier.src_stage_mask
    dst_stage_mask_ := s.dst_stage_mask_ ||| barrier.dst_stage_mask }

/-- The method `VkSyncManager::AddImageBarrier`. -/
def VkSyncManager.AddImageBarrier (s : VkSyncManager) (barrier : VkImageBarrier) :
    VkSyncManager :=
  { s with
    image_barriers_ := s.image_barriers_ ++ [barrier.toVk]
    src_stage_mask_ := s.src_stage_mask_ ||| barrier.src_stage_mask
    dst_stage_mask_ := s.dst_stage_mask_ ||| barrier.dst_stage_mask }

/-- The method `VkSyncManager::AddBufferBarrier`. -/
def VkSyncManager.AddBufferBarrier (s : VkSyncManager) (barrier : VkBufferBarrier) :
    VkSyncManager :=
  { s with
    buffer_barriers_ := s.buffer_barriers_ ++ [barrier.toVk]
    src_stage_mask_ := s.src_stage_mask_ ||| barrier.src_stage_mask
    dst_stage_mask_ := s.dst_stage_mask_ ||| barrier.dst_stage_mask }

/-- The legacy barrier built from a `VkMemoryBarrier2KHR` in the fallback
branch of `ExecuteBarriers`. -/
def VkMemoryBarrier2KHR.toLegacy (barrier : VkMemoryBarrier2KHR) : LegacyVkMemoryBarrier :=
  { sType := VkStructureType.VK_STRUCTURE_TYPE_MEMORY_BARRIER
    srcAccessMask := barrier.srcAccessMask % 2 ^ 32
    dstAccessMask := barrier.dstAccessMask % 2 ^ 32 }

/-- The legacy barrier built from a `VkImageMemoryBarrier2KHR` in the fallback
branch of `ExecuteBarriers`. -/
def VkImageMemoryBarrier2KHR.toLegacy (barrier : VkImageMemoryBarrier2KHR) :
    LegacyVkImageMemoryBarrier :=
  { sType := VkStructureType.VK_STRUCTURE_TYPE_IMAGE_MEMORY_BARRIER
    srcAccessMask := barrier.srcAccessMask % 2 ^ 32
    dstAccessMask := barrier.dstAccessMask % 2 ^ 32
    oldLayout := barrier.oldLayout
    newLayout := barrier.newLayout
    srcQueueFamilyIndex := barrier.srcQueueFamilyIndex
    dstQueueFamilyIndex := barrier.dstQueueFamilyIndex
    image := barrier.image
    subresourceRange := barrier.subresourceRange }

/-- The legacy barrier built from a `VkBufferMemoryBarrier2KHR` in the fallback
branch of `ExecuteBarriers`. -/
def VkBufferMemoryBarrier2KHR.toLegacy (barrier : VkBufferMemoryBarrier2KHR) :
    LegacyVkBufferMemoryBarrier :=
  { sType := VkStructureType.VK_STRUCTURE_TYPE_BUFFER_MEMORY_BARRIER
    srcAccessMask := barrier.srcAccessMask % 2 ^ 32
    dstAccessMask := barrier.dstAccessMask % 2 ^ 32
    srcQueueFamilyIndex := barrier.srcQueueFamilyIndex
    dstQueueFamilyIndex := barrier.dstQueueFamilyIndex
    buffer := barrier.buffer
    offset := barrier.offset
    size := barrier.size }

/-- The method `VkSyncManager::ExecuteBarriers(cmd_buffer)`: the native
commands it records (the manager itself is not modified).
`HasSynchronization2Support` is the device's answer and
`vkCmdPipelineBarrier2KHR_loaded` tells whether the function pointer is
non-null. The counts are `static_cast<uint32_t>` of the vector sizes. -/
def VkSyncManager.ExecuteBarriers (s : VkSyncManager) (cmd_buffer : Nat)
    (HasSynchronization2Support vkCmdPipelineBarrier2KHR_loaded : Bool) : List BarrierCommand :=
  if s.memory_barriers_.isEmpty && s.image_barriers_.isEmpty && s.buffer_barriers_.isEmpty then
    []
  else
    let dependency_info : VkDependencyInfoKHR :=
      { sType := VkStructureType.VK_STRUCTURE_TYPE_DEPENDENCY_INFO_KHR
        dependencyFlags := 0
        memoryBarrierCount := s.memory_barriers_.length % 2 ^ 32
        pMemoryBarriers := s.memory_barriers_
        bufferMemoryBarrierCount := s.buffer_barriers_.length % 2 ^ 32
        pBufferMemoryBarriers := s.buffer_barriers_
        imageMemoryBarrierCount := s.image_barriers_.length % 2 ^ 32
        pImageMemoryBarriers := s.image_barriers_ }
    if HasSynchronization2Support && vkCmdPipelineBarrier2KHR_loaded then
      [BarrierCommand.vkCmdPipelineBarrier2KHR cmd_buffer dependency_info]
    else
      let legacy_memory_barriers := s.memory_barriers_.map VkMemoryBarrier2KHR.toLegacy
      let legacy_image_barriers := s.image_barriers_.map VkImageMemoryBarrier2KHR.toLegacy
      let legacy_buffer_barriers := s.buffer_barriers_.map VkBufferMemoryBarrier2KHR.toLegacy
      [BarrierCommand.vkCmdPipelineBarrier cmd_buffer s.src_stage_mask_ s.dst_stage_mask_ 0
        (legacy_memory_barriers.length % 2 ^ 32) legacy_memory_barriers
        (legacy_buffer_barriers.length % 2 ^ 32) legacy_buffer_barriers
        (legacy_image_barriers.length % 2 ^ 32) legacy_image_barriers]

/-- The method `VkSyncManager::Reset`. -/
def VkSyncManager.Reset (_s : VkSyncManager) : VkSyncManager :=
  { memory_barriers_ := [], image_barriers_ := [], buffer_barriers_ := [],
    src_stage_mask_ := 0, dst_stage_mask_ := 0 }

/-- One barrier-recording call on a `VkSyncManager`. -/
inductive AddBarrierCall where
  | AddMemoryBarrier (barrier : VkMemoryBarrier)
  | AddImageBarrier (barrier : VkImageBarrier)
  | AddBufferBarrier (barrier : VkBufferBarrier)
  deriving DecidableEq, Repr

/-- The source stage mask of the barrier passed to a recording call. -/
def AddBarrierCall.src_stage_mask : AddBarrierCall → Nat
  | .AddMemoryBarrier b => b.src_stage_mask
  | .AddImageBarrier b => b.src_stage_mask
  | .AddBufferBarrier b => b.src_stage_mask

/-- The destination stage mask of the barrier passed to a recording call. -/
def AddBarrierCall.dst_stage_mask : AddBarrierCall → Nat
  | .AddMemoryBarrier b => b.dst_stage_mask
  | .AddImageBarrier b => b.dst_stage_mask
  | .AddBufferBarrier b => b.dst_stage_mask

/-- Performs one recording call. -/
def VkSyncManager.add (s : VkSyncManager) : AddBarrierCall → VkSyncManager
  | .AddMemoryBarrier b => s.AddMemoryBarrier b
  | .AddImageBarrier b => s.AddImageBarrier b
  | .AddBufferBarrier b => s.AddBufferBarrier b

/-- Performs a sequence of recording calls, in order. -/
def VkSyncManager.addAll (s : VkSyncManager) (calls : List AddBarrierCall) : VkSyncManager :=
  calls.foldl VkSyncManager.add s

/-- The memory barriers recorded by a sequence of calls, in call order. -/
def AddBarrierCall.memoryBarriers : List AddBarrierCall → List VkMemoryBarrier2KHR
  | [] => []
  | .AddMemoryBarrier b :: rest => b.toVk :: AddBarrierCall.memoryBarriers rest
  | _ :: rest => AddBarrierCall.memoryBarriers rest

/-- The image barriers recorded by a sequence of calls, in call order. -/
def AddBarrierCall.imageBarriers : List AddBarrierCall → List VkImageMemoryBarrier2KHR
  | [] => []
  | .AddImageBarrier b :: rest => b.toVk :: AddBarrierCall.imageBarriers rest
  | _ :: rest => AddBarrierCall.imageBarriers rest

/-- The buffer barriers recorded by a sequence of calls, in call order. -/
def AddBarrierCall.bufferBarriers : List AddBarrierCall → List VkBufferMemoryBarrier2KHR
  | [] => []
  | .AddBufferBarrier b :: rest => b.toVk :: AddBarrierCall.bufferBarriers rest
  | _ :: rest => AddBarrierCall.bufferBarriers rest

/-- The bitwise OR of a list of masks. -/
def orAll (masks : List Nat) : Nat := masks.foldl (fun acc m => acc ||| m) 0

/-- The number of barrier entries that a native barrier command carries: the
lengths of its three arrays. -/
def BarrierCommand.entryCount : BarrierCommand → Nat
  | .vkCmdPipelineBarrier2KHR _ info =>
      info.pMemoryBarriers.length + info.pBufferMemoryBarriers.length +
        info.pImageMemoryBarriers.length
  | .vkCmdPipelineBarrier _ _ _ _ _ mem _ buf _ img => mem.length + buf.length + img.length

/-- The sum of the three count arguments of a native barrier command. -/
def BarrierCommand.declaredCount : BarrierCommand → Nat
  | .vkCmdPipelineBarrier2KHR _ info =>
      info.memoryBarrierCount + info.bufferMemoryBarrierCount + info.imageMemoryBarrierCount
  | .vkCmdPipelineBarrier _ _ _ _ nmem _ nbuf _ nimg _ => nmem + nbuf + nimg

/-! ## `src/gpu/gpu_shader_function.hpp`, `src/gpu/vk/spirv_compiler_vk.hpp`,
`spirv_compiler_vk.cc` -/

/-- The enum class `GPUShaderStage`. -/
inductive GPUShaderStage where
  | kVertex
  | kFragment
  deriving DecidableEq, Repr

/-- The enumerator value of a shader stage (`kVertex = 0x01`,
`kFragment = 0x02`). -/
def GPUShaderStage.toNat : GPUShaderStage → Nat
  | .kVertex => 0x01
  | .kFragment => 0x02

/-- The struct `SPIRVCompileOptions`. -/
structure SPIRVCompileOptions where
  optimize : Bool
  debug_info : Bool
  validate : Bool
  target_env_version : Nat
  deriving DecidableEq, Repr

/-- The default member initialisers of `SPIRVCompileOptions`. -/
def SPIRVCompileOptions.default : SPIRVCompileOptions :=
  { optimize := true, debug_info := false, validate := true, target_env_version := 0 }

/-- The struct `SPIRVReflectionInfo::UniformBinding`. -/
structure UniformBinding where
  set : Nat
  binding : Nat
  name : String
  size : Nat
  stage : GPUShaderStage
  deriving DecidableEq, Repr

/-- The struct `SPIRVReflectionInfo::TextureBinding`. -/
structure TextureBinding where
  set : Nat
  binding : Nat
  name : String
  stage : GPUShaderStage
  deriving DecidableEq, Repr

/-- The struct `SPIRVReflectionInfo::SamplerBinding`. -/
structure SamplerBinding where
  set : Nat
  binding : Nat
  name : String
  stage : GPUShaderStage
  deriving DecidableEq, Repr

/-- The struct `SPIRVReflectionInfo::VertexAttribute`. -/
structure VertexAttribute where
  location : Nat
  name : String
  format : Nat
  deriving DecidableEq, Repr

/-- The struct `SPIRVReflectionInfo::PushConstant`. -/
structure PushConstant where
  offset : Nat
  size : Nat
  stage : GPUShaderStage
  deriving DecidableEq, Repr

/-- The struct `SPIRVReflectionInfo`. -/
structure SPIRVReflectionInfo where
  uniform_bindings : List UniformBinding
  texture_bindings : List TextureBinding
  sampler_bindings : List SamplerBinding
  entry_point : String
  stage : GPUShaderStage
  vertex_attributes : List VertexAttribute
  push_constant : Option PushConstant
  deriving DecidableEq, Repr

/-- A default-constructed `SPIRVReflectionInfo`. The member `stage` has no
initialiser in the source; the embedding gives it the value `kVertex`. -/
def SPIRVReflectionInfo.default : SPIRVReflectionInfo :=
  { uniform_bindings := [], texture_bindings := [], sampler_bindings := [], entry_point := "",
    stage := GPUShaderStage.kVertex, vertex_attributes := [], push_constant := none }

/-- The struct `SPIRVCompileResult`. -/
structure SPIRVCompileResult where
  spirv_code : List Nat
  reflection : SPIRVReflectionInfo
  success : Bool
  error_message : String
  deriving DecidableEq, Repr

/-- A default-constructed `SPIRVCompileResult` (`success = false`). -/
def SPIRVCompileResult.default : SPIRVCompileResult :=
  { spirv_code := [], reflection := SPIRVReflectionInfo.default, success := false,
    error_message := "" }

/-- The two glslang stages that `GetGlslangStage` returns. -/
inductive EShLanguage where
  | EShLangVertex
  | EShLangFragment
  deriving DecidableEq, Repr

/-- A shader resource as SPIRV-Cross reports it, with the two decorations and
the declared struct size that `ReflectSPIRV` reads for it. -/
structure ShaderResource where
  name : String
  descriptorSet : Nat
  binding : Nat
  declaredStructSize : Nat
  deriving DecidableEq, Repr

/-- The three resource lists of `spirv_cross::ShaderResources` that
`ReflectSPIRV` walks. -/
structure ShaderResources where
  uniform_buffers : List ShaderResource
  sampled_images : List ShaderResource
  separate_samplers : List ShaderResource
  deriving DecidableEq, Repr

/-- The libraries that `SPIRVCompilerVk` calls, as functions of the arguments
the compiler passes to them: `std::hash<std::string>`, the wgx translator
(`Program::Parse` and `WriteToGlsl` with the desktop 4.5 options), glslang
(`TShader::parse`, `TProgram::link`, their info logs, `GlslangToSpv`) and
SPIRV-Cross (`get_shader_resources` with the decorations). -/
structure Toolchain where
  std_hash_string : String → Nat
  wgx_Program_Parse : String → Bool
  wgx_WriteToGlsl : String → String → Option String
  shader_parse : EShLanguage → String → Bool
  shader_getInfoLog : EShLanguage → String → String
  program_link : EShLanguage → String → Bool
  program_getInfoLog : EShLanguage → String → String
  GlslangToSpv : EShLanguage → String → Bool → Bool → List Nat
  get_shader_resources : List Nat → ShaderResources

/-- The fields of `SPIRVCompilerVk` that the compile methods use: the shader
cache, an `unordered_map` from key strings to results. -/
structure SPIRVCompilerVk where
  shader_cache_ : List (String × SPIRVCompileResult)
  deriving DecidableEq, Repr

/-- A newly constructed `SPIRVCompilerVk`: empty cache. -/
def SPIRVCompilerVk.new : SPIRVCompilerVk := { shader_cache_ := [] }

/-- The work that a compile request performs, as far as the cache can save
it: a run of the WGSL translator and a run of the GLSL compiler. -/
inductive CompilerEvent where
  | ConvertWGSLToGLSL (wgsl_source entry_point : String) (stage : GPUShaderStage)
  | CompileGLSLToSPIRV (glsl_source : String) (stage : GPUShaderStage)
      (options : SPIRVCompileOptions)
  deriving DecidableEq, Repr

/-- The function `SPIRVUtils::HashShaderSource`: the `size_t` hash of the
source, printed in lower-case hexadecimal. -/
def SPIRVUtils.HashShaderSource (T : Toolchain) (source : String) : String :=
  String.mk (Nat.toDigits 16 (T.std_hash_string source % 2 ^ 64))

/-- The method `SPIRVCompilerVk::GenerateCacheKey`. -/
def SPIRVCompilerVk.GenerateCacheKey (T : Toolchain) (source entry_point : String)
    (stage : GPUShaderStage) (options : SPIRVCompileOptions) : String :=
  SPIRVUtils.HashShaderSource T source ++ "_" ++ entry_point ++ "_" ++
    toString stage.toNat ++ "_" ++ (if options.optimize then "opt" else "noopt") ++
    "_" ++ (if options.debug_info then "debug" else "nodebug") ++ "_" ++
    (if options.validate then "val" else "noval")

/-- The method `SPIRVCompilerVk::GetGlslangStage`. -/
def SPIRVCompilerVk.GetGlslangStage : GPUShaderStage → EShLanguage
  | .kVertex => EShLanguage.EShLangVertex
  | .kFragment => EShLanguage.EShLangFragment

/-- The method `SPIRVCompilerVk::ValidateSPIRV`: at least 5 words, the first
one the SPIR-V magic number. -/
def SPIRVCompilerVk.ValidateSPIRV (spirv_code : List Nat) : Bool :=
  if spirv_code.length < 5 then false
  else if spirv_code.head? ≠ some 0x07230203 then false
  else true

/-- The method `SPIRVCompilerVk::ReflectSPIRV`: it always returns a value. -/
def SPIRVCompilerVk.ReflectSPIRV (T : Toolchain) (spirv_code : List Nat)
    (stage : GPUShaderStage) : Option SPIRVReflectionInfo :=
  let resources := T.get_shader_resources spirv_code
  some
    { SPIRVReflectionInfo.default with
      stage := stage
      uniform_bindings := resources.uniform_buffers.map fun ubo =>
        { set := ubo.descriptorSet, binding := ubo.binding, name := ubo.name,
          size := ubo.declaredStructSize, stage := stage }
      texture_bindings := resources.sampled_images.map fun image =>
        { set := image.descriptorSet, binding := image.binding, name := image.name,
          stage := stage }
      sampler_bindings := resources.separate_samplers.map fun sampler =>
        { set := sampler.descriptorSet, binding := sampler.binding, name := sampler.name,
          stage := stage } }

/-- The method `SPIRVCompilerVk::ConvertWGSLToGLSL`: `nullopt` when the source
does not parse or the translation fails, the GLSL text otherwise. -/
def SPIRVCompilerVk.ConvertWGSLToGLSL (T : Toolchain) (wgsl_source entry_point : String)
    (_stage : GPUShaderStage) : Option String :=
  if !T.wgx_Program_Parse wgsl_source then none
  else
    match T.wgx_WriteToGlsl wgsl_source entry_point with
    | none => none
    | some content => some content

/-- The method `SPIRVCompilerVk::CompileGLSLToSPIRV`. -/
def SPIRVCompilerVk.CompileGLSLToSPIRV (T : Toolchain) (glsl_source : String)
    (stage : GPUShaderStage) (options : SPIRVCompileOptions) : SPIRVCompileResult :=
  let result := SPIRVCompileResult.default
  let glsl_stage := SPIRVCompilerVk.GetGlslangStage stage
  if !T.shader_parse glsl_stage glsl_source then
    { result with
      error_message := "GLSL parse error: " ++ T.shader_getInfoLog glsl_stage glsl_source }
  else if !T.program_link glsl_stage glsl_source then
    { result with
      error_message := "GLSL link error: " ++ T.program_getInfoLog glsl_stage glsl_source }
  else
    let spirv := T.GlslangToSpv glsl_stage glsl_source options.debug_info (!options.optimize)
    let result := { result with spirv_code := spirv }
    let result :=
      match SPIRVCompilerVk.ReflectSPIRV T result.spirv_code stage with
      | some reflection => { result with reflection := reflection }
      | none => result
    let result := { result with success := true }
    if options.validate && !SPIRVCompilerVk.ValidateSPIRV result.spirv_code then
      { result with error_message := "Generated SPIRV failed validation", success := false }
    else result

/-- The method `SPIRVCompilerVk::CacheShader`. -/
def SPIRVCompilerVk.CacheShader (s : SPIRVCompilerVk) (key : String)
    (result : SPIRVCompileResult) : SPIRVCompilerVk :=
  { s with shader_cache_ := unordered_map.assign s.shader_cache_ key result }

/-- The method `SPIRVCompilerVk::GetCachedShader`. -/
def SPIRVCompilerVk.GetCachedShader (s : SPIRVCompilerVk) (key : String) :
    Option SPIRVCompileResult :=
  unordered_map.find s.shader_cache_ key

/-- The method `SPIRVCompilerVk::ClearCache`. -/
def SPIRVCompilerVk.ClearCache (_s : SPIRVCompilerVk) : SPIRVCompilerVk :=
  { shader_cache_ := [] }

/-- The method `SPIRVCompilerVk::CompileWGSLToSPIRV`: the new state, the
returned result, and the translation and compilation runs it performed. -/
def SPIRVCompilerVk.CompileWGSLToSPIRV (T : Toolchain) (s : SPIRVCompilerVk)
    (wgsl_source entry_point : String) (stage : GPUShaderStage)
    (options : SPIRVCompileOptions) :
    SPIRVCompilerVk × SPIRVCompileResult × List CompilerEvent :=
  let cache_key := SPIRVCompilerVk.GenerateCacheKey T wgsl_source entry_point stage options
  match s.GetCachedShader cache_key with
  | some cached => (s, cached, [])
  | none =>
      let result := SPIRVCompileResult.default
      let ev1 := [CompilerEvent.ConvertWGSLToGLSL wgsl_source entry_point stage]
      match SPIRVCompilerVk.ConvertWGSLToGLSL T wgsl_source entry_point stage with
      | none => (s, { result with error_message := "Failed to convert WGSL to GLSL" }, ev1)
      | some glsl_source =>
          let result := SPIRVCompilerVk.CompileGLSLToSPIRV T glsl_source stage options
          let ev2 := ev1 ++ [CompilerEvent.CompileGLSLToSPIRV glsl_source stage options]
          if result.success then (s.CacheShader cache_key result, result, ev2)
          else (s, result, ev2)

/-- One call on a `SPIRVCompilerVk` made by the program: a WGSL compile
request, a direct GLSL compile request, or `ClearCache`. (`CacheShader` is
called from `CompileWGSLToSPIRV` only.) -/
inductive CompilerCall where
  | CompileWGSLToSPIRV (wgsl_source entry_point : String) (stage : GPUShaderStage)
      (options : SPIRVCompileOptions)
  | CompileGLSLToSPIRV (glsl_source : String) (stage : GPUShaderStage)
      (options : SPIRVCompileOptions)
  | ClearCache
  deriving DecidableEq, Repr

/-- Whether a call is `ClearCache`. -/
def CompilerCall.isClearCache : CompilerCall → Bool
  | .ClearCache => true
  | _ => false

/-- The state after one call. -/
def SPIRVCompilerVk.step (T : Toolchain) (s : SPIRVCompilerVk) : CompilerCall → SPIRVCompilerVk
  | .CompileWGSLToSPIRV src ep stage opts => (s.CompileWGSLToSPIRV T src ep stage opts).1
  | .CompileGLSLToSPIRV _ _ _ => s
  | .ClearCache => s.ClearCache

/-- The state after a sequence of calls, in order. -/
def SPIRVCompilerVk.run (T : Toolchain) (s : SPIRVCompilerVk) (calls : List CompilerCall) :
    SPIRVCompilerVk :=
  calls.foldl (SPIRVCompilerVk.step T) s

/-- The states of a `SPIRVCompilerVk` that the program can reach: those a new
compiler gets into by a sequence of calls. -/
def SPIRVCompilerVk.Reachable (T : Toolchain) (s : SPIRVCompilerVk) : Prop :=
  ∃ calls : List CompilerCall, s = SPIRVCompilerVk.run T SPIRVCompilerVk.new calls

/-- Every entry of the shader cache is a successful result. -/
def SPIRVCompilerVk.AllCachedSucceeded (s : SPIRVCompilerVk) : Prop :=
  ∀ e ∈ s.shader_cache_, e.2.success = true

/-- A sample toolchain: the hash of a source is its length, the WGSL parser
accepts a source exactly when `parseOk`, translation returns the source text,
glslang accepts everything and emits a five-word module that starts with the
SPIR-V magic number, and reflection finds no resources. -/
def Toolchain.sample (parseOk : Bool) : Toolchain :=
  { std_hash_string := fun source => source.length
    wgx_Program_Parse := fun _ => parseOk
    wgx_WriteToGlsl := fun source _ => some source
    shader_parse := fun _ _ => true
    shader_getInfoLog := fun _ _ => ""
    program_link := fun _ _ => true
    program_getInfoLog := fun _ _ => ""
    GlslangToSpv := fun _ _ _ _ => [0x07230203, 0x00010000, 0, 1, 0]
    get_shader_resources := fun _ => { uniform_buffers := [], sampled_images := [],
                                        separate_samplers := [] } }

/-! ## `src/gpu/vk/formats_vk.h`, `formats_vk.cc` -/

/-- The enum class `GPUTextureFormat`. It is declared in
`src/gpu/gpu_texture.hpp`, outside the embedded sources; the enumerators are
those the translators name, and `unnamed raw` stands for a value of the enum
type that is none of them (the `default:` cases). -/
inductive GPUTextureFormat where
  | kR8Unorm
  | kRGB8Unorm
  | kRGB565Unorm
  | kRGBA8Unorm
  | kBGRA8Unorm
  | kStencil8
  | kDepth24Stencil8
  | kInvalid
  | unnamed (raw : Nat)
  deriving DecidableEq, Repr

/-- The seven canonical formats: every enumerator except `kInvalid`. -/
def GPUTextureFormat.isCanonical : GPUTextureFormat → Bool
  | .kR8Unorm | .kRGB8Unorm | .kRGB565Unorm | .kRGBA8Unorm | .kBGRA8Unorm
  | .kStencil8 | .kDepth24Stencil8 => true
  | .kInvalid | .unnamed _ => false

/-- Vulkan: `VK_FORMAT_UNDEFINED`. A `VkFormat` is its enumerator value. -/
def VK_FORMAT_UNDEFINED : Nat := 0

/-- Vulkan: `VK_FORMAT_R5G6B5_UNORM_PACK16`. -/
def VK_FORMAT_R5G6B5_UNORM_PACK16 : Nat := 4

/-- Vulkan: `VK_FORMAT_R8_UNORM`. -/
def VK_FORMAT_R8_UNORM : Nat := 9

/-- Vulkan: `VK_FORMAT_R8G8B8_UNORM`. -/
def VK_FORMAT_R8G8B8_UNORM : Nat := 23

/-- Vulkan: `VK_FORMAT_R8G8B8A8_UNORM`. -/
def VK_FORMAT_R8G8B8A8_UNORM : Nat := 37

/-- Vulkan: `VK_FORMAT_B8G8R8A8_UNORM`. -/
def VK_FORMAT_B8G8R8A8_UNORM : Nat := 44

/-- Vulkan: `VK_FORMAT_B8G8R8A8_SRGB`. -/
def VK_FORMAT_B8G8R8A8_SRGB : Nat := 50

/-- Vulkan: `VK_FORMAT_S8_UINT`. -/
def VK_FORMAT_S8_UINT : Nat := 127

/-- Vulkan: `VK_FORMAT_D24_UNORM_S8_UINT`. -/
def VK_FORMAT_D24_UNORM_S8_UINT : Nat := 129

/-- The function `GPUTextureFormatToVkFormat`. -/
def GPUTextureFormatToVkFormat : GPUTextureFormat → Nat
  | .kR8Unorm => VK_FORMAT_R8_UNORM
  | .kRGB8Unorm => VK_FORMAT_R8G8B8_UNORM
  | .kRGB565Unorm => VK_FORMAT_R5G6B5_UNORM_PACK16
  | .kRGBA8Unorm => VK_FORMAT_R8G8B8A8_UNORM
  | .kBGRA8Unorm => VK_FORMAT_B8G8R8A8_UNORM
  | .kStencil8 => VK_FORMAT_S8_UINT
  | .kDepth24Stencil8 => VK_FORMAT_D24_UNORM_S8_UINT
  | .kInvalid => VK_FORMAT_UNDEFINED
  | .unnamed _ => VK_FORMAT_UNDEFINED

/-- The function `VkFormatBytesPerPixel`: a `switch` over the seven formats
with `default: return 4`. -/
def VkFormatBytesPerPixel (format : Nat) : Nat :=
  if format = VK_FORMAT_R8_UNORM ∨ format = VK_FORMAT_S8_UINT then 1
  else if format = VK_FORMAT_R5G6B5_UNORM_PACK16 then 2
  else if format = VK_FORMAT_R8G8B8_UNORM then 3
  else if format = VK_FORMAT_R8G8B8A8_UNORM ∨ format = VK_FORMAT_B8G8R8A8_UNORM ∨
      format = VK_FORMAT_D24_UNORM_S8_UINT then 4
  else 4

/-- Whether a native format is one of the seven formats that
`GPUTextureFormatToVkFormat` produces for the canonical formats. -/
def isTranslatedVkFormat (format : Nat) : Bool :=
  format = VK_FORMAT_R8_UNORM || format = VK_FORMAT_R8G8B8_UNORM ||
  format = VK_FORMAT_R5G6B5_UNORM_PACK16 || format = VK_FORMAT_R8G8B8A8_UNORM ||
  format = VK_FORMAT_B8G8R8A8_UNORM || format = VK_FORMAT_S8_UINT ||
  format = VK_FORMAT_D24_UNORM_S8_UINT

/-- The enumerators of `GPUTextureUsage` that the usage translation tests. The
enum is declared in `src/gpu/gpu_texture.hpp`, outside the embedded sources,
so the bit values are parameters. -/
structure GPUTextureUsage where
  kCopySrc : Nat
  kCopyDst : Nat
  kTextureBinding : Nat
  kStorageBinding : Nat
  kRenderAttachment : Nat
  deriving DecidableEq, Repr

/-- Vulkan: `VK_IMAGE_USAGE_TRANSFER_SRC_BIT`. -/
def VK_IMAGE_USAGE_TRANSFER_SRC_BIT : Nat := 0x00000001

/-- Vulkan: `VK_IMAGE_USAGE_TRANSFER_DST_BIT`. -/
def VK_IMAGE_USAGE_TRANSFER_DST_BIT : Nat := 0x00000002

/-- Vulkan: `VK_IMAGE_USAGE_SAMPLED_BIT`. -/
def VK_IMAGE_USAGE_SAMPLED_BIT : Nat := 0x00000004

/-- Vulkan: `VK_IMAGE_USAGE_STORAGE_BIT`. -/
def VK_IMAGE_USAGE_STORAGE_BIT : Nat := 0x00000008

/-- Vulkan: `VK_IMAGE_USAGE_COLOR_ATTACHMENT_BIT`. -/
def VK_IMAGE_USAGE_COLOR_ATTACHMENT_BIT : Nat := 0x00000010

/-- Vulkan: `VK_IMAGE_USAGE_DEPTH_STENCIL_ATTACHMENT_BIT`. -/
def VK_IMAGE_USAGE_DEPTH_STENCIL_ATTACHMENT_BIT : Nat := 0x00000020

/-- The two-argument overload `GPUTextureUsageToVkImageUsage(usage, format)`. -/
def GPUTextureUsageToVkImageUsage (U : GPUTextureUsage) (usage : Nat)
    (format : GPUTextureFormat) : Nat :=
  let vk_usage := 0
  let vk_usage := if usage &&& U.kCopySrc ≠ 0 then vk_usage ||| VK_IMAGE_USAGE_TRANSFER_SRC_BIT
    else vk_usage
  let vk_usage := if usage &&& U.kCopyDst ≠ 0 then vk_usage ||| VK_IMAGE_USAGE_TRANSFER_DST_BIT
    else vk_usage
  let vk_usage := if usage &&& U.kTextureBinding ≠ 0 then vk_usage ||| VK_IMAGE_USAGE_SAMPLED_BIT
    else vk_usage
  let vk_usage := if usage &&& U.kStorageBinding ≠ 0 then vk_usage ||| VK_IMAGE_USAGE_STORAGE_BIT
    else vk_usage
  let vk_usage :=
    if usage &&& U.kRenderAttachment ≠ 0 then
      if format = GPUTextureFormat.kDepth24Stencil8 ∨ format = GPUTextureFormat.kStencil8 then
        vk_usage ||| VK_IMAGE_USAGE_DEPTH_STENCIL_ATTACHMENT_BIT
      else vk_usage ||| VK_IMAGE_USAGE_COLOR_ATTACHMENT_BIT
    else vk_usage
  vk_usage ||| VK_IMAGE_USAGE_TRANSFER_DST_BIT

/-! ## `src/gpu/vk/gpu_texture_vk.hpp`, `gpu_texture_vk.cc` -/

/-- The fields of `GPUTextureDescriptor` that `GPUTextureVk` reads. The struct
is declared in `src/gpu/gpu_texture.hpp`, outside the embedded sources. -/
structure GPUTextureDescriptor where
  width : Nat
  height : Nat
  format : GPUTextureFormat
  usage : Nat
  mip_level_count : Nat
  sample_count : Nat
  storage_mode : Nat
  deriving DecidableEq, Repr

/-- The fields of `GPUTextureVk`, with the descriptor of its base class
`GPUTexture`. Handles and pointers are numbers, 0 is the null handle. -/
structure GPUTextureVk where
  desc_ : GPUTextureDescriptor
  image_ : Nat
  image_view_ : Nat
  allocation_ : Nat
  format_ : Nat
  current_layout_ : Nat
  device_ : Nat
  deriving DecidableEq, Repr

/-- Vulkan: `VK_IMAGE_LAYOUT_UNDEFINED`. -/
def VK_IMAGE_LAYOUT_UNDEFINED : Nat := 0

/-- Vulkan: `VK_IMAGE_LAYOUT_SHADER_READ_ONLY_OPTIMAL`. -/
def VK_IMAGE_LAYOUT_SHADER_READ_ONLY_OPTIMAL : Nat := 5

/-- Vulkan: `VK_IMAGE_ASPECT_COLOR_BIT`. -/
def VK_IMAGE_ASPECT_COLOR_BIT : Nat := 0x00000001

/-- Vulkan: `VK_IMAGE_ASPECT_DEPTH_BIT`. -/
def VK_IMAGE_ASPECT_DEPTH_BIT : Nat := 0x00000002

/-- Vulkan: `VK_IMAGE_ASPECT_STENCIL_BIT`. -/
def VK_IMAGE_ASPECT_STENCIL_BIT : Nat := 0x00000004

/-- The native calls that `CreateImageView` and `Destroy` of `GPUTextureVk`
make, with the arguments that matter. -/
inductive TextureCall where
  | vkCreateImageView (image format aspectMask levelCount : Nat)
  | vkDestroyImageView (imageView : Nat)
  | vmaDestroyImage (image allocation : Nat)
  deriving DecidableEq, Repr

/-- A `GPUTextureVk` right after its constructor: the given descriptor and the
default member initialisers. -/
def GPUTextureVk.new (descriptor : GPUTextureDescriptor) : GPUTextureVk :=
  { desc_ := descriptor, image_ := 0, image_view_ := 0, allocation_ := 0,
    format_ := VK_FORMAT_UNDEFINED, current_layout_ := VK_IMAGE_LAYOUT_UNDEFINED, device_ := 0 }

/-- The method `GPUTextureVk::CreateImageView`. `created` is the outcome of
`vkCreateImageView`: `some view` for `VK_SUCCESS`, `none` for a failure (the
view handle then keeps its value). The result is the new state, the returned
Boolean and the calls made. -/
def GPUTextureVk.CreateImageView (t : GPUTextureVk) (created : Option Nat) :
    GPUTextureVk × Bool × List TextureCall :=
  let aspectMask :=
    if t.desc_.format = GPUTextureFormat.kStencil8 then VK_IMAGE_ASPECT_STENCIL_BIT
    else if t.desc_.format = GPUTextureFormat.kDepth24Stencil8 then
      VK_IMAGE_ASPECT_DEPTH_BIT ||| VK_IMAGE_ASPECT_STENCIL_BIT
    else VK_IMAGE_ASPECT_COLOR_BIT
  let call := TextureCall.vkCreateImageView t.image_ t.format_ aspectMask t.desc_.mip_level_count
  match created with
  | none => (t, false, [call])
  | some view => ({ t with image_view_ := view }, true, [call])

/-- The method `GPUTextureVk::Destroy` (also the body of the destructor): the
new state and the calls made. -/
def GPUTextureVk.Destroy (t : GPUTextureVk) : GPUTextureVk × List TextureCall :=
  let (t1, ev1) :=
    if t.device_ ≠ 0 then
      let (t2, ev2) :=
        if t.image_view_ ≠ 0 then
          ({ t with image_view_ := 0 }, [TextureCall.vkDestroyImageView t.image_view_])
        else (t, [])
      if t2.image_ ≠ 0 ∧ t2.allocation_ ≠ 0 then
        ({ t2 with image_ := 0, allocation_ := 0 },
          ev2 ++ [TextureCall.vmaDestroyImage t2.image_ t2.allocation_])
      else (t2, ev2)
    else (t, [])
  ({ t1 with device_ := 0, current_layout_ := VK_IMAGE_LAYOUT_UNDEFINED }, ev1)

/-- The factory `GPUTextureVk::CreateFromVkImage(device, vk_image, vk_format,
width, height)`. `defaults` is a default-constructed `GPUTextureDescriptor`
and `view` the outcome of `vkCreateImageView`. The result is the returned
texture (`none` for `nullptr`) and the calls made; when the image view cannot
be created the wrapper is dropped, which runs its destructor. -/
def GPUTextureVk.CreateFromVkImage (U : GPUTextureUsage) (defaults : GPUTextureDescriptor)
    (device vk_image vk_format width height : Nat) (view : Option Nat) :
    Option GPUTextureVk × List TextureCall :=
  if device = 0 ∨ vk_image = 0 then (none, [])
  else
    let desc : GPUTextureDescriptor :=
      { defaults with
        width := width
        height := height
        format := if vk_format = VK_FORMAT_B8G8R8A8_SRGB then GPUTextureFormat.kBGRA8Unorm
          else GPUTextureFormat.kRGBA8Unorm
        usage := U.kRenderAttachment }
    let texture : GPUTextureVk :=
      { GPUTextureVk.new desc with
        device_ := device, format_ := vk_format, image_ := vk_image, allocation_ := 0 }
    match texture.CreateImageView view with
    | (texture1, false, ev1) => (none, ev1 ++ texture1.Destroy.2)
    | (texture1, true, ev1) => (some texture1, ev1)

/-- The state and the calls of `n` successive `Destroy` calls. -/
def GPUTextureVk.destroyTimes : Nat → GPUTextureVk → GPUTextureVk × List TextureCall
  | 0, t => (t, [])
  | n + 1, t =>
      let (t1, ev1) := t.Destroy
      let (t2, ev2) := GPUTextureVk.destroyTimes n t1
      (t2, ev1 ++ ev2)

/-- Whether a call frees a native image with its allocation. -/
def TextureCall.isDestroyImage : TextureCall → Bool
  | .vmaDestroyImage _ _ => true
  | _ => false

/-! ## `src/gpu/vk/gpu_sampler_vk.hpp` -/

/-- The field of `GPUSamplerVk` that `GetVkSampler` returns. -/
structure GPUSamplerVk where
  sampler_ : Nat
  deriving DecidableEq, Repr

/-! ## `src/gpu/vk/gpu_descriptor_set_vk.hpp`, `gpu_descriptor_set_vk.cc` -/

/-- Vulkan: the `VkDescriptorType` values that the bind methods write. -/
inductive VkDescriptorType where
  | VK_DESCRIPTOR_TYPE_SAMPLER
  | VK_DESCRIPTOR_TYPE_COMBINED_IMAGE_SAMPLER
  | VK_DESCRIPTOR_TYPE_SAMPLED_IMAGE
  | VK_DESCRIPTOR_TYPE_UNIFORM_BUFFER
  deriving DecidableEq, Repr

/-- Vulkan: the struct `VkDescriptorBufferInfo`. -/
structure VkDescriptorBufferInfo where
  buffer : Nat
  offset : Nat
  range : Nat
  deriving DecidableEq, Repr

/-- Vulkan: the struct `VkDescriptorImageInfo`. -/
structure VkDescriptorImageInfo where
  sampler : Nat
  imageView : Nat
  imageLayout : Nat
  deriving DecidableEq, Repr

/-- Vulkan: the struct `VkWriteDescriptorSet` (`sType` is always
`VK_STRUCTURE_TYPE_WRITE_DESCRIPTOR_SET`, `pNext` null). The two pointers are
`none` for `nullptr` and otherwise the index of the element of `buffer_infos_`
or `image_infos_` whose address was taken. -/
structure VkWriteDescriptorSet where
  dstSet : Nat
  dstBinding : Nat
  dstArrayElement : Nat
  descriptorCount : Nat
  descriptorType : VkDescriptorType
  pImageInfo : Option Nat
  pBufferInfo : Option Nat
  deriving DecidableEq, Repr

/-- The fields of `GPUDescriptorSetVk` that the bind methods and
`UpdateDescriptorSet` use. -/
structure GPUDescriptorSetVk where
  descriptor_set_ : Nat
  write_descriptor_sets_ : List VkWriteDescriptorSet
  buffer_infos_ : List VkDescriptorBufferInfo
  image_infos_ : List VkDescriptorImageInfo
  deriving DecidableEq, Repr

/-- A descriptor set with the handle `descriptor_set` and no pending write, as
after construction and `Initialize`. -/
def GPUDescriptorSetVk.new (descriptor_set : Nat) : GPUDescriptorSetVk :=
  { descriptor_set_ := descriptor_set, write_descriptor_sets_ := [], buffer_infos_ := [],
    image_infos_ := [] }

/-- The native descriptor update that `UpdateDescriptorSet` issues:
`vkUpdateDescriptorSets (device, descriptorWriteCount, pDescriptorWrites, 0,
nullptr)`. -/
inductive DescriptorCall where
  | vkUpdateDescriptorSets (descriptorWriteCount : Nat)
      (pDescriptorWrites : List VkWriteDescriptorSet)
  deriving DecidableEq, Repr

/-- The offset computation of `BindBuffer`: `(offset + 15) & ~15` in `size_t`
arithmetic (`~15` is the `int` -16, converted to `size_t`). -/
def GPUDescriptorSetVk.alignedOffset (offset : Nat) : Nat :=
  ((offset + 15) % 2 ^ 64) &&& 0xFFFFFFFFFFFFFFF0

/-- The method `GPUDescriptorSetVk::BindBuffer(binding, buffer, offset,
range)`. `buffer` is `none` for `nullptr`. The result is the new state and the
native calls made (none). -/
def GPUDescriptorSetVk.BindBuffer (s : GPUDescriptorSetVk) (binding : Nat)
    (buffer : Option GPUBufferVk) (offset range : Nat) :
    GPUDescriptorSetVk × List DescriptorCall :=
  match buffer with
  | none => (s, [])
  | some buffer_vk =>
      let vk_buffer := buffer_vk.buffer_
      if vk_buffer = 0 then (s, [])
      else if vk_buffer < 0x1000 then (s, [])
      else
        let aligned_offset := GPUDescriptorSetVk.alignedOffset offset
        let buffer_info : VkDescriptorBufferInfo :=
          { buffer := vk_buffer, offset := aligned_offset, range := range }
        let write_set : VkWriteDescriptorSet :=
          { dstSet := s.descriptor_set_, dstBinding := binding, dstArrayElement := 0,
            descriptorCount := 1,
            descriptorType := VkDescriptorType.VK_DESCRIPTOR_TYPE_UNIFORM_BUFFER,
            pImageInfo := none, pBufferInfo := none }
        ({ s with
            buffer_infos_ := s.buffer_infos_ ++ [buffer_info]
            write_descriptor_sets_ := s.write_descriptor_sets_ ++ [write_set] }, [])

/-- The method `GPUDescriptorSetVk::BindTexture(binding, texture, sampler)`. -/
def GPUDescriptorSetVk.BindTexture (s : GPUDescriptorSetVk) (binding : Nat)
    (texture : Option GPUTextureVk) (sampler : Option GPUSamplerVk) :
    GPUDescriptorSetVk × List DescriptorCall :=
  match texture with
  | none => (s, [])
  | some texture_vk =>
      let image_info : VkDescriptorImageInfo :=
        { imageLayout := VK_IMAGE_LAYOUT_SHADER_READ_ONLY_OPTIMAL
          imageView := texture_vk.image_view_
          sampler := match sampler with
            | some sampler_vk => sampler_vk.sampler_
            | none => 0 }
      let write_set : VkWriteDescriptorSet :=
        { dstSet := s.descriptor_set_, dstBinding := binding, dstArrayElement := 0,
          descriptorCount := 1,
          descriptorType :=
            if sampler.isSome then VkDescriptorType.VK_DESCRIPTOR_TYPE_COMBINED_IMAGE_SAMPLER
            else VkDescriptorType.VK_DESCRIPTOR_TYPE_SAMPLED_IMAGE,
          pImageInfo := some s.image_infos_.length, pBufferInfo := none }
      ({ s with
          image_infos_ := s.image_infos_ ++ [image_info]
          write_descriptor_sets_ := s.write_descriptor_sets_ ++ [write_set] }, [])

/-- The method `GPUDescriptorSetVk::BindSampler(binding, sampler)`. -/
def GPUDescriptorSetVk.BindSampler (s : GPUDescriptorSetVk) (binding : Nat)
    (sampler : Option GPUSamplerVk) : GPUDescriptorSetVk × List DescriptorCall :=
  match sampler with
  | none => (s, [])
  | some sampler_vk =>
      let image_info : VkDescriptorImageInfo :=
        { sampler := sampler_vk.sampler_, imageView := 0,
          imageLayout := VK_IMAGE_LAYOUT_UNDEFINED }
      let write_set : VkWriteDescriptorSet :=
        { dstSet := s.descriptor_set_, dstBinding := binding, dstArrayElement := 0,
          descriptorCount := 1,
          descriptorType := VkDescriptorType.VK_DESCRIPTOR_TYPE_SAMPLER,
          pImageInfo := some s.image_infos_.length, pBufferInfo := none }
      ({ s with
          image_infos_ := s.image_infos_ ++ [image_info]
          write_descriptor_sets_ := s.write_descriptor_sets_ ++ [write_set] }, [])

/-- The pointer fix-up loop of `UpdateDescriptorSet`: going through the writes
in order, each uniform-buffer write gets the address of the next element of
`buffer_infos_` (of which there are `buffer_count`), as long as there is
one. -/
def GPUDescriptorSetVk.fixBufferPointers (buffer_count : Nat) :
    Nat → List VkWriteDescriptorSet → List VkWriteDescriptorSet
  | _, [] => []
  | buffer_index, write_set :: rest =>
      if write_set.descriptorType = VkDescriptorType.VK_DESCRIPTOR_TYPE_UNIFORM_BUFFER ∧
          buffer_index < buffer_count then
        { write_set with pBufferInfo := some buffer_index } ::
          GPUDescriptorSetVk.fixBufferPointers buffer_count (buffer_index + 1) rest
      else write_set :: GPUDescriptorSetVk.fixBufferPointers buffer_count buffer_index rest

/-- The method `GPUDescriptorSetVk::UpdateDescriptorSet`: the new state (the
fix-up writes into `write_descriptor_sets_`), the returned Boolean and the
native calls made. -/
def GPUDescriptorSetVk.UpdateDescriptorSet (s : GPUDescriptorSetVk) :
    GPUDescriptorSetVk × Bool × List DescriptorCall :=
  if s.write_descriptor_sets_.isEmpty then (s, true, [])
  else
    let writes :=
      GPUDescriptorSetVk.fixBufferPointers s.buffer_infos_.length 0 s.write_descriptor_sets_
    ({ s with write_descriptor_sets_ := writes }, true,
      [DescriptorCall.vkUpdateDescriptorSets (writes.length % 2 ^ 32) writes])

/-- One bind call on a descriptor set. -/
inductive BindCall where
  | BindBuffer (binding : Nat) (buffer : Option GPUBufferVk) (offset range : Nat)
  | BindTexture (binding : Nat) (texture : Option GPUTextureVk) (sampler : Option GPUSamplerVk)
  | BindSampler (binding : Nat) (sampler : Option GPUSamplerVk)
  deriving DecidableEq, Repr

/-- Performs one bind call: the new state and the native calls made. -/
def GPUDescriptorSetVk.bind (s : GPUDescriptorSetVk) :
    BindCall → GPUDescriptorSetVk × List DescriptorCall
  | .BindBuffer binding buffer offset range => s.BindBuffer binding buffer offset range
  | .BindTexture binding texture sampler => s.BindTexture binding texture sampler
  | .BindSampler binding sampler => s.BindSampler binding sampler

/-- Performs a sequence of bind calls, in order: the final state and all the
native calls made. -/
def GPUDescriptorSetVk.bindAll (s : GPUDescriptorSetVk) :
    List BindCall → GPUDescriptorSetVk × List DescriptorCall
  | [] => (s, [])
  | call :: rest =>
      let (s1, ev1) := s.bind call
      let (s2, ev2) := GPUDescriptorSetVk.bindAll s1 rest
      (s2, ev1 ++ ev2)

/-- Whether a bind call passes the checks of its method: the resource is not
null and, for a buffer, its native handle is neither null nor below
`0x1000`. -/
def BindCall.isAccepted : BindCall → Bool
  | .BindBuffer _ buffer _ _ =>
      match buffer with
      | none => false
      | some buffer_vk => decide (buffer_vk.buffer_ ≠ 0 ∧ ¬ buffer_vk.buffer_ < 0x1000)
  | .BindTexture _ texture _ => texture.isSome
  | .BindSampler _ sampler => sampler.isSome

/-- The buffer infos that the accepted `BindBuffer` calls of a sequence record,
in call order, each with the binding slot of its call: the current native
handle of the buffer, the aligned offset, the caller's range. -/
def BindCall.recordedBuffers : List BindCall → List (Nat × VkDescriptorBufferInfo)
  | [] => []
  | .BindBuffer binding (some buffer_vk) offset range :: rest =>
      if buffer_vk.buffer_ ≠ 0 ∧ ¬ buffer_vk.buffer_ < 0x1000 then
        (binding, { buffer := buffer_vk.buffer_
                    offset := GPUDescriptorSetVk.alignedOffset offset
                    range := range }) :: BindCall.recordedBuffers rest
      else BindCall.recordedBuffers rest
  | _ :: rest => BindCall.recordedBuffers rest

/-- The binding slot that a bind call names. -/
def BindCall.binding : BindCall → Nat
  | .BindBuffer binding _ _ _ => binding
  | .BindTexture binding _ _ => binding
  | .BindSampler binding _ => binding

/-- A sequence of bind calls for concrete runs: a uniform buffer for slot 0, a
texture without sampler for slot 1, a null sampler for slot 3 and a second
uniform buffer for slot 2. -/
def BindCall.sample : List BindCall :=
  [BindCall.BindBuffer 0
      (some { usage := 0x40, buffer_ := 0x2000, allocation_ := 1, mapped_ptr_ := 0,
              size_ := 64, is_mapped_ := false }) 0 64,
    BindCall.BindTexture 1
      (some { desc_ := ⟨4, 4, GPUTextureFormat.kRGBA8Unorm, 4, 1, 1, 0⟩, image_ := 3,
              image_view_ := 5, allocation_ := 6, format_ := 37, current_layout_ := 5,
              device_ := 9 }) none,
    BindCall.BindSampler 3 none,
    BindCall.BindBuffer 2
      (some { usage := 0x40, buffer_ := 0x3000, allocation_ := 2, mapped_ptr_ := 0,
              size_ := 64, is_mapped_ := false }) 20 32]

/-- The uniform-buffer writes of a list of writes, in order. -/
def VkWriteDescriptorSet.uniformWrites (writes : List VkWriteDescriptorSet) :
    List VkWriteDescriptorSet :=
  writes.filter fun w => w.descriptorType = VkDescriptorType.VK_DESCRIPTOR_TYPE_UNIFORM_BUFFER

/-! ## `src/gpu/gpu_render_pipeline.hpp`: the declarations that the embedded sources use -/

/-- The struct `GPUVertexAttribute` (declared in
`src/gpu/gpu_render_pipeline.hpp`, outside the embedded sources): the three
fields that the sources compare and hash. Enumerations are kept as their
values. -/
structure GPUVertexAttribute where
  format : Nat
  offset : Nat
  shader_location : Nat
  deriving DecidableEq, Repr

/-- The struct `GPUVertexBufferLayout` (declared in
`src/gpu/gpu_render_pipeline.hpp`, outside the embedded sources). -/
structure GPUVertexBufferLayout where
  array_stride : Nat
  step_mode : Nat
  attributes : List GPUVertexAttribute
  deriving DecidableEq, Repr

/-- The stencil state of one face, as `CreateGraphicsPipeline` reads it from
`desc.depth_stencil.stencil_state.front` and `.back` (declared outside the
embedded sources; enumerations are kept as their values). -/
structure GPUStencilFaceState where
  fail_op : Nat := 0
  pass_op : Nat := 0
  depth_fail_op : Nat := 0
  compare : Nat := 0
  stencil_read_mask : Nat := 0xFF
  stencil_write_mask : Nat := 0xFF
  deriving DecidableEq, Repr

/-- The stencil state `desc.depth_stencil.stencil_state`. -/
structure GPUStencilState where
  front : GPUStencilFaceState := {}
  back : GPUStencilFaceState := {}
  deriving DecidableEq, Repr

/-- The depth state `desc.depth_stencil.depth_state`. -/
structure GPUDepthState where
  enableWrite : Bool := false
  compare : Nat := 0
  deriving DecidableEq, Repr

/-! ## `src/gpu/vk/gpu_render_pipeline_vk.hpp`, `gpu_render_pipeline_vk.cc` -/

/-- The outcome of a native creation call: whether it returned `VK_SUCCESS`,
and the handle it left in its output argument. -/
structure NativeResult where
  success : Bool
  handle : Nat
  deriving DecidableEq, Repr

/-- The struct `DescriptorBinding` (declared in `gpu_descriptor_set_vk.hpp`). -/
structure DescriptorBinding where
  binding : Nat
  type : VkDescriptorType
  count : Nat
  stage_flags : Nat
  deriving DecidableEq, Repr

/-- Vulkan: `VK_SHADER_STAGE_VERTEX_BIT`. -/
def VK_SHADER_STAGE_VERTEX_BIT : Nat := 0x00000001

/-- Vulkan: `VK_SHADER_STAGE_FRAGMENT_BIT`. -/
def VK_SHADER_STAGE_FRAGMENT_BIT : Nat := 0x00000010

/-- Vulkan: the `VkDynamicState` values that the pipeline declares. -/
inductive VkDynamicState where
  | VK_DYNAMIC_STATE_VIEWPORT
  | VK_DYNAMIC_STATE_SCISSOR
  | VK_DYNAMIC_STATE_STENCIL_REFERENCE
  deriving DecidableEq, Repr

/-- The members of `GPUShaderFunctionVk` that the pipeline code reads: the
label of the base class and the shader module. -/
structure GPUShaderFunctionVk where
  label_ : String
  shader_module_ : Nat
  deriving DecidableEq, Repr

/-- The fields of `GPURenderPipelineDescriptor` that `CreateGraphicsPipeline`
and the pipeline cache read. The struct is declared in
`src/gpu/gpu_render_pipeline.hpp`, outside the embedded sources; a shader
function is `none` when the shared pointer is null. The members of
`desc.target` and `desc.depth_stencil` are fields of the descriptor itself
here (`target_format` for `desc.target.format`, `enable_stencil` for
`desc.depth_stencil.enable_stencil`, and so on); enumerations other than the
format are kept as their values. -/
structure GPURenderPipelineDescriptor where
  vertex_function : Option GPUShaderFunctionVk
  fragment_function : Option GPUShaderFunctionVk
  target_format : GPUTextureFormat
  enable_depth : Bool
  enable_stencil : Bool
  buffers : List GPUVertexBufferLayout := []
  target_src_blend_factor : Nat := 0
  target_dst_blend_factor : Nat := 0
  target_write_mask : Nat := 0xF
  sample_count : Nat := 1
  depth_state : GPUDepthState := {}
  stencil_state : GPUStencilState := {}
  deriving DecidableEq, Repr

/-- The fields of `GPURenderPipelineVk`, with the descriptor of its base class
`GPURenderPipeline`. -/
structure GPURenderPipelineVk where
  desc_ : GPURenderPipelineDescriptor
  device_ : Nat
  pipeline_ : Nat
  pipeline_layout_ : Nat
  descriptor_set_layouts_ : List Nat
  shader_bindings_ : List DescriptorBinding
  has_stencil_testing_ : Bool
  valid_ : Bool
  deriving DecidableEq, Repr

/-- The native calls of pipeline creation and destruction, with the arguments
that matter. -/
inductive PipelineCall where
  | vkCreateDescriptorSetLayout (bindings : List DescriptorBinding)
  | vkCreatePipelineLayout (setLayouts : List Nat)
  | vkCreateGraphicsPipelines (layout renderPass vertexModule fragmentModule : Nat)
      (stencilTestEnable : Bool) (dynamicStates : List VkDynamicState)
  | vkDestroyPipeline (pipeline : Nat)
  | vkDestroyPipelineLayout (layout : Nat)
  | vkDestroyDescriptorSetLayout (layout : Nat)
  deriving DecidableEq, Repr

/-- A `GPURenderPipelineVk` right after its constructor. -/
def GPURenderPipelineVk.new (device : Nat) (desc : GPURenderPipelineDescriptor) :
    GPURenderPipelineVk :=
  { desc_ := desc, device_ := device, pipeline_ := 0, pipeline_layout_ := 0,
    descriptor_set_layouts_ := [], shader_bindings_ := [], has_stencil_testing_ := false,
    valid_ := false }

/-- The destructor of `GPURenderPipelineVk`: the native calls it makes. -/
def GPURenderPipelineVk.destructor (p : GPURenderPipelineVk) : List PipelineCall :=
  (if p.pipeline_ ≠ 0 then [PipelineCall.vkDestroyPipeline p.pipeline_] else []) ++
  (if p.pipeline_layout_ ≠ 0 then [PipelineCall.vkDestroyPipelineLayout p.pipeline_layout_]
   else []) ++
  (p.descriptor_set_layouts_.filter (fun layout => layout ≠ 0)).map
    PipelineCall.vkDestroyDescriptorSetLayout

/-- The method `GPURenderPipelineVk::IsValid`. -/
def GPURenderPipelineVk.IsValid (p : GPURenderPipelineVk) : Bool :=
  p.valid_ && decide (p.pipeline_ ≠ 0) && decide (p.pipeline_layout_ ≠ 0)

/-- The four uniform-buffer bindings (slots 0 to 3, vertex and fragment stage)
that `CreatePipelineLayout` declares. -/
def GPURenderPipelineVk.defaultShaderBindings : List DescriptorBinding :=
  (List.range 4).map fun binding_idx =>
    { binding := binding_idx
      type := VkDescriptorType.VK_DESCRIPTOR_TYPE_UNIFORM_BUFFER
      count := 1
      stage_flags := VK_SHADER_STAGE_VERTEX_BIT ||| VK_SHADER_STAGE_FRAGMENT_BIT }

/-- The method `GPURenderPipelineVk::CreatePipelineLayout`. `descriptor_layout`
and `pipeline_layout` are the outcomes of `vkCreateDescriptorSetLayout` and
`vkCreatePipelineLayout`. A failed descriptor-set layout is only logged
("proceeding without it"). -/
def GPURenderPipelineVk.CreatePipelineLayout (p : GPURenderPipelineVk)
    (descriptor_layout pipeline_layout : NativeResult) :
    GPURenderPipelineVk × Bool × List PipelineCall :=
  let shader_bindings := GPURenderPipelineVk.defaultShaderBindings
  let p1 := { p with shader_bindings_ := shader_bindings }
  let ev1 := [PipelineCall.vkCreateDescriptorSetLayout shader_bindings]
  let p2 :=
    if descriptor_layout.success ∧ descriptor_layout.handle ≠ 0 then
      { p1 with descriptor_set_layouts_ := p1.descriptor_set_layouts_ ++
          [descriptor_layout.handle] }
    else p1
  let ev2 := ev1 ++ [PipelineCall.vkCreatePipelineLayout p2.descriptor_set_layouts_]
  let p3 := { p2 with pipeline_layout_ := pipeline_layout.handle }
  if !pipeline_layout.success then (p3, false, ev2)
  else (p3, true, ev2)

/-- The method `GPURenderPipelineVk::CreateGraphicsPipeline`, as far as its
control flow and the handles go: it needs both shader functions, records
whether stencil testing is enabled, and creates the native pipeline with the
pipeline layout, the render pass `render_pass` that the device returns for
`GetCompatibleRenderPass (VK_FORMAT_B8G8R8A8_SRGB, true)` and the dynamic
states. `graphics_pipeline` is the outcome of `vkCreateGraphicsPipelines`. -/
def GPURenderPipelineVk.CreateGraphicsPipeline (p : GPURenderPipelineVk) (render_pass : Nat)
    (graphics_pipeline : NativeResult) : GPURenderPipelineVk × Bool × List PipelineCall :=
  match p.desc_.vertex_function, p.desc_.fragment_function with
  | some vertex_shader_vk, some fragment_shader_vk =>
      let enable_stencil := p.desc_.enable_stencil
      let p1 := { p with has_stencil_testing_ := enable_stencil }
      let dynamic_states :=
        [VkDynamicState.VK_DYNAMIC_STATE_VIEWPORT, VkDynamicState.VK_DYNAMIC_STATE_SCISSOR] ++
          (if enable_stencil then [VkDynamicState.VK_DYNAMIC_STATE_STENCIL_REFERENCE] else [])
      let call := PipelineCall.vkCreateGraphicsPipelines p1.pipeline_layout_ render_pass
        vertex_shader_vk.shader_module_ fragment_shader_vk.shader_module_ enable_stencil
        dynamic_states
      let p2 := { p1 with pipeline_ := graphics_pipeline.handle }
      if !graphics_pipeline.success then (p2, false, [call])
      else (p2, true, [call])
  | _, _ => (p, false, [])

/-- The factory `GPURenderPipelineVk::Create(device, desc)`: the returned
pipeline (`none` for `nullptr`) and the native calls made; when a step fails
the half-built object is dropped, which runs its destructor. -/
def GPURenderPipelineVk.Create (device : Nat) (desc : GPURenderPipelineDescriptor)
    (descriptor_layout pipeline_layout : NativeResult) (render_pass : Nat)
    (graphics_pipeline : NativeResult) : Option GPURenderPipelineVk × List PipelineCall :=
  let pipeline := GPURenderPipelineVk.new device desc
  match pipeline.CreatePipelineLayout descriptor_layout pipeline_layout with
  | (p1, false, ev1) => (none, ev1 ++ p1.destructor)
  | (p1, true, ev1) =>
      match p1.CreateGraphicsPipeline render_pass graphics_pipeline with
      | (p2, false, ev2) => (none, ev1 ++ ev2 ++ p2.destructor)
      | (p2, true, ev2) => (some { p2 with valid_ := true }, ev1 ++ ev2)

/-! ## `src/gpu/vk/gpu_command_buffer_vk.hpp`, `gpu_command_buffer_vk.cc` -/

/-- The fields of `GPUCommandBufferVk` that recording and submission use. A
recorded pass is the address of the pass object. -/
structure GPUCommandBufferVk where
  command_buffer_ : Nat
  is_recording_ : Bool
  render_passes_ : List Nat
  blit_passes_ : List Nat
  deriving DecidableEq, Repr

/-- The native calls of recording and submission. -/
inductive CommandBufferCall where
  | vkBeginCommandBuffer (commandBuffer : Nat)
  | vkEndCommandBuffer (commandBuffer : Nat)
  | vkQueueSubmit (commandBuffer : Nat)
  | vkQueueWaitIdle
  | vkResetCommandBuffer (commandBuffer : Nat)
  deriving DecidableEq, Repr

/-- The method `GPUCommandBufferVk::Reset`. -/
def GPUCommandBufferVk.Reset (s : GPUCommandBufferVk) :
    GPUCommandBufferVk × List CommandBufferCall :=
  ({ s with render_passes_ := [], blit_passes_ := [], is_recording_ := false },
    if s.command_buffer_ ≠ 0 then [CommandBufferCall.vkResetCommandBuffer s.command_buffer_]
    else [])

/-- The method `GPUCommandBufferVk::BeginRecording`. `begin_ok` tells whether
`vkBeginCommandBuffer`, when it is called, returns `VK_SUCCESS`. -/
def GPUCommandBufferVk.BeginRecording (s : GPUCommandBufferVk) (begin_ok : Bool) :
    GPUCommandBufferVk × Bool × List CommandBufferCall :=
  if s.is_recording_ then (s, true, [])
  else if !begin_ok then (s, false, [CommandBufferCall.vkBeginCommandBuffer s.command_buffer_])
  else ({ s with is_recording_ := true }, true,
    [CommandBufferCall.vkBeginCommandBuffer s.command_buffer_])

/-- The method `GPUCommandBufferVk::EndRecording`. `end_ok` tells whether
`vkEndCommandBuffer`, when it is called, returns `VK_SUCCESS`. -/
def GPUCommandBufferVk.EndRecording (s : GPUCommandBufferVk) (end_ok : Bool) :
    GPUCommandBufferVk × Bool × List CommandBufferCall :=
  if !s.is_recording_ then (s, true, [])
  else if !end_ok then (s, false, [CommandBufferCall.vkEndCommandBuffer s.command_buffer_])
  else ({ s with is_recording_ := false }, true,
    [CommandBufferCall.vkEndCommandBuffer s.command_buffer_])

/-- The method `GPUCommandBufferVk::BeginRenderPass`. `render_pass` is the
address of the `GPURenderPassVk` that `make_shared` creates; the result is
the new state, the returned pointer (`none` for `nullptr`) and the native
calls made. -/
def GPUCommandBufferVk.BeginRenderPass (s : GPUCommandBufferVk) (begin_ok : Bool)
    (render_pass : Nat) : GPUCommandBufferVk × Option Nat × List CommandBufferCall :=
  match s.BeginRecording begin_ok with
  | (s1, false, ev1) => (s1, none, ev1)
  | (s1, true, ev1) =>
      ({ s1 with render_passes_ := s1.render_passes_ ++ [render_pass] }, some render_pass, ev1)

/-- The method `GPUCommandBufferVk::BeginBlitPass`. `blit_pass` is the address
of the `GPUBlitPassVk` that `make_shared` creates. -/
def GPUCommandBufferVk.BeginBlitPass (s : GPUCommandBufferVk) (begin_ok : Bool)
    (blit_pass : Nat) : GPUCommandBufferVk × Option Nat × List CommandBufferCall :=
  match s.BeginRecording begin_ok with
  | (s1, false, ev1) => (s1, none, ev1)
  | (s1, true, ev1) =>
      ({ s1 with blit_passes_ := s1.blit_passes_ ++ [blit_pass] }, some blit_pass, ev1)

/-- The method `GPUCommandBufferVk::Submit`. `end_ok` and `submit_ok` tell
whether `vkEndCommandBuffer` and `vkQueueSubmit` return `VK_SUCCESS`. -/
def GPUCommandBufferVk.Submit (s : GPUCommandBufferVk) (end_ok submit_ok : Bool) :
    GPUCommandBufferVk × Bool × List CommandBufferCall :=
  match s.EndRecording end_ok with
  | (s1, false, ev1) => (s1, false, ev1)
  | (s1, true, ev1) =>
      let ev2 := ev1 ++ [CommandBufferCall.vkQueueSubmit s1.command_buffer_]
      if !submit_ok then (s1, false, ev2)
      else
        let ev3 := ev2 ++ [CommandBufferCall.vkQueueWaitIdle]
        match s1.Reset with
        | (s2, ev4) => (s2, true, ev3 ++ ev4)

/-- One pass-opening call on a command buffer, with the outcome of the native
recording start (used only when the call makes one) and the address of the
new pass object. -/
inductive BeginPassCall where
  | BeginRenderPass (begin_ok : Bool) (render_pass : Nat)
  | BeginBlitPass (begin_ok : Bool) (blit_pass : Nat)
  deriving DecidableEq, Repr

/-- Performs one pass-opening call: the new state and the native calls. -/
def GPUCommandBufferVk.beginPass (s : GPUCommandBufferVk) :
    BeginPassCall → GPUCommandBufferVk × List CommandBufferCall
  | .BeginRenderPass begin_ok render_pass =>
      ((s.BeginRenderPass begin_ok render_pass).1, (s.BeginRenderPass begin_ok render_pass).2.2)
  | .BeginBlitPass begin_ok blit_pass =>
      ((s.BeginBlitPass begin_ok blit_pass).1, (s.BeginBlitPass begin_ok blit_pass).2.2)

/-- Performs a sequence of pass-opening calls, in order. -/
def GPUCommandBufferVk.beginPasses (s : GPUCommandBufferVk) :
    List BeginPassCall → GPUCommandBufferVk × List CommandBufferCall
  | [] => (s, [])
  | call :: rest =>
      let (s1, ev1) := s.beginPass call
      let (s2, ev2) := GPUCommandBufferVk.beginPasses s1 rest
      (s2, ev1 ++ ev2)

/-- The native outcome carried by a pass-opening call. -/
def BeginPassCall.begin_ok : BeginPassCall → Bool
  | .BeginRenderPass begin_ok _ => begin_ok
  | .BeginBlitPass begin_ok _ => begin_ok

/-- The render passes that a sequence of pass-opening calls asks for, in
order. -/
def BeginPassCall.renderPasses : List BeginPassCall → List Nat
  | [] => []
  | .BeginRenderPass _ render_pass :: rest => render_pass :: BeginPassCall.renderPasses rest
  | .BeginBlitPass _ _ :: rest => BeginPassCall.renderPasses rest

/-- The blit passes that a sequence of pass-opening calls asks for, in
order. -/
def BeginPassCall.blitPasses : List BeginPassCall → List Nat
  | [] => []
  | .BeginRenderPass _ _ :: rest => BeginPassCall.blitPasses rest
  | .BeginBlitPass _ blit_pass :: rest => blit_pass :: BeginPassCall.blitPasses rest

/-- The state Idle: not recording, no recorded passes. -/
def GPUCommandBufferVk.isIdle (s : GPUCommandBufferVk) : Bool :=
  !s.is_recording_ && s.render_passes_.isEmpty && s.blit_passes_.isEmpty

/-! ## `src/gpu/vk/sync_objects_vk.cc`: `VkFence` -/

/-- Vulkan: a `VkResult` is a signed 32-bit code. -/
abbrev VkResult := Int

/-- Vulkan: `VK_SUCCESS`. -/
def VK_SUCCESS : VkResult := 0

/-- Vulkan: `VK_TIMEOUT`. -/
def VK_TIMEOUT : VkResult := 2

/-- Vulkan: `VK_ERROR_DEVICE_LOST`. -/
def VK_ERROR_DEVICE_LOST : VkResult := -4

/-- The fields of `skity::VkFence`. -/
structure VkFence where
  device_ : Nat
  fence_ : Nat
  deriving DecidableEq, Repr

/-- What `VkFence::Wait` does besides returning: the native wait and the error
log. -/
inductive FenceEvent where
  | vkWaitForFences (fence timeout : Nat)
  | LOGE
  deriving DecidableEq, Repr

/-- The method `VkFence::IsValid`. -/
def VkFence.IsValid (f : VkFence) : Bool := decide (f.fence_ ≠ 0)

/-- The method `VkFence::Wait(timeout_ns)`. `native` is what `vkWaitForFences`
returns when it is called; the result is the returned Boolean and what the
method did. -/
def VkFence.Wait (f : VkFence) (timeout_ns : Nat) (native : VkResult) :
    Bool × List FenceEvent :=
  if !f.IsValid then (false, [])
  else
    let result := native
    let called := [FenceEvent.vkWaitForFences f.fence_ timeout_ns]
    if result = VK_SUCCESS then (true, called)
    else if result = VK_TIMEOUT then (false, called)
    else (false, called ++ [FenceEvent.LOGE])

/-! ## `src/render/hw/hw_pipeline_key.hpp`: function keys and gradient bits -/

/-- The method `HWPipelineKey::GetFunctionKey(stage)`: the vertex or fragment
sub-key of the base key (for a fragment key with the compose list), then the
stage is OR-ed in at bit 32 of the 64-bit base key. -/
def HWPipelineKey.GetFunctionKey (k : HWPipelineKey) (stage : GPUShaderStage) : HWPipelineKey :=
  let key : HWPipelineKey :=
    match stage with
    | GPUShaderStage.kVertex => { base_key := k.GetVertexBaseKey, compose_keys := none }
    | GPUShaderStage.kFragment =>
        { base_key := k.GetFragmentBaseKey, compose_keys := k.compose_keys }
  { key with base_key := key.base_key ||| (stage.toNat <<< 32) % 2 ^ 64 }

/-- The constant `kGradientTypeShift`. -/
def kGradientTypeShift : Nat := 0

/-- The constant `kMaxColorCountShift`. -/
def kMaxColorCountShift : Nat := 3

/-- The constant `kOffsetFastShift`. -/
def kOffsetFastShift : Nat := 6

/-- The constant `kColorFastShift`. -/
def kColorFastShift : Nat := 7

/-- The constant `kGradientTypeLinear`. -/
def kGradientTypeLinear : Nat := 1

/-- The constant `kGradientTypeRadial`. -/
def kGradientTypeRadial : Nat := 2

/-- The constant `kGradientTypeConical`. -/
def kGradientTypeConical : Nat := 3

/-- The constant `kGradientTypeSweep`. -/
def kGradientTypeSweep : Nat := 4

/-! ## `src/render/hw/hw_pipeline_key.cc` -/

/-- The conversion `static_cast<HWGeometryKeyType::Value>(value)` as the
`switch` statements see it: the enumerator with that value, `none` when there
is none (the `default` branch). -/
def HWGeometryKeyType.ofValue : Nat → Option HWGeometryKeyType
  | 1 => some .kPath
  | 2 => some .kPathAA
  | 3 => some .kTessFill
  | 4 => some .kTessStroke
  | 5 => some .kColorText
  | 6 => some .kGradientText
  | 7 => some .kRRect
  | 8 => some .kClip
  | 9 => some .kFilter
  | _ => none

/-- The conversion `static_cast<HWFragmentKeyType::Value>(value)` as the
`switch` statements see it. -/
def HWFragmentKeyType.ofValue : Nat → Option HWFragmentKeyType
  | 1 => some .kSolid
  | 2 => some .kSolidVertex
  | 3 => some .kGradient
  | 4 => some .kTexture
  | 5 => some .kStencil
  | 6 => some .kBlur
  | 7 => some .kColorText
  | 8 => some .kEmojiText
  | 9 => some .kGradientText
  | 10 => some .kSDFText
  | 11 => some .kTextureText
  | 12 => some .kImageFilter
  | _ => none

/-- The conversion `static_cast<HWColorFilterKeyType::Value>(value)` as the
`switch` statements see it. -/
def HWColorFilterKeyType.ofValue : Nat → Option HWColorFilterKeyType
  | 0 => some .kUnknown
  | 1 => some .kClear
  | 2 => some .kSrc
  | 3 => some .kDst
  | 4 => some .kSrcOver
  | 5 => some .kDstOver
  | 6 => some .kSrcIn
  | 7 => some .kDstIn
  | 8 => some .kSrcOut
  | 9 => some .kDstOut
  | 10 => some .kSrcATop
  | 11 => some .kDstATop
  | 12 => some .kXor
  | 13 => some .kPlus
  | 14 => some .kModulate
  | 15 => some .kScreen
  | 16 => some .kMatrix
  | 17 => some .kLinearToSRGBGamma
  | 18 => some .kSRGBToLinearGamma
  | 0xFF => some .kCompose
  | _ => none

/-- The function `HWGeometryKeyTypeToName`. -/
def HWGeometryKeyTypeToName (value : Nat) : String :=
  match HWGeometryKeyType.ofValue value with
  | some .kPath => "Path"
  | some .kPathAA => "PathAA"
  | some .kTessFill => "TessPathFill"
  | some .kTessStroke => "TessPathStroke"
  | some .kColorText => "TextSolidColorVertexWGSL"
  | some .kGradientText => "TextGradientVertexWGSL"
  | some .kRRect => "RRect"
  | some .kClip => "Clip"
  | some .kFilter => "CommonFilterVertexWGSL"
  | none => "UnknownGeometry"

/-- The function `HWGeometrySubKeyTypeToName`. -/
def HWGeometrySubKeyTypeToName (value : Nat) : String :=
  match HWGeometryKeyType.ofValue value with
  | some .kPathAA => "AA"
  | some .kRRect => "RRect"
  | _ => "UnknownGeometry"

/-- The function `CustomKeyToGradientName(custom)` on `uint32_t`; the colour
count is written to the stream in decimal. -/
def CustomKeyToGradientName (custom : Nat) : String :=
  let ss := "Gradient"
  let type := custom &&& 0x07
  let max_color_shift := (custom >>> kMaxColorCountShift) &&& 0x07
  let max_color_count := (1 <<< max_color_shift) % 2 ^ 32
  let offset_fast := (custom >>> kOffsetFastShift) &&& 0x01 ≠ 0
  let color_fast := (custom >>> kColorFastShift) &&& 0x01 ≠ 0
  let ss :=
    if type = kGradientTypeLinear then ss ++ "Linear"
    else if type = kGradientTypeRadial then ss ++ "Radial"
    else if type = kGradientTypeConical then ss ++ "Conical"
    else if type = kGradientTypeSweep then ss ++ "Sweep"
    else ss ++ "Unknown"
  let ss := ss ++ toString max_color_count
  let ss := if offset_fast then ss ++ "OffsetFast" else ss
  let ss := if color_fast then ss ++ "ColorFast" else ss
  ss

/-- The function `HWFragmentKeyTypeToName(value, custom)`. -/
def HWFragmentKeyTypeToName (value custom : Nat) : String :=
  match HWFragmentKeyType.ofValue value with
  | some .kSolid => "SolidColor"
  | some .kSolidVertex => "SolidVertexColor"
  | some .kGradient => CustomKeyToGradientName custom
  | some .kTexture => "Texture"
  | some .kStencil => "StencilFragmentWGSL"
  | some .kBlur => "BlurFragmentWGSL"
  | some .kColorText => "ColorTextFragmentWGSL"
  | some .kEmojiText =>
      "ColorEmoji" ++ (if custom > 0 then "SwizzleRB" else "NoSwizzle") ++ "FragmentWGSL"
  | some .kGradientText => CustomKeyToGradientName custom ++ "TextWGSL"
  | some .kSDFText => "SdfColorTextFragmentWGSL"
  | some .kTextureText => "TextureText"
  | some .kImageFilter => "ImageFilterFragmentWGSL"
  | none => "UnknownFragment"

/-- The function `HWFragmentKeySubTypeToName`. -/
def HWFragmentKeySubTypeToName (value : Nat) : String :=
  match HWFragmentKeyType.ofValue value with
  | some .kSolidVertex => "SolidVertexColor"
  | some .kGradient => "Gradient"
  | some .kTexture => "Texture"
  | _ => "UnknownFragment"

/-- The function `HWColorFilterKeyTypeToName`; `kUnknown` has no case and
takes the `default` branch. -/
def HWColorFilterKeyTypeToName (value : Nat) : String :=
  match HWColorFilterKeyType.ofValue value with
  | some .kClear => "BlendClearFilter"
  | some .kSrc => "BlendSrcFilter"
  | some .kDst => "BlendDstFilter"
  | some .kSrcOver => "BlendSrcOverFilter"
  | some .kDstOver => "BlendDstOverFilter"
  | some .kSrcIn => "BlendSrcInFilter"
  | some .kDstIn => "BlendDstInFilter"
  | some .kSrcOut => "BlendSrcOutFilter"
  | some .kDstOut => "BlendDstOutFilter"
  | some .kSrcATop => "BlendSrcATopFilter"
  | some .kDstATop => "BlendDstATopFilter"
  | some .kXor => "BlendXorFilter"
  | some .kPlus => "BlendPlusFilter"
  | some .kModulate => "BlendModulateFilter"
  | some .kScreen => "BlendScreenFilter"
  | some .kMatrix => "MatrixFilter"
  | some .kSRGBToLinearGamma => "SRGBToLinearGammaFilter"
  | some .kLinearToSRGBGamma => "LinearToSRGBGammaFilter"
  | some .kCompose => "ComposeFilter"
  | _ => "UnknownColorFilter"

/-- The function `VertexKeyToShaderName(base_key)` on a 32-bit key. -/
def VertexKeyToShaderName (base_key : Nat) : String :=
  let main := (base_key >>> kMainKeyShift) &&& 0xFF
  let sub := (base_key >>> kSubKeyShift) &&& 0xFF
  let ss := HWGeometryKeyTypeToName main
  let ss := if sub > 0 then ss ++ "_" ++ HWFragmentKeySubTypeToName sub else ss
  ss

/-- The loop of `FragmentKeyToShaderName` over the compose keys: each key
appends `"_"` and its colour-filter name to the stream. -/
def FragmentKeyToShaderName.appendComposeKeys (ss : String) : List Nat → String
  | [] => ss
  | key :: rest =>
      FragmentKeyToShaderName.appendComposeKeys (ss ++ "_" ++ HWColorFilterKeyTypeToName key)
        rest

/-- The function `FragmentKeyToShaderName(base_key, compose_keys)` on a 32-bit
key and an optional list of compose keys. -/
def FragmentKeyToShaderName (base_key : Nat) (compose_keys : Option (List Nat)) : String :=
  let custom := ((base_key >>> kMainKeyShift) >>> kCustomKeyShift) &&& 0xFF
  let main := (base_key >>> kMainKeyShift) &&& 0xFF
  let ss := HWFragmentKeyTypeToName main custom
  let sub := (base_key >>> kSubKeyShift) &&& 0xFF
  let filter := base_key &&& 0xFF
  let ss := if sub > 0 then ss ++ "_" ++ HWGeometrySubKeyTypeToName sub else ss
  let ss := if filter > 0 then ss ++ "_" ++ HWColorFilterKeyTypeToName filter else ss
  match compose_keys with
  | some keys => FragmentKeyToShaderName.appendComposeKeys ss keys
  | none => ss

/-- The function `FunctionBaseKeyToShaderName(base_key)` on a 64-bit function
key. -/
def FunctionBaseKeyToShaderName (base_key : Nat) : String :=
  if base_key >>> 32 = GPUShaderStage.kVertex.toNat then
    "VS_" ++ VertexKeyToShaderName (base_key &&& 0xFFFFFFFF)
  else if base_key >>> 32 = GPUShaderStage.kFragment.toNat then
    "FS_" ++ FragmentKeyToShaderName (base_key &&& 0xFFFFFFFF) none
  else "Unknown_" ++ toString base_key

/-- The gradient type word of a custom byte: the value the claim about
gradient names calls `T`. -/
def gradientTypeWord (c : Nat) : String :=
  if c &&& 7 = 1 then "Linear"
  else if c &&& 7 = 2 then "Radial"
  else if c &&& 7 = 3 then "Conical"
  else if c &&& 7 = 4 then "Sweep"
  else "Unknown"

/-- The gradient name as the specification words it: `"Gradient"`, the type
word, the decimal form of `2 ^ ((c >> 3) & 7)`, `"OffsetFast"` when bit 6 of
`c` is set, `"ColorFast"` when bit 7 of `c` is set. -/
def specGradientName (c : Nat) : String :=
  "Gradient" ++ gradientTypeWord c ++ toString (2 ^ ((c >>> 3) &&& 7)) ++
    (if c.testBit 6 then "OffsetFast" else "") ++ (if c.testBit 7 then "ColorFast" else "")

/-- The names of the compose keys as the specification words them: `"_"` and
the colour-filter name for each element, in list order. -/
def specComposeSuffix : List Nat → String
  | [] => ""
  | key :: rest => "_" ++ HWColorFilterKeyTypeToName key ++ specComposeSuffix rest

/-- The fragment shader name as the specification words it, from the fields
of the key: the main-type name, then `"_"` and the geometry sub-type name when
`sub` is not 0, then `"_"` and the colour-filter name when `filter` is not 0,
then the names of the compose keys. -/
def specFragmentName (main custom sub filter : Nat) (compose_keys : Option (List Nat)) :
    String :=
  HWFragmentKeyTypeToName main custom ++
    (if sub ≠ 0 then "_" ++ HWGeometrySubKeyTypeToName sub else "") ++
    (if filter ≠ 0 then "_" ++ HWColorFilterKeyTypeToName filter else "") ++
    specComposeSuffix (compose_keys.getD [])

/-! ## `src/render/hw/hw_buffer_layout_map.hpp`, `hw_buffer_layout_map.cc` -/

/-- What the static `GetBufferLayout ()` of each geometry class returns. The
geometry classes are outside the embedded sources, so their layouts are
parameters. -/
structure GeometryBufferLayouts where
  WGSLPathGeometry : List GPUVertexBufferLayout
  WGSLPathAAGeometry : List GPUVertexBufferLayout
  WGSLTessPathFillGeometry : List GPUVertexBufferLayout
  WGSLTessPathStrokeGeometry : List GPUVertexBufferLayout
  WGSLTextGeometry : List GPUVertexBufferLayout
  WGSLRRectGeometry : List GPUVertexBufferLayout
  WGSLFilterGeometry : List GPUVertexBufferLayout
  deriving DecidableEq, Repr

/-- The field of `HWBufferLayoutMap`: the map from geometry key values to
layouts. -/
structure HWBufferLayoutMap where
  buffer_layout_map_ : List (Nat × List GPUVertexBufferLayout)
  deriving DecidableEq, Repr

/-- The method `HWBufferLayoutMap::RegisterAllBufferLayouts`: nine assignments
through `operator[]`. -/
def HWBufferLayoutMap.RegisterAllBufferLayouts (G : GeometryBufferLayouts)
    (m : HWBufferLayoutMap) : HWBufferLayoutMap :=
  let map := m.buffer_layout_map_
  let map := unordered_map.assign map HWGeometryKeyType.kPath.toNat G.WGSLPathGeometry
  let map := unordered_map.assign map HWGeometryKeyType.kPathAA.toNat G.WGSLPathAAGeometry
  let map := unordered_map.assign map HWGeometryKeyType.kTessFill.toNat
    G.WGSLTessPathFillGeometry
  let map := unordered_map.assign map HWGeometryKeyType.kTessStroke.toNat
    G.WGSLTessPathStrokeGeometry
  let map := unordered_map.assign map HWGeometryKeyType.kColorText.toNat G.WGSLTextGeometry
  let map := unordered_map.assign map HWGeometryKeyType.kGradientText.toNat G.WGSLTextGeometry
  let map := unordered_map.assign map HWGeometryKeyType.kRRect.toNat G.WGSLRRectGeometry
  let map := unordered_map.assign map HWGeometryKeyType.kClip.toNat G.WGSLPathGeometry
  let map := unordered_map.assign map HWGeometryKeyType.kFilter.toNat G.WGSLFilterGeometry
  { buffer_layout_map_ := map }

/-- The constructor of `HWBufferLayoutMap`: it registers all layouts in the
empty map. -/
def HWBufferLayoutMap.new (G : GeometryBufferLayouts) : HWBufferLayoutMap :=
  HWBufferLayoutMap.RegisterAllBufferLayouts G { buffer_layout_map_ := [] }

/-- The method `HWBufferLayoutMap::GetBufferLayout(key)`: the layout that
`buffer_layout_map_.at (key)` finds, `none` when `at` throws
`std::out_of_range`. -/
def HWBufferLayoutMap.GetBufferLayout (m : HWBufferLayoutMap) (key : Nat) :
    Option (List GPUVertexBufferLayout) :=
  unordered_map.find m.buffer_layout_map_ key

/-- The layout of the geometry class that draws a geometry key type: what the
unit test `HWBufferLayoutMap.GetBufferLayout` expects. -/
def GeometryBufferLayouts.expected (G : GeometryBufferLayouts) :
    HWGeometryKeyType → List GPUVertexBufferLayout
  | .kPath => G.WGSLPathGeometry
  | .kPathAA => G.WGSLPathAAGeometry
  | .kTessFill => G.WGSLTessPathFillGeometry
  | .kTessStroke => G.WGSLTessPathStrokeGeometry
  | .kColorText => G.WGSLTextGeometry
  | .kGradientText => G.WGSLTextGeometry
  | .kRRect => G.WGSLRRectGeometry
  | .kClip => G.WGSLPathGeometry
  | .kFilter => G.WGSLFilterGeometry

/-! ## `src/gpu/vk/gpu_render_pass_vk.hpp`, `gpu_render_pass_vk.cc` -/

/-- A buffer reference of a render command: `buffer` is `none` for `nullptr`.
The command types are declared in `src/gpu/gpu_render_pass.hpp`, outside the
embedded sources; the fields are the ones `ExecuteSingleCommand` reads. -/
structure GPUBufferView where
  buffer : Option GPUBufferVk
  offset : Nat
  range : Nat
  deriving DecidableEq, Repr

/-- An entry of `Command::uniform_bindings`. -/
structure CommandUniformBinding where
  index : Nat
  buffer : GPUBufferView
  deriving DecidableEq, Repr

/-- An entry of `Command::texture_sampler_bindings`. -/
structure CommandTextureSamplerBinding where
  index : Nat
  texture : Option GPUTextureVk
  sampler : Option GPUSamplerVk
  deriving DecidableEq, Repr

/-- An entry of `Command::sampler_bindings`. -/
structure CommandSamplerBinding where
  index : Nat
  sampler : Option GPUSamplerVk
  deriving DecidableEq, Repr

/-- The struct `GPUScissorRect`, four `uint32_t` values. -/
structure GPUScissorRect where
  x : Nat
  y : Nat
  width : Nat
  height : Nat
  deriving DecidableEq, Repr

/-- The fields of a render `Command` that `ExecuteSingleCommand` reads;
`pipeline` is `none` for `nullptr`. -/
structure Command where
  pipeline : Option GPURenderPipelineVk
  vertex_buffer : GPUBufferView
  index_buffer : GPUBufferView
  uniform_bindings : List CommandUniformBinding
  texture_sampler_bindings : List CommandTextureSamplerBinding
  sampler_bindings : List CommandSamplerBinding
  scissor_rect : GPUScissorRect
  stencil_reference : Nat
  index_count : Nat
  deriving DecidableEq, Repr

/-- The conversion `static_cast<int32_t>` of a `uint32_t` value. -/
def toInt32 (x : Nat) : Int :=
  if x % 2 ^ 32 < 2 ^ 31 then (x % 2 ^ 32 : Nat) else ((x % 2 ^ 32 : Nat) : Int) - 2 ^ 32

/-- The native commands that `ExecuteSingleCommand` records into the command
buffer, and the native descriptor update, with the arguments that matter. -/
inductive RenderPassCall where
  | vkCmdBindPipeline (pipeline : Nat)
  | vkCmdBindVertexBuffers (buffer offset : Nat)
  | vkCmdBindIndexBuffer (buffer offset : Nat)
  | vkUpdateDescriptorSets (descriptorWriteCount : Nat)
      (pDescriptorWrites : List VkWriteDescriptorSet)
  | vkCmdBindDescriptorSets (layout descriptorSet : Nat)
  | vkCmdSetScissor (x y : Int) (width height : Nat)
  | vkCmdSetStencilReference (reference : Nat)
  | vkCmdDrawIndexed (indexCount : Nat)
  deriving DecidableEq, Repr

/-- A native descriptor update as a call of the render pass. -/
def RenderPassCall.ofDescriptorCall : DescriptorCall → RenderPassCall
  | .vkUpdateDescriptorSets count writes => .vkUpdateDescriptorSets count writes

/-- The first loop of the descriptor block of `ExecuteSingleCommand`: one
`BindBuffer` for each uniform binding whose buffer is not null. -/
def GPURenderPassVk.uniformBinds : List CommandUniformBinding → List BindCall
  | [] => []
  | uniform_binding :: rest =>
      match uniform_binding.buffer.buffer with
      | some buffer_vk =>
          BindCall.BindBuffer uniform_binding.index (some buffer_vk)
            uniform_binding.buffer.offset uniform_binding.buffer.range ::
            GPURenderPassVk.uniformBinds rest
      | none => GPURenderPassVk.uniformBinds rest

/-- The second loop of the descriptor block of `ExecuteSingleCommand`: one
`BindTexture` for each texture binding whose texture is not null. -/
def GPURenderPassVk.textureBinds : List CommandTextureSamplerBinding → List BindCall
  | [] => []
  | texture_binding :: rest =>
      match texture_binding.texture with
      | some texture_vk =>
          BindCall.BindTexture texture_binding.index (some texture_vk) texture_binding.sampler ::
            GPURenderPassVk.textureBinds rest
      | none => GPURenderPassVk.textureBinds rest

/-- The bind calls that `ExecuteSingleCommand` makes on the descriptor set of
a command, in order: the two loops. The method has no loop over
`sampler_bindings`. -/
def GPURenderPassVk.bindCalls (command : Command) : List BindCall :=
  GPURenderPassVk.uniformBinds command.uniform_bindings ++
    GPURenderPassVk.textureBinds command.texture_sampler_bindings

/-- The descriptor block of `ExecuteSingleCommand`. `descriptor_set` is what
`CreateDescriptorSetUsingPipelineLayout` returns: the handle of a new,
initialised descriptor set, `none` for `nullptr`. The result is the bind calls
made on the set and the native calls. -/
def GPURenderPassVk.bindDescriptorSets (pipeline_vk : GPURenderPipelineVk) (command : Command)
    (descriptor_set : Option Nat) : List BindCall × List RenderPassCall :=
  if ¬ command.uniform_bindings.isEmpty ∨ ¬ command.texture_sampler_bindings.isEmpty ∨
      ¬ command.sampler_bindings.isEmpty then
    match descriptor_set with
    | some handle =>
        let calls := GPURenderPassVk.bindCalls command
        let (set1, ev1) := (GPUDescriptorSetVk.new handle).bindAll calls
        let (set2, _, ev2) := set1.UpdateDescriptorSet
        (calls, (ev1 ++ ev2).map RenderPassCall.ofDescriptorCall ++
          [RenderPassCall.vkCmdBindDescriptorSets pipeline_vk.pipeline_layout_
            set2.descriptor_set_])
    | none => ([], [])
  else ([], [])

/-- The method `GPURenderPassVk::ExecuteSingleCommand(cmd_buffer, command)`:
the bind calls made on the descriptor set and the native calls, all recorded
into `cmd_buffer`, in order. `command` is `none` for `nullptr`. -/
def GPURenderPassVk.ExecuteSingleCommand (command : Option Command)
    (descriptor_set : Option Nat) : List BindCall × List RenderPassCall :=
  match command with
  | none => ([], [])
  | some command =>
      match command.pipeline with
      | none => ([], [])
      | some pipeline_vk =>
          if !pipeline_vk.IsValid then ([], [])
          else
            let ev1 := [RenderPassCall.vkCmdBindPipeline pipeline_vk.pipeline_]
            let ev2 :=
              match command.vertex_buffer.buffer with
              | some vertex_buffer_vk =>
                  [RenderPassCall.vkCmdBindVertexBuffers vertex_buffer_vk.buffer_
                    command.vertex_buffer.offset]
              | none => []
            let ev3 :=
              match command.index_buffer.buffer with
              | some index_buffer_vk =>
                  [RenderPassCall.vkCmdBindIndexBuffer index_buffer_vk.buffer_
                    command.index_buffer.offset]
              | none => []
            let (binds, ev4) :=
              GPURenderPassVk.bindDescriptorSets pipeline_vk command descriptor_set
            let ev5 :=
              if command.scissor_rect.width > 0 ∧ command.scissor_rect.height > 0 then
                [RenderPassCall.vkCmdSetScissor (toInt32 command.scissor_rect.x)
                  (toInt32 command.scissor_rect.y) (command.scissor_rect.width % 2 ^ 32)
                  (command.scissor_rect.height % 2 ^ 32)]
              else []
            let ev6 :=
              if pipeline_vk.has_stencil_testing_ then
                [RenderPassCall.vkCmdSetStencilReference command.stencil_reference]
              else []
            let ev7 :=
              if command.index_count > 0 then
                [RenderPassCall.vkCmdDrawIndexed command.index_count]
              else []
            (binds, ev1 ++ ev2 ++ ev3 ++ ev4 ++ ev5 ++ ev6 ++ ev7)

/-- Whether a call is a pipeline bind. -/
def RenderPassCall.isBindPipeline : RenderPassCall → Bool
  | .vkCmdBindPipeline _ => true
  | _ => false

/-- Whether a call sets the scissor. -/
def RenderPassCall.isSetScissor : RenderPassCall → Bool
  | .vkCmdSetScissor _ _ _ _ => true
  | _ => false

/-- Whether a call sets the stencil reference. -/
def RenderPassCall.isSetStencilReference : RenderPassCall → Bool
  | .vkCmdSetStencilReference _ => true
  | _ => false

/-- Whether a call is an indexed draw. -/
def RenderPassCall.isDrawIndexed : RenderPassCall → Bool
  | .vkCmdDrawIndexed _ => true
  | _ => false

/-- Whether a call belongs to the four kinds that the per-command encoding
counts: pipeline bind, scissor, stencil reference, indexed draw. -/
def RenderPassCall.isCounted (c : RenderPassCall) : Bool :=
  c.isBindPipeline || c.isSetScissor || c.isSetStencilReference || c.isDrawIndexed

/-- The dynamic states of the `vkCreateGraphicsPipelines` calls in a list of
pipeline calls. -/
def PipelineCall.dynamicStates : List PipelineCall → List (List VkDynamicState)
  | [] => []
  | .vkCreateGraphicsPipelines _ _ _ _ _ dynamicStates :: rest =>
      dynamicStates :: PipelineCall.dynamicStates rest
  | _ :: rest => PipelineCall.dynamicStates rest

/-- A valid pipeline with stencil testing, for concrete runs of the
per-command encoding. -/
def GPURenderPipelineVk.sample : GPURenderPipelineVk :=
  { desc_ :=
      { vertex_function := some { label_ := "vs", shader_module_ := 0x100 }
        fragment_function := some { label_ := "fs", shader_module_ := 0x200 }
        target_format := GPUTextureFormat.kBGRA8Unorm
        enable_depth := false
        enable_stencil := true }
    device_ := 1
    pipeline_ := 0x5000
    pipeline_layout_ := 0x3000
    descriptor_set_layouts_ := []
    shader_bindings_ := GPURenderPipelineVk.defaultShaderBindings
    has_stencil_testing_ := true
    valid_ := true }

/-- A draw command on the sample pipeline: 6 indices, a 10 by 20 scissor at
(1, 2), stencil reference 3, and the given binding lists. -/
def Command.sample (uniform_bindings : List CommandUniformBinding)
    (texture_sampler_bindings : List CommandTextureSamplerBinding)
    (sampler_bindings : List CommandSamplerBinding) : Command :=
  { pipeline := some GPURenderPipelineVk.sample
    vertex_buffer := { buffer := none, offset := 0, range := 0 }
    index_buffer := { buffer := none, offset := 0, range := 0 }
    uniform_bindings := uniform_bindings
    texture_sampler_bindings := texture_sampler_bindings
    sampler_bindings := sampler_bindings
    scissor_rect := { x := 1, y := 2, width := 10, height := 20 }
    stencil_reference := 3
    index_count := 6 }

/-! ## `src/gpu/vk/gpu_device_vk.hpp`, `gpu_device_vk.cc`: render passes -/

/-- The attachment formats of a `VkRenderPassCreateInfo`: the colour
attachment and, when there is one, the depth/stencil attachment. -/
structure VkRenderPassCreateInfo where
  colorFormat : Nat
  depthStencilFormat : Option Nat
  deriving DecidableEq, Repr

/-- The two render-pass fields of `GPUDeviceVk`. -/
structure GPUDeviceVk where
  default_render_pass_ : Nat
  depth_stencil_render_pass_ : Nat
  deriving DecidableEq, Repr

/-- A `GPUDeviceVk` after construction: both render passes are null. -/
def GPUDeviceVk.new : GPUDeviceVk :=
  { default_render_pass_ := 0, depth_stencil_render_pass_ := 0 }

/-- The method `GPUDeviceVk::CreateDefaultRenderPass`. `native` is the set of
render passes that the native device holds, each with the create info it was
made from; `created` is the outcome of `vkCreateRenderPass`. The result is the
new device fields, the new native set and the returned Boolean. -/
def GPUDeviceVk.CreateDefaultRenderPass (d : GPUDeviceVk)
    (native : List (Nat × VkRenderPassCreateInfo)) (created : NativeResult) :
    GPUDeviceVk × List (Nat × VkRenderPassCreateInfo) × Bool :=
  let render_pass_info : VkRenderPassCreateInfo :=
    { colorFormat := VK_FORMAT_B8G8R8A8_UNORM, depthStencilFormat := none }
  let d1 := { d with default_render_pass_ := created.handle }
  if !created.success then (d1, native, false)
  else (d1, unordered_map.assign native created.handle render_pass_info, true)

/-- The method `GPUDeviceVk::CreateDepthStencilRenderPass`. -/
def GPUDeviceVk.CreateDepthStencilRenderPass (d : GPUDeviceVk)
    (native : List (Nat × VkRenderPassCreateInfo)) (created : NativeResult) :
    GPUDeviceVk × List (Nat × VkRenderPassCreateInfo) × Bool :=
  let render_pass_info : VkRenderPassCreateInfo :=
    { colorFormat := VK_FORMAT_B8G8R8A8_UNORM
      depthStencilFormat := some VK_FORMAT_D24_UNORM_S8_UINT }
  let d1 := { d with depth_stencil_render_pass_ := created.handle }
  if !created.success then (d1, native, false)
  else (d1, unordered_map.assign native created.handle render_pass_info, true)

/-- The method `GPUDeviceVk::GetCompatibleRenderPass(format,
needsDepthStencil)`; `created` is the outcome of the `vkCreateRenderPass`
call, when one is made. The parameter `format` is not read. The result is the
returned render pass, the new device fields and the new native set. -/
def GPUDeviceVk.GetCompatibleRenderPass (d : GPUDeviceVk)
    (native : List (Nat × VkRenderPassCreateInfo)) (_format : Nat) (needsDepthStencil : Bool)
    (created : NativeResult) : Nat × GPUDeviceVk × List (Nat × VkRenderPassCreateInfo) :=
  if needsDepthStencil then
    if d.depth_stencil_render_pass_ = 0 then
      match d.CreateDepthStencilRenderPass native created with
      | (d1, native1, false) => (d1.default_render_pass_, d1, native1)
      | (d1, native1, true) => (d1.depth_stencil_render_pass_, d1, native1)
    else (d.depth_stencil_render_pass_, d, native)
  else (d.default_render_pass_, d, native)

/-- Whether the native device holds the render pass `render_pass`, made with
the colour attachment format `format`. -/
def hasColorFormat (native : List (Nat × VkRenderPassCreateInfo)) (render_pass format : Nat) :
    Bool :=
  match unordered_map.find native render_pass with
  | some info => decide (info.colorFormat = format)
  | none => false

/-- The render passes of the device that are not null are held by the native
device, with the colour format `VK_FORMAT_B8G8R8A8_UNORM`: what holds after
`Init`. -/
def GPUDeviceVk.RenderPassesRegistered (d : GPUDeviceVk)
    (native : List (Nat × VkRenderPassCreateInfo)) : Bool :=
  (decide (d.default_render_pass_ = 0) ||
    hasColorFormat native d.default_render_pass_ VK_FORMAT_B8G8R8A8_UNORM) &&
  (decide (d.depth_stencil_render_pass_ = 0) ||
    hasColorFormat native d.depth_stencil_render_pass_ VK_FORMAT_B8G8R8A8_UNORM)

/-- The method `GPURenderPipelineVk::CreateGraphicsPipeline` together with the
device it asks for the render pass: after the check of the shader functions
it calls `GetCompatibleRenderPass (VK_FORMAT_B8G8R8A8_SRGB, true)` on the
device and builds the native pipeline against the result. -/
def GPURenderPipelineVk.CreateGraphicsPipelineOnDevice (p : GPURenderPipelineVk)
    (d : GPUDeviceVk) (native : List (Nat × VkRenderPassCreateInfo))
    (render_pass_created graphics_pipeline : NativeResult) :
    (GPURenderPipelineVk × Bool × List PipelineCall) × GPUDeviceVk ×
      List (Nat × VkRenderPassCreateInfo) :=
  match p.desc_.vertex_function, p.desc_.fragment_function with
  | some _, some _ =>
      match d.GetCompatibleRenderPass native VK_FORMAT_B8G8R8A8_SRGB true render_pass_created
        with
      | (render_pass, d1, native1) =>
          (p.CreateGraphicsPipeline render_pass graphics_pipeline, d1, native1)
  | _, _ => (p.CreateGraphicsPipeline 0 graphics_pipeline, d, native)

/-- The render passes that the `vkCreateGraphicsPipelines` calls in a list of
pipeline calls are built against. -/
def PipelineCall.renderPasses : List PipelineCall → List Nat
  | [] => []
  | .vkCreateGraphicsPipelines _ renderPass _ _ _ _ :: rest =>
      renderPass :: PipelineCall.renderPasses rest
  | _ :: rest => PipelineCall.renderPasses rest

/-- A pipeline object before `CreateGraphicsPipeline`, with both shader
functions, the given target format and a pipeline layout, for concrete
runs. -/
def GPURenderPipelineVk.sampleWithTarget (target_format : GPUTextureFormat) :
    GPURenderPipelineVk :=
  { GPURenderPipelineVk.new 1
      { vertex_function := some { label_ := "vs", shader_module_ := 0x100 }
        fragment_function := some { label_ := "fs", shader_module_ := 0x200 }
        target_format := target_format
        enable_depth := false
        enable_stencil := false } with
    pipeline_layout_ := 0x3000 }

/-- A device after `Init`: the default render pass has been created, with the
handle `0x10`. The fields and the native set of render passes. -/
def GPUDeviceVk.sample : GPUDeviceVk × List (Nat × VkRenderPassCreateInfo) :=
  ((GPUDeviceVk.new.CreateDefaultRenderPass [] { success := true, handle := 0x10 }).1,
    (GPUDeviceVk.new.CreateDefaultRenderPass [] { success := true, handle := 0x10 }).2.1)

/-- A run of three calls on a new vertex buffer, all native calls succeeding:
`UploadData` of 16 bytes (the buffer `0x2000` with allocation `0xA1` is
created and mapped at `0xB000` for the copy), `GetMappedPtr` (the allocation
`0xA1` is mapped at `0xB000` again and stays mapped), `UploadData` of 32 bytes
(`vmaCreateBuffer` gives the buffer `0x2100` with allocation `0xA2`, and a
`vmaMapMemory` call would give `0xC000`). The final state and all the calls,
in order. -/
def GPUBufferVk.growWhileMapped : GPUBufferVk × List BufferCall :=
  let U : GPUBufferUsage := ⟨0x20, 0x10, 0x40⟩
  let s0 := GPUBufferVk.new 0x20
  let (s1, ev1) := GPUBufferVk.UploadData U s0 0x1000 16 (some (0x2000, 0xA1)) (some 0xB000)
  let (s2, _, ev2) := GPUBufferVk.GetMappedPtr s1 (some 0xB000)
  let (s3, ev3) := GPUBufferVk.UploadData U s2 0x1000 32 (some (0x2100, 0xA2)) (some 0xC000)
  (s3, ev1 ++ ev2 ++ ev3)

/-! ## `src/gpu/vk/gpu_pipeline_cache_vk.cc`: the pipeline key of a descriptor -/

/-- What `CreatePipelineKey` takes from the C++ implementation and from
declarations outside the embedded sources: `std::hash<int>` and
`std::hash<bool>` (results in `size_t`), the `int` value of a texture format,
and the object representation (the `sizeof` bytes) of the vertex-layout fields
that `HashVertexLayout` copies. -/
structure PipelineKeyEnv where
  hashInt : Int → Nat
  hashBool : Bool → Nat
  formatValue : GPUTextureFormat → Int
  bytesOfArrayStride : Nat → List Nat
  bytesOfFormat : Nat → List Nat
  bytesOfOffset : Nat → List Nat
  bytesOfShaderLocation : Nat → List Nat

/-- One step of `HashRenderState`: `hash ^= h << shift`, where `hash` is a
`uint32_t` and `h` a `size_t`. -/
def GPUPipelineCacheVk.xorShift (hash h shift : Nat) : Nat :=
  (hash ^^^ ((h % 2 ^ 64) <<< shift) % 2 ^ 64) % 2 ^ 32

/-- The method `GPUPipelineCacheVk::HashRenderState`. -/
def GPUPipelineCacheVk.HashRenderState (E : PipelineKeyEnv) (desc : GPURenderPipelineDescriptor) :
    Nat :=
  let hash := 0
  let hash := GPUPipelineCacheVk.xorShift hash (E.hashInt (E.formatValue desc.target_format)) 0
  let hash := GPUPipelineCacheVk.xorShift hash (E.hashInt desc.target_src_blend_factor) 1
  let hash := GPUPipelineCacheVk.xorShift hash (E.hashInt desc.target_dst_blend_factor) 2
  let hash := GPUPipelineCacheVk.xorShift hash (E.hashInt desc.target_write_mask) 3
  let hash := GPUPipelineCacheVk.xorShift hash (E.hashInt desc.sample_count) 4
  let hash := GPUPipelineCacheVk.xorShift hash (E.hashBool desc.enable_depth) 5
  let hash := GPUPipelineCacheVk.xorShift hash (E.hashBool desc.enable_stencil) 6
  hash

/-- The inner loop of `HashVertexLayout`: the bytes of the format, the offset
and the shader location of each attribute. -/
def GPUPipelineCacheVk.hashAttributes (E : PipelineKeyEnv) :
    List GPUVertexAttribute → List Nat
  | [] => []
  | attr :: rest =>
      E.bytesOfFormat attr.format ++ E.bytesOfOffset attr.offset ++
        E.bytesOfShaderLocation attr.shader_location ++
        GPUPipelineCacheVk.hashAttributes E rest

/-- The outer loop of `HashVertexLayout`: for each buffer the bytes of the
stride, the step mode as one byte, and the bytes of its attributes. -/
def GPUPipelineCacheVk.hashBuffers (E : PipelineKeyEnv) :
    List GPUVertexBufferLayout → List Nat
  | [] => []
  | buffer :: rest =>
      E.bytesOfArrayStride buffer.array_stride ++ [buffer.step_mode % 256] ++
        GPUPipelineCacheVk.hashAttributes E buffer.attributes ++
        GPUPipelineCacheVk.hashBuffers E rest

/-- The method `GPUPipelineCacheVk::HashVertexLayout`. -/
def GPUPipelineCacheVk.HashVertexLayout (E : PipelineKeyEnv)
    (desc : GPURenderPipelineDescriptor) : List Nat :=
  GPUPipelineCacheVk.hashBuffers E desc.buffers

/-- The method `GPUPipelineCacheVk::CreatePipelineKey`: a shader hash stays
the empty string when the function is null. -/
def GPUPipelineCacheVk.CreatePipelineKey (E : PipelineKeyEnv)
    (desc : GPURenderPipelineDescriptor) : PipelineKey :=
  { vertex_shader_hash :=
      match desc.vertex_function with
      | some vertex_function => vertex_function.label_
      | none => ""
    fragment_shader_hash :=
      match desc.fragment_function with
      | some fragment_function => fragment_function.label_
      | none => ""
    vertex_layout_hash := GPUPipelineCacheVk.HashVertexLayout E desc
    render_state_hash := GPUPipelineCacheVk.HashRenderState E desc }

/-- The little-endian bytes of a value of `width` bytes. -/
def bytesLE (width value : Nat) : List Nat :=
  (List.range width).map fun i => (value >>> (8 * i)) % 256

/-- A sample environment: the identity `std::hash` of the common standard
libraries, formats numbered in declaration order, and little-endian fields of
8 (stride), 4 (format), 8 (offset) and 4 (shader location) bytes. -/
def PipelineKeyEnv.sample : PipelineKeyEnv :=
  { hashInt := fun v => (v % 2 ^ 64).toNat
    hashBool := fun b => if b then 1 else 0
    formatValue := fun format =>
      match format with
      | .kR8Unorm => 0
      | .kRGB8Unorm => 1
      | .kRGB565Unorm => 2
      | .kRGBA8Unorm => 3
      | .kBGRA8Unorm => 4
      | .kStencil8 => 5
      | .kDepth24Stencil8 => 6
      | .kInvalid => 7
      | .unnamed raw => raw
    bytesOfArrayStride := bytesLE 8
    bytesOfFormat := bytesLE 4
    bytesOfOffset := bytesLE 8
    bytesOfShaderLocation := bytesLE 4 }

/-- A descriptor with the two shader functions `vs` and `fs`, the given blend
factors, vertex buffers and stencil state, and defaults elsewhere, for
concrete keys. -/
def GPURenderPipelineDescriptor.sample (src_blend_factor dst_blend_factor : Nat)
    (buffers : List GPUVertexBufferLayout) (stencil_state : GPUStencilState) :
    GPURenderPipelineDescriptor :=
  { vertex_function := some { label_ := "vs", shader_module_ := 0x100 }
    fragment_function := some { label_ := "fs", shader_module_ := 0x200 }
    target_format := GPUTextureFormat.kBGRA8Unorm
    enable_depth := false
    enable_stencil := true
    buffers := buffers
    target_src_blend_factor := src_blend_factor
    target_dst_blend_factor := dst_blend_factor
    stencil_state := stencil_state }

/-! ## `src/gpu/vk/gpu_window_surface_vk.cc`: the swapchain format -/

/-- Vulkan: the struct `VkSurfaceFormatKHR`. -/
structure VkSurfaceFormatKHR where
  format : Nat
  colorSpace : Nat
  deriving DecidableEq, Repr

/-- Vulkan: `VK_COLOR_SPACE_SRGB_NONLINEAR_KHR`. -/
def VK_COLOR_SPACE_SRGB_NONLINEAR_KHR : Nat := 0

/-- The method `GPUWindowSurfaceVk::ChooseSwapSurfaceFormat`: the first
available format that is `VK_FORMAT_B8G8R8A8_UNORM`, else the first that is
`VK_FORMAT_R8G8B8A8_UNORM`, else the first that is `VK_FORMAT_B8G8R8A8_SRGB`
(each with the sRGB non-linear colour space), else the first available one;
`none` stands for the access to element 0 of an empty vector. -/
def GPUWindowSurfaceVk.ChooseSwapSurfaceFormat (available_formats : List VkSurfaceFormatKHR) :
    Option VkSurfaceFormatKHR :=
  match available_formats.find? (fun available_format =>
      decide (available_format.format = VK_FORMAT_B8G8R8A8_UNORM ∧
        available_format.colorSpace = VK_COLOR_SPACE_SRGB_NONLINEAR_KHR)) with
  | some available_format => some available_format
  | none =>
      match available_formats.find? (fun available_format =>
          decide (available_format.format = VK_FORMAT_R8G8B8A8_UNORM ∧
            available_format.colorSpace = VK_COLOR_SPACE_SRGB_NONLINEAR_KHR)) with
      | some available_format => some available_format
      | none =>
          match available_formats.find? (fun available_format =>
              decide (available_format.format = VK_FORMAT_B8G8R8A8_SRGB ∧
                available_format.colorSpace = VK_COLOR_SPACE_SRGB_NONLINEAR_KHR)) with
          | some available_format => some available_format
          | none => available_formats.head?

/-! # Theorems -/

/-! ### Arithmetic form of the packing -/

theorem shl_or_eq_add (a b i : Nat) (hb : b < 2 ^ i) : a <<< i ||| b = a * 2 ^ i + b := by
  rw [Nat.shiftLeft_eq, Nat.mul_comm, ← Nat.mul_add_lt_is_or hb]

theorem MakeFunctionBaseKey_eq_add (main sub filter : Nat) (hm : main < 2 ^ 16)
    (hs : sub < 256) (hf : filter < 256) :
    MakeFunctionBaseKey main sub filter = main * 65536 + sub * 256 + filter := by
  unfold MakeFunctionBaseKey kMainKeyShift kSubKeyShift
  have h1 : (main <<< 16) % 2 ^ 32 = main <<< 16 := by
    apply Nat.mod_eq_of_lt
    rw [Nat.shiftLeft_eq]
    omega
  have h2 : (sub <<< 8) % 2 ^ 32 = sub * 256 := by
    rw [Nat.shiftLeft_eq]
    apply Nat.mod_eq_of_lt
    omega
  rw [h1, h2, shl_or_eq_add main (sub * 256) 16 (by omega)]
  have h3 : main * 2 ^ 16 + sub * 256 = (main * 256 + sub) <<< 8 := by
    rw [Nat.shiftLeft_eq]
    omega
  rw [h3, shl_or_eq_add _ filter 8 (by omega)]
  omega

theorem MakeMainKey_eq_add (main custom : Nat) (hm : main < 256) (hc : custom < 256) :
    MakeMainKey main custom = custom * 256 + main := by
  unfold MakeMainKey kCustomKeyShift
  have h1 : (custom <<< 8) % 2 ^ 32 = custom <<< 8 := by
    apply Nat.mod_eq_of_lt
    rw [Nat.shiftLeft_eq]
    omega
  rw [h1, shl_or_eq_add custom main 8 (by omega)]
  omega

theorem MakePipelineBaseKey_eq_add (v f : Nat) (hv : v < 2 ^ 32) (hf : f < 2 ^ 32) :
    MakePipelineBaseKey v f = v * 2 ^ 32 + f := by
  unfold MakePipelineBaseKey kVertexKeyShift
  have h1 : (v <<< 32) % 2 ^ 64 = v <<< 32 := by
    apply Nat.mod_eq_of_lt
    rw [Nat.shiftLeft_eq]
    omega
  rw [h1, shl_or_eq_add v f 32 hf]


theorem MakeFunctionBaseKey_lt (main sub filter : Nat) (hm : main < 2 ^ 16)
    (hs : sub < 256) (hf : filter < 256) : MakeFunctionBaseKey main sub filter < 2 ^ 32 := by
  rw [MakeFunctionBaseKey_eq_add main sub filter hm hs hf]
  omega

theorem HWPipelineKey.operatorEq_iff_eq (a b : HWPipelineKey) :
    a.operatorEq b = true ↔ a = b := by
  cases a
  cases b
  simp [HWPipelineKey.operatorEq]

/-! ### Pipeline keys: injectivity, hashing, packing -/

/-- The pipeline key built from six fields and a compose list:
vertex key `MakeFunctionBaseKey(vmain, vsub)`, fragment key
`MakeFunctionBaseKey(MakeMainKey(fmain, fcustom), fsub, ffilter)`. -/
theorem packed_key_eq_add (vmain vsub fmain fcustom fsub ffilter : Nat)
    (h1 : vmain < 256) (h2 : vsub < 256) (h3 : fmain < 256) (h4 : fcustom < 256)
    (h5 : fsub < 256) (h6 : ffilter < 256) :
    MakePipelineBaseKey (MakeFunctionBaseKey vmain vsub 0)
      (MakeFunctionBaseKey (MakeMainKey fmain fcustom) fsub ffilter) =
    (vmain * 65536 + vsub * 256) * 2 ^ 32 +
      ((fcustom * 256 + fmain) * 65536 + fsub * 256 + ffilter) := by
  have hmk : MakeMainKey fmain fcustom = fcustom * 256 + fmain :=
    MakeMainKey_eq_add fmain fcustom h3 h4
  have hv := MakeFunctionBaseKey_eq_add vmain vsub 0 (by omega) h2 (by omega)
  have hf := MakeFunctionBaseKey_eq_add (MakeMainKey fmain fcustom) fsub ffilter
    (by rw [hmk]; omega) h5 h6
  rw [MakePipelineBaseKey_eq_add _ _ (by rw [hv]; omega) (by rw [hf, hmk]; omega), hv, hf, hmk]
  omega

/-- C1: for field values below 256, two pipeline keys built by
`MakePipelineBaseKey (MakeFunctionBaseKey vmain vsub) (MakeFunctionBaseKey
(MakeMainKey fmain fcustom) fsub ffilter)` with a compose list compare equal
under `operator==` exactly when all six fields are equal and the optional
compose lists are equal (same presence, same elements in the same order). -/
theorem pipeline_key_construction_injective
    (vmain vsub fmain fcustom fsub ffilter : Nat) (compose : Option (List Nat))
    (vmain' vsub' fmain' fcustom' fsub' ffilter' : Nat) (compose' : Option (List Nat))
    (h1 : vmain < 256) (h2 : vsub < 256) (h3 : fmain < 256) (h4 : fcustom < 256)
    (h5 : fsub < 256) (h6 : ffilter < 256)
    (h1' : vmain' < 256) (h2' : vsub' < 256) (h3' : fmain' < 256) (h4' : fcustom' < 256)
    (h5' : fsub' < 256) (h6' : ffilter' < 256) :
    HWPipelineKey.operatorEq
        { base_key := MakePipelineBaseKey (MakeFunctionBaseKey vmain vsub 0)
            (MakeFunctionBaseKey (MakeMainKey fmain fcustom) fsub ffilter)
          compose_keys := compose }
        { base_key := MakePipelineBaseKey (MakeFunctionBaseKey vmain' vsub' 0)
            (MakeFunctionBaseKey (MakeMainKey fmain' fcustom') fsub' ffilter')
          compose_keys := compose' } = true ↔
      (vmain = vmain' ∧ vsub = vsub' ∧ fmain = fmain' ∧ fcustom = fcustom' ∧
        fsub = fsub' ∧ ffilter = ffilter' ∧ compose = compose') := by
  rw [HWPipelineKey.operatorEq_iff_eq, HWPipelineKey.mk.injEq,
    packed_key_eq_add vmain vsub fmain fcustom fsub ffilter h1 h2 h3 h4 h5 h6,
    packed_key_eq_add vmain' vsub' fmain' fcustom' fsub' ffilter' h1' h2' h3' h4' h5' h6']
  constructor
  · rintro ⟨hk, hc⟩
    refine ⟨?_, ?_, ?_, ?_, ?_, ?_, hc⟩ <;> omega
  · rintro ⟨rfl, rfl, rfl, rfl, rfl, rfl, rfl⟩
    exact ⟨rfl, rfl⟩

/-- Witness for C1: the keys of the tests `RRect_SolidVertex_Compose` (filter
`kCompose`, compose list `[kSrcIn, kSrcATop]`) and of the same draw with the
compose list `[kSrcATop, kSrcIn]` differ. -/
theorem pipeline_key_construction_injective_witness :
    HWPipelineKey.operatorEq
        { base_key := MakePipelineBaseKey (MakeFunctionBaseKey 7 2 0)
            (MakeFunctionBaseKey (MakeMainKey 2 0) 7 255)
          compose_keys := some [6, 10] }
        { base_key := MakePipelineBaseKey (MakeFunctionBaseKey 7 2 0)
            (MakeFunctionBaseKey (MakeMainKey 2 0) 7 255)
          compose_keys := some [10, 6] } = true ↔
      (7 = 7 ∧ 2 = 2 ∧ 2 = 2 ∧ 0 = 0 ∧ 7 = 7 ∧ 255 = 255 ∧
        some [6, 10] = some [10, 6]) :=
  pipeline_key_construction_injective 7 2 2 0 7 255 (some [6, 10]) 7 2 2 0 7 255
    (some [10, 6]) (by decide) (by decide) (by decide) (by decide) (by decide) (by decide)
    (by decide) (by decide) (by decide) (by decide) (by decide) (by decide)

/-- C2: `HWPipelineKeyHash` is consistent with `operator==`: two keys `a`, `b`
(any base key, compose list absent or any list) that compare equal have equal
hashes, whatever `std::hash` is. -/
theorem pipeline_key_hash_consistent (hash64 hash32 : Nat → Nat) (a b : HWPipelineKey)
    (h : a.operatorEq b = true) :
    HWPipelineKeyHash hash64 hash32 a = HWPipelineKeyHash hash64 hash32 b := by
  rw [(HWPipelineKey.operatorEq_iff_eq a b).mp h]

/-- Witness for C2: a key rebuilt from the base key and the compose list of
the key expected by the test `RRect_SolidVertex_Compose` compares equal to it
and has the same hash (here with the identity as `std::hash`). -/
theorem pipeline_key_hash_consistent_witness :
    HWPipelineKey.operatorEq
        { base_key := MakePipelineBaseKey (MakeFunctionBaseKey 7 2 0)
            (MakeFunctionBaseKey 2 7 255)
          compose_keys := some [6, 10] } expected_pipeline_key = true ∧
    HWPipelineKeyHash id id
        { base_key := MakePipelineBaseKey (MakeFunctionBaseKey 7 2 0)
            (MakeFunctionBaseKey 2 7 255)
          compose_keys := some [6, 10] } =
      HWPipelineKeyHash id id expected_pipeline_key :=
  ⟨by decide, pipeline_key_hash_consistent id id _ _ (by decide)⟩

/-- C3: for 32-bit sub-keys `v` and `f`, a key whose base key is
`MakePipelineBaseKey v f` has `GetVertexBaseKey () = v` and
`GetFragmentBaseKey () = f`, whatever its compose list; and the base key is
`v * 2 ^ 32 + f`, that is `(v << 32) | f` without loss. -/
theorem pipeline_base_key_round_trip (v f : Nat) (compose : Option (List Nat))
    (hv : v < 2 ^ 32) (hf : f < 2 ^ 32) :
    HWPipelineKey.GetVertexBaseKey
        { base_key := MakePipelineBaseKey v f, compose_keys := compose } = v ∧
    HWPipelineKey.GetFragmentBaseKey
        { base_key := MakePipelineBaseKey v f, compose_keys := compose } = f ∧
    MakePipelineBaseKey v f = v <<< 32 ||| f ∧
    MakePipelineBaseKey v f < 2 ^ 64 := by
  have hadd := MakePipelineBaseKey_eq_add v f hv hf
  have hand : ∀ x : Nat, x &&& 0xFFFFFFFF = x % 2 ^ 32 := fun x =>
    Nat.and_pow_two_sub_one_eq_mod x 32
  refine ⟨?_, ?_, ?_, ?_⟩
  · simp only [HWPipelineKey.GetVertexBaseKey, kVertexKeyShift, hadd, Nat.shiftRight_eq_div_pow]
    omega
  · simp only [HWPipelineKey.GetFragmentBaseKey, hadd, hand]
    omega
  · rw [hadd, shl_or_eq_add v f 32 hf]
  · rw [hadd]
    omega

/-- Witness for C3: the two sub-keys of the key expected by the test
`RRect_SolidVertex_Compose`. -/
theorem pipeline_base_key_round_trip_witness :
    HWPipelineKey.GetVertexBaseKey
        { base_key := MakePipelineBaseKey 0x70200 0x207FF, compose_keys := some [6, 10] } =
      0x70200 ∧
    HWPipelineKey.GetFragmentBaseKey
        { base_key := MakePipelineBaseKey 0x70200 0x207FF, compose_keys := some [6, 10] } =
      0x207FF ∧
    MakePipelineBaseKey 0x70200 0x207FF = 0x70200 <<< 32 ||| 0x207FF ∧
    MakePipelineBaseKey 0x70200 0x207FF < 2 ^ 64 :=
  pipeline_base_key_round_trip 0x70200 0x207FF (some [6, 10]) (by decide) (by decide)

/-! ### `unordered_map` -/

theorem unordered_map.find_assign_self {κ ν : Type} [DecidableEq κ] (m : List (κ × ν))
    (k : κ) (v : ν) : unordered_map.find (unordered_map.assign m k v) k = some v := by
  induction m with
  | nil => simp [unordered_map.assign, unordered_map.find]
  | cons e rest ih =>
      obtain ⟨k', v'⟩ := e
      by_cases hk : k' = k
      · simp [unordered_map.assign, unordered_map.find, hk]
      · simp [unordered_map.assign, unordered_map.find, hk, ih]

theorem unordered_map.find_assign_of_ne {κ ν : Type} [DecidableEq κ] (m : List (κ × ν))
    (k k2 : κ) (v : ν) (hne : k ≠ k2) :
    unordered_map.find (unordered_map.assign m k v) k2 = unordered_map.find m k2 := by
  induction m with
  | nil => simp [unordered_map.assign, unordered_map.find, hne]
  | cons e rest ih =>
      obtain ⟨k', v'⟩ := e
      by_cases hk : k' = k
      · subst hk
        simp [unordered_map.assign, unordered_map.find, hne]
      · by_cases hk2 : k' = k2
        · subst hk2
          simp [unordered_map.assign, unordered_map.find, hk]
        · simp [unordered_map.assign, unordered_map.find, hk, hk2, ih]

theorem PipelineKey.operatorEq_eq_true_iff (a b : PipelineKey) : a.operatorEq b = true ↔ a = b := by
  cases a
  cases b
  simp [PipelineKey.operatorEq, and_assoc]

/-! ### Pipeline cache counters -/

/-- C4, as stated, fails: on a new cache the first `GetOrCreatePipeline` for a
descriptor misses; when the pipeline creation of that call fails nothing is
cached, so a second call with the same descriptor misses again: it does not
increase the hit count and it increases the miss count by 1. -/
theorem pipeline_cache_counters_counterexample :
    unordered_map.find GPUPipelineCacheVk.new.pipeline_cache_
        ((fun d : Nat => PipelineKey.mk "VS_Path" "FS_SolidColor" [] d) 0) = none ∧
    ¬ ((GPUPipelineCacheVk.GetOrCreatePipeline
          (fun d : Nat => PipelineKey.mk "VS_Path" "FS_SolidColor" [] d)
          (GPUPipelineCacheVk.GetOrCreatePipeline
            (fun d : Nat => PipelineKey.mk "VS_Path" "FS_SolidColor" [] d)
            GPUPipelineCacheVk.new 0 none).1 0 (some 4096)).1.GetHitCount =
        (GPUPipelineCacheVk.GetOrCreatePipeline
            (fun d : Nat => PipelineKey.mk "VS_Path" "FS_SolidColor" [] d)
            GPUPipelineCacheVk.new 0 none).1.GetHitCount + 1 ∧
      (GPUPipelineCacheVk.GetOrCreatePipeline
          (fun d : Nat => PipelineKey.mk "VS_Path" "FS_SolidColor" [] d)
          (GPUPipelineCacheVk.GetOrCreatePipeline
            (fun d : Nat => PipelineKey.mk "VS_Path" "FS_SolidColor" [] d)
            GPUPipelineCacheVk.new 0 none).1 0 (some 4096)).1.GetMissCount =
        (GPUPipelineCacheVk.GetOrCreatePipeline
            (fun d : Nat => PipelineKey.mk "VS_Path" "FS_SolidColor" [] d)
            GPUPipelineCacheVk.new 0 none).1.GetMissCount) := by
  decide

/-- C4, amended: for a descriptor whose key is not in the cache, the first
`GetOrCreatePipeline` increases the miss count by 1 and leaves the hit count
unchanged, whatever the outcome of the pipeline creation; when that creation
succeeds, a second call with a descriptor that has the same key increases the
hit count by 1 and leaves the miss count unchanged. The counters are `size_t`:
the increase is modulo `2 ^ 64`, and is exactly 1 below the maximum. -/
theorem pipeline_cache_counters {Desc : Type} (CreatePipelineKey : Desc → PipelineKey)
    (s : GPUPipelineCacheVk) (desc desc2 : Desc) (created created2 : Option Nat)
    (hnew : unordered_map.find s.pipeline_cache_ (CreatePipelineKey desc) = none)
    (hkey : CreatePipelineKey desc2 = CreatePipelineKey desc) :
    ((s.GetOrCreatePipeline CreatePipelineKey desc created).1.GetMissCount =
        (s.GetMissCount + 1) % 2 ^ 64 ∧
      (s.GetMissCount + 1 < 2 ^ 64 →
        (s.GetOrCreatePipeline CreatePipelineKey desc created).1.GetMissCount =
          s.GetMissCount + 1) ∧
      (s.GetOrCreatePipeline CreatePipelineKey desc created).1.GetHitCount = s.GetHitCount ∧
      (s.GetOrCreatePipeline CreatePipelineKey desc created).2 = created) ∧
    (created.isSome = true →
      ((s.GetOrCreatePipeline CreatePipelineKey desc created).1.GetOrCreatePipeline
          CreatePipelineKey desc2 created2).1.GetHitCount =
        ((s.GetOrCreatePipeline CreatePipelineKey desc created).1.GetHitCount + 1) % 2 ^ 64 ∧
      (s.GetHitCount + 1 < 2 ^ 64 →
        ((s.GetOrCreatePipeline CreatePipelineKey desc created).1.GetOrCreatePipeline
            CreatePipelineKey desc2 created2).1.GetHitCount =
          (s.GetOrCreatePipeline CreatePipelineKey desc created).1.GetHitCount + 1) ∧
      ((s.GetOrCreatePipeline CreatePipelineKey desc created).1.GetOrCreatePipeline
          CreatePipelineKey desc2 created2).1.GetMissCount =
        (s.GetOrCreatePipeline CreatePipelineKey desc created).1.GetMissCount ∧
      ((s.GetOrCreatePipeline CreatePipelineKey desc created).1.GetOrCreatePipeline
          CreatePipelineKey desc2 created2).2 = created2) := by
  constructor
  · cases created with
    | none =>
        simp only [GPUPipelineCacheVk.GetOrCreatePipeline, hnew,
          GPUPipelineCacheVk.GetMissCount, GPUPipelineCacheVk.GetHitCount]
        refine ⟨?_, ?_, ?_, ?_⟩ <;>
          first | trivial | rfl | exact fun h => Nat.mod_eq_of_lt h
    | some p =>
        simp only [GPUPipelineCacheVk.GetOrCreatePipeline, hnew,
          GPUPipelineCacheVk.GetMissCount, GPUPipelineCacheVk.GetHitCount]
        refine ⟨?_, ?_, ?_, ?_⟩ <;>
          first | trivial | rfl | exact fun h => Nat.mod_eq_of_lt h
  · intro hc
    obtain ⟨p, rfl⟩ := Option.isSome_iff_exists.mp hc
    have h1 : s.GetOrCreatePipeline CreatePipelineKey desc (some p) =
        ({ pipeline_cache_ := unordered_map.assign s.pipeline_cache_ (CreatePipelineKey desc) p
           cache_hits_ := s.cache_hits_
           cache_misses_ := (s.cache_misses_ + 1) % 2 ^ 64 }, some p) := by
      simp only [GPUPipelineCacheVk.GetOrCreatePipeline, hnew]
    rw [h1]
    simp only [GPUPipelineCacheVk.GetOrCreatePipeline, hkey,
      unordered_map.find_assign_self, GPUPipelineCacheVk.GetMissCount,
      GPUPipelineCacheVk.GetHitCount]
    refine ⟨?_, ?_, ?_, ?_⟩ <;>
      first | trivial | rfl | exact fun h => Nat.mod_eq_of_lt h

/-- Witness for C4: two calls for one descriptor on a new cache, both
pipeline creations succeeding. -/
theorem pipeline_cache_counters_witness :
    ((GPUPipelineCacheVk.new.GetOrCreatePipeline
        (fun d : Nat => PipelineKey.mk "VS_Path" "FS_SolidColor" [] d) 0
        (some 4096)).1.GetOrCreatePipeline
      (fun d : Nat => PipelineKey.mk "VS_Path" "FS_SolidColor" [] d) 0
      (some 8192)).1.GetHitCount =
    (GPUPipelineCacheVk.new.GetOrCreatePipeline
        (fun d : Nat => PipelineKey.mk "VS_Path" "FS_SolidColor" [] d) 0
        (some 4096)).1.GetHitCount + 1 :=
  ((pipeline_cache_counters (fun d : Nat => PipelineKey.mk "VS_Path" "FS_SolidColor" [] d)
    GPUPipelineCacheVk.new 0 0 (some 4096) (some 8192) rfl rfl).2 rfl).2.1 (by decide)

/-! ### Buffer upload -/

theorem GPUBufferVk.ensureBuffer_spec (U : GPUBufferUsage) (s : GPUBufferVk) (size : Nat)
    (created : Option (Nat × Nat)) :
    GPUBufferVk.UploadData.ensureBuffer U s size created =
      if s.needsReallocation size then
        ((match created with
          | none => { s with buffer_ := 0, size_ := size }
          | some (b, a) => { s with buffer_ := b, allocation_ := a, size_ := size }),
         (if s.buffer_ ≠ 0 then [BufferCall.vmaDestroyBuffer s.buffer_ s.allocation_] else []) ++
           [BufferCall.vmaCreateBuffer size
             (GPUBufferVk.GetVulkanUsageFlags U s) (GPUBufferVk.GetVmaMemoryUsage U s)],
         created.isSome)
      else (s, [], true) := by
  unfold GPUBufferVk.UploadData.ensureBuffer GPUBufferVk.needsReallocation
  by_cases hb : s.buffer_ = 0
  · cases created with
    | none => simp [hb, GPUBufferVk.GetVulkanUsageFlags, GPUBufferVk.GetVmaMemoryUsage]
    | some ba => simp [hb, GPUBufferVk.GetVulkanUsageFlags, GPUBufferVk.GetVmaMemoryUsage]
  · by_cases hs : s.size_ < size
    · cases created with
      | none => simp [hb, hs, GPUBufferVk.GetVulkanUsageFlags, GPUBufferVk.GetVmaMemoryUsage]
      | some ba => simp [hb, hs, GPUBufferVk.GetVulkanUsageFlags, GPUBufferVk.GetVmaMemoryUsage]
    · simp [hb, hs]

theorem BufferCall.countCreate_append (xs ys : List BufferCall) :
    BufferCall.countCreate (xs ++ ys) = BufferCall.countCreate xs + BufferCall.countCreate ys := by
  simp [BufferCall.countCreate]

theorem BufferCall.countDestroy_append (xs ys : List BufferCall) :
    BufferCall.countDestroy (xs ++ ys) =
      BufferCall.countDestroy xs + BufferCall.countDestroy ys := by
  simp [BufferCall.countDestroy]

theorem BufferCall.countMemcpy_append (xs ys : List BufferCall) :
    BufferCall.countMemcpy (xs ++ ys) = BufferCall.countMemcpy xs + BufferCall.countMemcpy ys := by
  simp [BufferCall.countMemcpy]

theorem BufferCall.createdSizes_append (xs ys : List BufferCall) :
    BufferCall.createdSizes (xs ++ ys) =
      BufferCall.createdSizes xs ++ BufferCall.createdSizes ys := by
  induction xs with
  | nil => simp [BufferCall.createdSizes]
  | cons c rest ih => cases c <;> simp [BufferCall.createdSizes, ih]

/-- The mapping, copying, flushing and unmapping that follow the buffer step of
`UploadData` leave the handle, the allocation and the recorded size alone and
neither create nor destroy a buffer. -/
theorem GPUBufferVk.UploadData_frame (U : GPUBufferUsage) (s : GPUBufferVk) (data size : Nat)
    (created : Option (Nat × Nat)) (mapped : Option Nat) (hd : data ≠ 0) (hs : size ≠ 0) :
    (GPUBufferVk.UploadData U s data size created mapped).1.buffer_ =
        (GPUBufferVk.UploadData.ensureBuffer U s size created).1.buffer_ ∧
    (GPUBufferVk.UploadData U s data size created mapped).1.allocation_ =
        (GPUBufferVk.UploadData.ensureBuffer U s size created).1.allocation_ ∧
    (GPUBufferVk.UploadData U s data size created mapped).1.size_ =
        (GPUBufferVk.UploadData.ensureBuffer U s size created).1.size_ ∧
    BufferCall.countCreate (GPUBufferVk.UploadData U s data size created mapped).2 =
        BufferCall.countCreate (GPUBufferVk.UploadData.ensureBuffer U s size created).2.1 ∧
    BufferCall.countDestroy (GPUBufferVk.UploadData U s data size created mapped).2 =
        BufferCall.countDestroy (GPUBufferVk.UploadData.ensureBuffer U s size created).2.1 ∧
    BufferCall.createdSizes (GPUBufferVk.UploadData U s data size created mapped).2 =
        BufferCall.createdSizes (GPUBufferVk.UploadData.ensureBuffer U s size created).2.1 := by
  unfold GPUBufferVk.UploadData
  generalize GPUBufferVk.UploadData.ensureBuffer U s size created = e
  obtain ⟨s2, ev2, ok⟩ := e
  cases ok
  · simp [hd, hs]
  · by_cases hm : s2.is_mapped_ = true
    · by_cases hp : s2.mapped_ptr_ = 0
      · simp [hd, hs, GPUBufferVk.GetMappedPtr, hm, hp]
      · simp [hd, hs, GPUBufferVk.GetMappedPtr, GPUBufferVk.Unmap, GPUBufferVk.FlushMappedRange,
          hm, hp, BufferCall.countCreate_append, BufferCall.countDestroy_append,
          BufferCall.createdSizes_append]
        simp [BufferCall.countCreate, BufferCall.countDestroy, BufferCall.createdSizes]
    · cases mapped with
      | none =>
          simp [hd, hs, GPUBufferVk.GetMappedPtr, hm, BufferCall.countCreate_append,
            BufferCall.countDestroy_append, BufferCall.createdSizes_append]
          simp [BufferCall.countCreate, BufferCall.countDestroy, BufferCall.createdSizes]
      | some p =>
          by_cases hp : p = 0
          · simp [hd, hs, GPUBufferVk.GetMappedPtr, hm, hp, BufferCall.countCreate_append,
              BufferCall.countDestroy_append, BufferCall.createdSizes_append]
            simp [BufferCall.countCreate, BufferCall.countDestroy, BufferCall.createdSizes]
          · simp [hd, hs, GPUBufferVk.GetMappedPtr, GPUBufferVk.Unmap,
              GPUBufferVk.FlushMappedRange, hm, hp, BufferCall.countCreate_append,
              BufferCall.countDestroy_append, BufferCall.createdSizes_append]
            simp [BufferCall.countCreate, BufferCall.countDestroy, BufferCall.createdSizes]

/-- One `UploadData` call with non-null data, a positive size and a successful
buffer creation, in closed form. -/
theorem GPUBufferVk.UploadData_created (U : GPUBufferUsage) (s : GPUBufferVk)
    (data size b a : Nat) (mapped : Option Nat) (hd : data ≠ 0) (hs : size ≠ 0) :
    (GPUBufferVk.UploadData U s data size (some (b, a)) mapped).1.buffer_ =
        (if s.needsReallocation size then b else s.buffer_) ∧
    (GPUBufferVk.UploadData U s data size (some (b, a)) mapped).1.size_ =
        (if s.needsReallocation size then size else s.size_) ∧
    BufferCall.countCreate (GPUBufferVk.UploadData U s data size (some (b, a)) mapped).2 =
        (if s.needsReallocation size then 1 else 0) ∧
    BufferCall.countDestroy (GPUBufferVk.UploadData U s data size (some (b, a)) mapped).2 =
        (if s.buffer_ ≠ 0 ∧ s.size_ < size then 1 else 0) ∧
    BufferCall.createdSizes (GPUBufferVk.UploadData U s data size (some (b, a)) mapped).2 =
        (if s.needsReallocation size then [size] else []) := by
  obtain ⟨h1, -, h3, h4, h5, h6⟩ :=
    GPUBufferVk.UploadData_frame U s data size (some (b, a)) mapped hd hs
  rw [h1, h3, h4, h5, h6, GPUBufferVk.ensureBuffer_spec]
  by_cases hn : s.needsReallocation size
  · by_cases hb : s.buffer_ = 0
    · simp [hn, hb, BufferCall.countCreate, BufferCall.countDestroy, BufferCall.createdSizes]
    · have hlt : s.size_ < size := by
        rcases hn with h | h
        · exact absurd h hb
        · exact h
      simp [hn, hb, hlt, BufferCall.countCreate, BufferCall.countDestroy,
        BufferCall.createdSizes]
  · have hb : s.buffer_ ≠ 0 := fun h => hn (Or.inl h)
    have hlt : ¬ s.size_ < size := fun h => hn (Or.inr h)
    simp [hn, hb, hlt, BufferCall.countCreate, BufferCall.countDestroy,
      BufferCall.createdSizes]

/-- C5, as stated, fails: a buffer keeps the capacity of its largest upload.
After uploads of 100 and then 10 bytes into a new buffer, the upload of a
larger payload (20 bytes) after the smaller one (10 bytes) performs no
reallocation at all: it neither creates nor destroys a native buffer. -/
theorem buffer_reallocation_policy_counterexample :
    (10 : Nat) < 20 ∧
    BufferCall.countCreate
      (GPUBufferVk.UploadData ⟨0x20, 0x10, 0x40⟩
        (GPUBufferVk.UploadData ⟨0x20, 0x10, 0x40⟩
          (GPUBufferVk.UploadData ⟨0x20, 0x10, 0x40⟩ (GPUBufferVk.new 0x20) 4096 100
            (some (1, 1)) (some 8192)).1
          4096 10 (some (2, 2)) (some 8192)).1
        4096 20 (some (3, 3)) (some 8192)).2 = 0 ∧
    BufferCall.countDestroy
      (GPUBufferVk.UploadData ⟨0x20, 0x10, 0x40⟩
        (GPUBufferVk.UploadData ⟨0x20, 0x10, 0x40⟩
          (GPUBufferVk.UploadData ⟨0x20, 0x10, 0x40⟩ (GPUBufferVk.new 0x20) 4096 100
            (some (1, 1)) (some 8192)).1
          4096 10 (some (2, 2)) (some 8192)).1
        4096 20 (some (3, 3)) (some 8192)).2 = 0 := by
  decide

/-- C5, amended: for non-null data and `size > 0`, with the native calls
succeeding, `UploadData` replaces the native buffer by a new one of exactly
`size` bytes (destroying the old one when there is one) if and only if no
native buffer exists or the recorded size is smaller than `size`; otherwise
the native handle and the recorded size are unchanged. After the call the
recorded size is `>= size`. A following upload of an equal or smaller payload
performs no reallocation; a following upload of a larger payload performs
exactly one reallocation when the payload exceeds the recorded size (as it
does when the first upload had to allocate), and none otherwise. -/
theorem buffer_reallocation_policy (U : GPUBufferUsage) (s : GPUBufferVk)
    (data size b a p : Nat) (hd : data ≠ 0) (hs : 0 < size) (hb : b ≠ 0) (_hp : p ≠ 0) :
    (BufferCall.countCreate (GPUBufferVk.UploadData U s data size (some (b, a)) (some p)).2 = 1 ↔
        s.needsReallocation size) ∧
    (s.needsReallocation size →
        BufferCall.createdSizes
            (GPUBufferVk.UploadData U s data size (some (b, a)) (some p)).2 = [size] ∧
        BufferCall.countDestroy
            (GPUBufferVk.UploadData U s data size (some (b, a)) (some p)).2 =
          (if s.buffer_ ≠ 0 then 1 else 0) ∧
        (GPUBufferVk.UploadData U s data size (some (b, a)) (some p)).1.buffer_ = b ∧
        (GPUBufferVk.UploadData U s data size (some (b, a)) (some p)).1.size_ = size) ∧
    (¬ s.needsReallocation size →
        BufferCall.countCreate
            (GPUBufferVk.UploadData U s data size (some (b, a)) (some p)).2 = 0 ∧
        BufferCall.countDestroy
            (GPUBufferVk.UploadData U s data size (some (b, a)) (some p)).2 = 0 ∧
        (GPUBufferVk.UploadData U s data size (some (b, a)) (some p)).1.buffer_ = s.buffer_ ∧
        (GPUBufferVk.UploadData U s data size (some (b, a)) (some p)).1.size_ = s.size_) ∧
    size ≤ (GPUBufferVk.UploadData U s data size (some (b, a)) (some p)).1.size_ ∧
    (∀ data2 size2 b2 a2 p2 : Nat, data2 ≠ 0 → 0 < size2 → b2 ≠ 0 → p2 ≠ 0 →
      (size2 ≤ size →
        BufferCall.countCreate
          (GPUBufferVk.UploadData U
            (GPUBufferVk.UploadData U s data size (some (b, a)) (some p)).1
            data2 size2 (some (b2, a2)) (some p2)).2 = 0 ∧
        BufferCall.countDestroy
          (GPUBufferVk.UploadData U
            (GPUBufferVk.UploadData U s data size (some (b, a)) (some p)).1
            data2 size2 (some (b2, a2)) (some p2)).2 = 0) ∧
      (size < size2 →
        (GPUBufferVk.UploadData U s data size (some (b, a)) (some p)).1.size_ < size2 →
        BufferCall.countCreate
          (GPUBufferVk.UploadData U
            (GPUBufferVk.UploadData U s data size (some (b, a)) (some p)).1
            data2 size2 (some (b2, a2)) (some p2)).2 = 1 ∧
        BufferCall.countDestroy
          (GPUBufferVk.UploadData U
            (GPUBufferVk.UploadData U s data size (some (b, a)) (some p)).1
            data2 size2 (some (b2, a2)) (some p2)).2 = 1 ∧
        BufferCall.createdSizes
          (GPUBufferVk.UploadData U
            (GPUBufferVk.UploadData U s data size (some (b, a)) (some p)).1
            data2 size2 (some (b2, a2)) (some p2)).2 = [size2]) ∧
      (size < size2 → s.needsReallocation size →
        BufferCall.countCreate
          (GPUBufferVk.UploadData U
            (GPUBufferVk.UploadData U s data size (some (b, a)) (some p)).1
            data2 size2 (some (b2, a2)) (some p2)).2 = 1 ∧
        BufferCall.countDestroy
          (GPUBufferVk.UploadData U
            (GPUBufferVk.UploadData U s data size (some (b, a)) (some p)).1
            data2 size2 (some (b2, a2)) (some p2)).2 = 1) ∧
      (size < size2 →
        ¬ (GPUBufferVk.UploadData U s data size (some (b, a)) (some p)).1.size_ < size2 →
        BufferCall.countCreate
          (GPUBufferVk.UploadData U
            (GPUBufferVk.UploadData U s data size (some (b, a)) (some p)).1
            data2 size2 (some (b2, a2)) (some p2)).2 = 0)) := by
  obtain ⟨e1, e2, e3, e4, e5⟩ :=
    GPUBufferVk.UploadData_created U s data size b a (some p) hd (Nat.pos_iff_ne_zero.mp hs)
  have hsize : size ≤ (GPUBufferVk.UploadData U s data size (some (b, a)) (some p)).1.size_ := by
    rw [e2]
    by_cases hn : s.needsReallocation size
    · simp [hn]
    · have hlt : ¬ s.size_ < size := fun h => hn (Or.inr h)
      simp only [hn, if_false]
      omega
  have hbuf : (GPUBufferVk.UploadData U s data size (some (b, a)) (some p)).1.buffer_ ≠ 0 := by
    rw [e1]
    by_cases hn : s.needsReallocation size
    · simpa [hn] using hb
    · have hb0 : s.buffer_ ≠ 0 := fun h => hn (Or.inl h)
      simpa [hn] using hb0
  refine ⟨?_, ?_, ?_, hsize, ?_⟩
  · rw [e3]
    by_cases hn : s.needsReallocation size <;> simp [hn]
  · intro hn
    rw [e5, e4, e1, e2]
    have hiff : (s.buffer_ ≠ 0 ∧ s.size_ < size) ↔ s.buffer_ ≠ 0 := by
      constructor
      · exact fun h => h.1
      · intro h
        rcases hn with h0 | hlt
        · exact absurd h0 h
        · exact ⟨h, hlt⟩
    simp only [hn, if_true, hiff]
    exact ⟨trivial, trivial, trivial, trivial⟩
  · intro hn
    have hnot : ¬ (s.buffer_ ≠ 0 ∧ s.size_ < size) := fun h => hn (Or.inr h.2)
    rw [e3, e4, e1, e2]
    simp [hn, hnot]
  · intro data2 size2 b2 a2 p2 hd2 hs2 _ _
    obtain ⟨-, -, f3, f4, f5⟩ :=
      GPUBufferVk.UploadData_created U
        (GPUBufferVk.UploadData U s data size (some (b, a)) (some p)).1
        data2 size2 b2 a2 (some p2) hd2 (Nat.pos_iff_ne_zero.mp hs2)
    rw [f3, f4, f5]
    refine ⟨?_, ?_, ?_, ?_⟩
    · intro hle
      have hn2 : ¬ GPUBufferVk.needsReallocation
          (GPUBufferVk.UploadData U s data size (some (b, a)) (some p)).1 size2 := by
        rintro (h | h)
        · exact hbuf h
        · omega
      have hnot : ¬ ((GPUBufferVk.UploadData U s data size (some (b, a)) (some p)).1.buffer_ ≠ 0 ∧
          (GPUBufferVk.UploadData U s data size (some (b, a)) (some p)).1.size_ < size2) :=
        fun h => hn2 (Or.inr h.2)
      simp [hn2, hnot]
    · intro _ hlt
      have hn2 : GPUBufferVk.needsReallocation
          (GPUBufferVk.UploadData U s data size (some (b, a)) (some p)).1 size2 := Or.inr hlt
      simp [hn2, hbuf, hlt]
    · intro hlt hn
      have hlt2 : (GPUBufferVk.UploadData U s data size (some (b, a)) (some p)).1.size_ < size2 := by
        rw [e2]
        simpa [hn] using hlt
      have hn2 : GPUBufferVk.needsReallocation
          (GPUBufferVk.UploadData U s data size (some (b, a)) (some p)).1 size2 := Or.inr hlt2
      simp [hn2, hbuf, hlt2]
    · intro _ hnlt
      have hn2 : ¬ GPUBufferVk.needsReallocation
          (GPUBufferVk.UploadData U s data size (some (b, a)) (some p)).1 size2 := by
        rintro (h | h)
        · exact hbuf h
        · exact hnlt h
      simp [hn2]

/-- Witness for C5: 10 bytes and then 20 bytes uploaded into a new vertex
buffer; the second upload performs exactly one reallocation. -/
theorem buffer_reallocation_policy_witness :
    BufferCall.countCreate
        (GPUBufferVk.UploadData ⟨0x20, 0x10, 0x40⟩
          (GPUBufferVk.UploadData ⟨0x20, 0x10, 0x40⟩ (GPUBufferVk.new 0x20) 4096 10
            (some (1, 1)) (some 8192)).1
          4096 20 (some (2, 2)) (some 8192)).2 = 1 ∧
    BufferCall.countDestroy
        (GPUBufferVk.UploadData ⟨0x20, 0x10, 0x40⟩
          (GPUBufferVk.UploadData ⟨0x20, 0x10, 0x40⟩ (GPUBufferVk.new 0x20) 4096 10
            (some (1, 1)) (some 8192)).1
          4096 20 (some (2, 2)) (some 8192)).2 = 1 :=
  ((buffer_reallocation_policy ⟨0x20, 0x10, 0x40⟩ (GPUBufferVk.new 0x20) 4096 10 1 1 8192
      (by decide) (by decide) (by decide) (by decide)).2.2.2.2
    4096 20 2 2 8192 (by decide) (by decide) (by decide) (by decide)).2.2.1
    (by decide) (Or.inl rfl)

/-- C6, as stated, fails: a buffer that holds a 10-byte native buffer (handle
1) is asked to upload 20 bytes and the native allocation fails. The old
buffer has been destroyed by then: afterwards the handle is null and the
recorded size is 20, so the state is not the state before the call. -/
theorem buffer_upload_failure_counterexample :
    (GPUBufferVk.UploadData ⟨0x20, 0x10, 0x40⟩
        (GPUBufferVk.UploadData ⟨0x20, 0x10, 0x40⟩ (GPUBufferVk.new 0x20) 4096 10
          (some (1, 1)) (some 8192)).1
        4096 20 none (some 8192)).2 =
      [BufferCall.vmaDestroyBuffer 1 1, BufferCall.vmaCreateBuffer 20 0x83 3] ∧
    ¬ ((GPUBufferVk.UploadData ⟨0x20, 0x10, 0x40⟩
          (GPUBufferVk.UploadData ⟨0x20, 0x10, 0x40⟩ (GPUBufferVk.new 0x20) 4096 10
            (some (1, 1)) (some 8192)).1
          4096 20 none (some 8192)).1.buffer_ =
        (GPUBufferVk.UploadData ⟨0x20, 0x10, 0x40⟩ (GPUBufferVk.new 0x20) 4096 10
          (some (1, 1)) (some 8192)).1.buffer_ ∧
      (GPUBufferVk.UploadData ⟨0x20, 0x10, 0x40⟩
          (GPUBufferVk.UploadData ⟨0x20, 0x10, 0x40⟩ (GPUBufferVk.new 0x20) 4096 10
            (some (1, 1)) (some 8192)).1
          4096 20 none (some 8192)).1.size_ =
        (GPUBufferVk.UploadData ⟨0x20, 0x10, 0x40⟩ (GPUBufferVk.new 0x20) 4096 10
          (some (1, 1)) (some 8192)).1.size_ ∧
      (GPUBufferVk.UploadData ⟨0x20, 0x10, 0x40⟩
          (GPUBufferVk.UploadData ⟨0x20, 0x10, 0x40⟩ (GPUBufferVk.new 0x20) 4096 10
            (some (1, 1)) (some 8192)).1
          4096 20 none (some 8192)).1.is_mapped_ =
        (GPUBufferVk.UploadData ⟨0x20, 0x10, 0x40⟩ (GPUBufferVk.new 0x20) 4096 10
          (some (1, 1)) (some 8192)).1.is_mapped_) := by
  decide

/-- C6, amended: when the native allocation or the memory map fails inside
`UploadData` (non-null data, `size > 0`), no payload is copied and the mapped
flag keeps its value. The native handle and the recorded size are those left
by the buffer step: after a failed allocation the handle is null (a smaller
buffer held before has been destroyed) and the recorded size is `size`; after
a failed map they are the new buffer and `size` when the buffer was replaced,
and unchanged when no reallocation was needed, so that only then are the
handle, the recorded size and the mapped flag all as before the call. -/
theorem buffer_upload_failure (U : GPUBufferUsage) (s : GPUBufferVk) (data size : Nat)
    (hd : data ≠ 0) (hs : 0 < size) :
    (∀ mapped : Option Nat, s.needsReallocation size →
      (GPUBufferVk.UploadData U s data size none mapped).1.buffer_ = 0 ∧
      (GPUBufferVk.UploadData U s data size none mapped).1.size_ = size ∧
      (GPUBufferVk.UploadData U s data size none mapped).1.is_mapped_ = s.is_mapped_ ∧
      BufferCall.countMemcpy (GPUBufferVk.UploadData U s data size none mapped).2 = 0 ∧
      BufferCall.countDestroy (GPUBufferVk.UploadData U s data size none mapped).2 =
          (if s.buffer_ ≠ 0 then 1 else 0)) ∧
    (∀ created : Option (Nat × Nat), s.is_mapped_ = false →
      BufferCall.countMemcpy (GPUBufferVk.UploadData U s data size created none).2 = 0 ∧
      (GPUBufferVk.UploadData U s data size created none).1.is_mapped_ = s.is_mapped_ ∧
      (¬ s.needsReallocation size →
        (GPUBufferVk.UploadData U s data size created none).1.buffer_ = s.buffer_ ∧
        (GPUBufferVk.UploadData U s data size created none).1.size_ = s.size_) ∧
      (∀ b a : Nat, s.needsReallocation size → created = some (b, a) →
        (GPUBufferVk.UploadData U s data size created none).1.buffer_ = b ∧
        (GPUBufferVk.UploadData U s data size created none).1.size_ = size)) := by
  have hs0 : size ≠ 0 := Nat.pos_iff_ne_zero.mp hs
  constructor
  · intro mapped hn
    have he := GPUBufferVk.ensureBuffer_spec U s size none
    rw [if_pos hn] at he
    unfold GPUBufferVk.UploadData
    rw [he]
    by_cases hb : s.buffer_ = 0
    · simp [hd, hs0, hb, BufferCall.countMemcpy, BufferCall.countDestroy]
    · simp [hd, hs0, hb, BufferCall.countMemcpy, BufferCall.countDestroy]
  · intro created hm
    have he := GPUBufferVk.ensureBuffer_spec U s size created
    have hmap : (GPUBufferVk.UploadData.ensureBuffer U s size created).1.is_mapped_ = false := by
      rw [he]
      by_cases hn : s.needsReallocation size
      · cases created with
        | none => simp [hn, hm]
        | some ba => simp [hn, hm]
      · simp [hn, hm]
    have hcpy : BufferCall.countMemcpy
        (GPUBufferVk.UploadData.ensureBuffer U s size created).2.1 = 0 := by
      rw [he]
      by_cases hn : s.needsReallocation size
      · by_cases hb : s.buffer_ = 0 <;> simp [hn, hb, BufferCall.countMemcpy]
      · simp [hn, BufferCall.countMemcpy]
    have hmain : (GPUBufferVk.UploadData U s data size created none).1 =
          (GPUBufferVk.UploadData.ensureBuffer U s size created).1 ∧
        BufferCall.countMemcpy (GPUBufferVk.UploadData U s data size created none).2 = 0 := by
      unfold GPUBufferVk.UploadData
      revert hmap hcpy
      generalize GPUBufferVk.UploadData.ensureBuffer U s size created = e
      obtain ⟨s2, ev2, ok⟩ := e
      intro hmap hcpy
      simp only at hmap hcpy
      cases ok
      · simp [hd, hs0, hcpy]
      · simp [hd, hs0, GPUBufferVk.GetMappedPtr, hmap, BufferCall.countMemcpy_append, hcpy]
        simp [BufferCall.countMemcpy]
    refine ⟨hmain.2, ?_, ?_, ?_⟩
    · rw [hmain.1, hmap, hm]
    · intro hn
      rw [hmain.1, he, if_neg hn]
      exact ⟨rfl, rfl⟩
    · intro b a hn hc
      rw [hmain.1, he, if_pos hn, hc]
      exact ⟨rfl, rfl⟩

/-- Witness for C6: the failed allocation of the counterexample (a 10-byte
buffer asked to take 20 bytes), and a failed map on the same buffer for a
payload that fits. -/
theorem buffer_upload_failure_witness :
    ((GPUBufferVk.UploadData ⟨0x20, 0x10, 0x40⟩
        { usage := 0x20, buffer_ := 1, allocation_ := 1, mapped_ptr_ := 0, size_ := 10,
          is_mapped_ := false } 4096 20 none (some 8192)).1.buffer_ = 0 ∧
      (GPUBufferVk.UploadData ⟨0x20, 0x10, 0x40⟩
        { usage := 0x20, buffer_ := 1, allocation_ := 1, mapped_ptr_ := 0, size_ := 10,
          is_mapped_ := false } 4096 20 none (some 8192)).1.size_ = 20) ∧
    ((GPUBufferVk.UploadData ⟨0x20, 0x10, 0x40⟩
        { usage := 0x20, buffer_ := 1, allocation_ := 1, mapped_ptr_ := 0, size_ := 10,
          is_mapped_ := false } 4096 8 (some (2, 2)) none).1.buffer_ = 1 ∧
      (GPUBufferVk.UploadData ⟨0x20, 0x10, 0x40⟩
        { usage := 0x20, buffer_ := 1, allocation_ := 1, mapped_ptr_ := 0, size_ := 10,
          is_mapped_ := false } 4096 8 (some (2, 2)) none).1.size_ = 10) :=
  ⟨⟨((buffer_upload_failure ⟨0x20, 0x10, 0x40⟩
        { usage := 0x20, buffer_ := 1, allocation_ := 1, mapped_ptr_ := 0, size_ := 10,
          is_mapped_ := false } 4096 20 (by decide) (by decide)).1 (some 8192)
        (Or.inr (by decide))).1,
     ((buffer_upload_failure ⟨0x20, 0x10, 0x40⟩
        { usage := 0x20, buffer_ := 1, allocation_ := 1, mapped_ptr_ := 0, size_ := 10,
          is_mapped_ := false } 4096 20 (by decide) (by decide)).1 (some 8192)
        (Or.inr (by decide))).2.1⟩,
   ((buffer_upload_failure ⟨0x20, 0x10, 0x40⟩
      { usage := 0x20, buffer_ := 1, allocation_ := 1, mapped_ptr_ := 0, size_ := 10,
        is_mapped_ := false } 4096 8 (by decide) (by decide)).2 (some (2, 2)) rfl).2.2.1
      (by decide)⟩

/-! ### Barrier batching -/

theorem orAll_foldl (a : Nat) (masks : List Nat) :
    masks.foldl (fun acc m => acc ||| m) a = a ||| orAll masks := by
  unfold orAll
  induction masks generalizing a with
  | nil => simp
  | cons m rest ih =>
      simp only [List.foldl_cons]
      rw [ih (a ||| m), ih (0 ||| m), Nat.zero_or, Nat.lor_assoc]

theorem orAll_cons (m : Nat) (masks : List Nat) : orAll (m :: masks) = m ||| orAll masks := by
  have h := orAll_foldl (0 ||| m) masks
  rw [Nat.zero_or] at h
  unfold orAll at h ⊢
  simpa using h

theorem AddBarrierCall.length_split (calls : List AddBarrierCall) :
    (AddBarrierCall.memoryBarriers calls).length + (AddBarrierCall.bufferBarriers calls).length +
      (AddBarrierCall.imageBarriers calls).length = calls.length := by
  induction calls with
  | nil => rfl
  | cons c rest ih =>
      cases c <;>
        simp only [AddBarrierCall.memoryBarriers, AddBarrierCall.bufferBarriers,
          AddBarrierCall.imageBarriers, List.length_cons] <;> omega

/-- The state after a sequence of recording calls: each vector has grown by
the barriers of its kind, in call order, and each aggregate mask has been
OR-ed with the masks of all the calls. -/
theorem VkSyncManager.addAll_eq (s : VkSyncManager) (calls : List AddBarrierCall) :
    s.addAll calls =
      { memory_barriers_ := s.memory_barriers_ ++ AddBarrierCall.memoryBarriers calls
        image_barriers_ := s.image_barriers_ ++ AddBarrierCall.imageBarriers calls
        buffer_barriers_ := s.buffer_barriers_ ++ AddBarrierCall.bufferBarriers calls
        src_stage_mask_ := s.src_stage_mask_ ||| orAll (calls.map AddBarrierCall.src_stage_mask)
        dst_stage_mask_ :=
          s.dst_stage_mask_ ||| orAll (calls.map AddBarrierCall.dst_stage_mask) } := by
  unfold VkSyncManager.addAll
  induction calls generalizing s with
  | nil => simp [AddBarrierCall.memoryBarriers, AddBarrierCall.imageBarriers,
      AddBarrierCall.bufferBarriers, orAll]
  | cons c rest ih =>
      rw [List.foldl_cons, ih]
      cases c <;>
        simp [VkSyncManager.add, VkSyncManager.AddMemoryBarrier, VkSyncManager.AddImageBarrier,
          VkSyncManager.AddBufferBarrier, AddBarrierCall.memoryBarriers,
          AddBarrierCall.imageBarriers, AddBarrierCall.bufferBarriers, orAll_cons,
          AddBarrierCall.src_stage_mask, AddBarrierCall.dst_stage_mask, Nat.lor_assoc]

/-- C7: after `N >= 1` recording calls (`AddMemoryBarrier`, `AddImageBarrier`,
`AddBufferBarrier`, in any order) on a new or just reset `VkSyncManager`,
`ExecuteBarriers` records exactly one native pipeline-barrier command. Its
three arrays hold the `N` recorded barriers, each kind in call order. On the
synchronization2 path it is `vkCmdPipelineBarrier2KHR` with these arrays; on
the legacy path it is `vkCmdPipelineBarrier` with the legacy forms of these
barriers and with source and destination stage masks equal to the bitwise OR
of the `N` source and destination stage masks. The count arguments are the
array lengths (as `uint32_t`; they add up to `N` for `N < 2 ^ 32`). -/
theorem barrier_batching (s0 prev : VkSyncManager) (calls : List AddBarrierCall)
    (cmd_buffer : Nat) (HasSynchronization2Support vkCmdPipelineBarrier2KHR_loaded : Bool)
    (hfresh : s0 = VkSyncManager.new ∨ s0 = prev.Reset) (hN : 1 ≤ calls.length) :
    ∃ c : BarrierCommand,
      (s0.addAll calls).ExecuteBarriers cmd_buffer HasSynchronization2Support
          vkCmdPipelineBarrier2KHR_loaded = [c] ∧
      c.entryCount = calls.length ∧
      (calls.length < 2 ^ 32 → c.declaredCount = calls.length) ∧
      ((HasSynchronization2Support && vkCmdPipelineBarrier2KHR_loaded) = true →
        c = BarrierCommand.vkCmdPipelineBarrier2KHR cmd_buffer
          { sType := VkStructureType.VK_STRUCTURE_TYPE_DEPENDENCY_INFO_KHR
            dependencyFlags := 0
            memoryBarrierCount := (AddBarrierCall.memoryBarriers calls).length % 2 ^ 32
            pMemoryBarriers := AddBarrierCall.memoryBarriers calls
            bufferMemoryBarrierCount := (AddBarrierCall.bufferBarriers calls).length % 2 ^ 32
            pBufferMemoryBarriers := AddBarrierCall.bufferBarriers calls
            imageMemoryBarrierCount := (AddBarrierCall.imageBarriers calls).length % 2 ^ 32
            pImageMemoryBarriers := AddBarrierCall.imageBarriers calls }) ∧
      ((HasSynchronization2Support && vkCmdPipelineBarrier2KHR_loaded) = false →
        c = BarrierCommand.vkCmdPipelineBarrier cmd_buffer
          (orAll (calls.map AddBarrierCall.src_stage_mask))
          (orAll (calls.map AddBarrierCall.dst_stage_mask)) 0
          ((AddBarrierCall.memoryBarriers calls).length % 2 ^ 32)
          ((AddBarrierCall.memoryBarriers calls).map VkMemoryBarrier2KHR.toLegacy)
          ((AddBarrierCall.bufferBarriers calls).length % 2 ^ 32)
          ((AddBarrierCall.bufferBarriers calls).map VkBufferMemoryBarrier2KHR.toLegacy)
          ((AddBarrierCall.imageBarriers calls).length % 2 ^ 32)
          ((AddBarrierCall.imageBarriers calls).map VkImageMemoryBarrier2KHR.toLegacy)) := by
  have hs0 : s0 = VkSyncManager.new := by
    rcases hfresh with h | h
    · exact h
    · rw [h]
      rfl
  subst hs0
  have hsplit := AddBarrierCall.length_split calls
  have hne : ((AddBarrierCall.memoryBarriers calls).isEmpty &&
      (AddBarrierCall.imageBarriers calls).isEmpty &&
      (AddBarrierCall.bufferBarriers calls).isEmpty) = false := by
    rw [Bool.eq_false_iff]
    intro h
    simp only [Bool.and_eq_true, List.isEmpty_iff] at h
    obtain ⟨⟨h1, h2⟩, h3⟩ := h
    rw [h1, h2, h3] at hsplit
    simp at hsplit
    omega
  have hst : VkSyncManager.new.addAll calls =
      { memory_barriers_ := AddBarrierCall.memoryBarriers calls
        image_barriers_ := AddBarrierCall.imageBarriers calls
        buffer_barriers_ := AddBarrierCall.bufferBarriers calls
        src_stage_mask_ := orAll (calls.map AddBarrierCall.src_stage_mask)
        dst_stage_mask_ := orAll (calls.map AddBarrierCall.dst_stage_mask) } := by
    rw [VkSyncManager.addAll_eq]
    simp [VkSyncManager.new]
  rw [hst]
  cases hsync : (HasSynchronization2Support && vkCmdPipelineBarrier2KHR_loaded)
  · simp only [VkSyncManager.ExecuteBarriers, hne, hsync]
    refine ⟨_, rfl, ?_, ?_, ?_, ?_⟩
    · simp only [BarrierCommand.entryCount, List.length_map]
      exact hsplit
    · intro hlt
      simp only [BarrierCommand.declaredCount, List.length_map]
      omega
    · intro h
      cases h
    · intro _
      simp only [List.length_map]
  · simp only [VkSyncManager.ExecuteBarriers, hne, hsync]
    refine ⟨_, rfl, ?_, ?_, ?_, ?_⟩
    · simp only [BarrierCommand.entryCount]
      exact hsplit
    · intro hlt
      simp only [BarrierCommand.declaredCount]
      omega
    · intro _
      rfl
    · intro h
      cases h

/-- Witness for C7: an image barrier (top-of-pipe to transfer) and a buffer
barrier (transfer to vertex-input) recorded on a new manager, executed on the
legacy path: one command with aggregate masks `0x1 | 0x1000` and
`0x1000 | 0x4`. -/
theorem barrier_batching_witness :
    ∃ c : BarrierCommand,
      ((VkSyncManager.new).addAll
          [AddBarrierCall.AddImageBarrier
            { src_stage_mask := 0x1, dst_stage_mask := 0x1000, src_access_mask := 0,
              dst_access_mask := 0x1000, old_layout := 0, new_layout := 7, image := 5,
              subresource_range := ⟨1, 0, 1, 0, 1⟩ },
           AddBarrierCall.AddBufferBarrier
            { src_stage_mask := 0x1000, dst_stage_mask := 0x4, src_access_mask := 0x1000,
              dst_access_mask := 0x2, buffer := 9, offset := 0, size := 64 }]).ExecuteBarriers
        77 false false = [c] ∧
      c.entryCount = 2 ∧
      (2 < 2 ^ 32 → c.declaredCount = 2) ∧
      ((false && false) = false →
        c = BarrierCommand.vkCmdPipelineBarrier 77 0x1001 0x1004 0 0 [] 1
          [{ sType := VkStructureType.VK_STRUCTURE_TYPE_BUFFER_MEMORY_BARRIER
             srcAccessMask := 0x1000, dstAccessMask := 0x2,
             srcQueueFamilyIndex := 0xFFFFFFFF, dstQueueFamilyIndex := 0xFFFFFFFF,
             buffer := 9, offset := 0, size := 64 }] 1
          [{ sType := VkStructureType.VK_STRUCTURE_TYPE_IMAGE_MEMORY_BARRIER
             srcAccessMask := 0, dstAccessMask := 0x1000, oldLayout := 0, newLayout := 7,
             srcQueueFamilyIndex := 0xFFFFFFFF, dstQueueFamilyIndex := 0xFFFFFFFF,
             image := 5, subresourceRange := ⟨1, 0, 1, 0, 1⟩ }]) := by
  obtain ⟨c, h1, h2, h3, -, h5⟩ := barrier_batching VkSyncManager.new VkSyncManager.new
    [AddBarrierCall.AddImageBarrier
      { src_stage_mask := 0x1, dst_stage_mask := 0x1000, src_access_mask := 0,
        dst_access_mask := 0x1000, old_layout := 0, new_layout := 7, image := 5,
        subresource_range := ⟨1, 0, 1, 0, 1⟩ },
     AddBarrierCall.AddBufferBarrier
      { src_stage_mask := 0x1000, dst_stage_mask := 0x4, src_access_mask := 0x1000,
        dst_access_mask := 0x2, buffer := 9, offset := 0, size := 64 }]
    77 false false (Or.inl rfl) (by decide)
  exact ⟨c, h1, h2, h3, fun h => (h5 h).trans (by decide)⟩

/-- C8: after `Reset` the batch is empty: no memory, image or buffer barriers
and both aggregate stage masks 0; and `ExecuteBarriers` on a just reset or a
new manager records no native command, on either path. -/
theorem barrier_reset (s : VkSyncManager) (cmd_buffer : Nat)
    (HasSynchronization2Support vkCmdPipelineBarrier2KHR_loaded : Bool) :
    s.Reset.memory_barriers_ = [] ∧ s.Reset.image_barriers_ = [] ∧
    s.Reset.buffer_barriers_ = [] ∧ s.Reset.src_stage_mask_ = 0 ∧ s.Reset.dst_stage_mask_ = 0 ∧
    s.Reset.ExecuteBarriers cmd_buffer HasSynchronization2Support
        vkCmdPipelineBarrier2KHR_loaded = [] ∧
    VkSyncManager.new.ExecuteBarriers cmd_buffer HasSynchronization2Support
        vkCmdPipelineBarrier2KHR_loaded = [] ∧
    (s.Reset.addAll []).ExecuteBarriers cmd_buffer HasSynchronization2Support
        vkCmdPipelineBarrier2KHR_loaded = [] :=
  ⟨rfl, rfl, rfl, rfl, rfl, rfl, rfl, rfl⟩

/-! ### Shader cache -/

theorem unordered_map.mem_assign {κ ν : Type} [DecidableEq κ] (m : List (κ × ν)) (k : κ)
    (v : ν) (e : κ × ν) (he : e ∈ unordered_map.assign m k v) : e ∈ m ∨ e.2 = v := by
  induction m with
  | nil =>
      simp only [unordered_map.assign, List.mem_singleton] at he
      right
      rw [he]
  | cons x rest ih =>
      obtain ⟨k', v'⟩ := x
      by_cases hk : k' = k
      · simp only [unordered_map.assign, hk, if_true, List.mem_cons] at he
        rcases he with h | h
        · right
          rw [h]
        · left
          exact List.mem_cons_of_mem _ h
      · simp only [unordered_map.assign, hk, if_false, List.mem_cons] at he
        rcases he with h | h
        · left
          rw [h]
          exact List.mem_cons_self _ _
        · rcases ih h with h2 | h2
          · left
            exact List.mem_cons_of_mem _ h2
          · right
            exact h2

theorem string_append_ne_empty (a b : String) (ha : 0 < a.length) : a ++ b ≠ "" := by
  intro h
  have hl : (a ++ b).length = 0 := by
    rw [h]
    rfl
  rw [String.length_append] at hl
  omega

/-- A `CompileGLSLToSPIRV` result without success carries an error message. -/
theorem SPIRVCompilerVk.CompileGLSLToSPIRV_error (T : Toolchain) (glsl_source : String)
    (stage : GPUShaderStage) (options : SPIRVCompileOptions)
    (hfail : (SPIRVCompilerVk.CompileGLSLToSPIRV T glsl_source stage options).success = false) :
    (SPIRVCompilerVk.CompileGLSLToSPIRV T glsl_source stage options).error_message ≠ "" := by
  unfold SPIRVCompilerVk.CompileGLSLToSPIRV at hfail ⊢
  by_cases hp : T.shader_parse (SPIRVCompilerVk.GetGlslangStage stage) glsl_source = true
  · by_cases hl : T.program_link (SPIRVCompilerVk.GetGlslangStage stage) glsl_source = true
    · by_cases hv : (options.validate &&
          !SPIRVCompilerVk.ValidateSPIRV
            (T.GlslangToSpv (SPIRVCompilerVk.GetGlslangStage stage) glsl_source
              options.debug_info (!options.optimize))) = true
      · simp only [hp, hl, SPIRVCompilerVk.ReflectSPIRV] at hfail ⊢
        simp only [hv] at hfail ⊢
        simp
      · simp only [hp, hl, SPIRVCompilerVk.ReflectSPIRV] at hfail ⊢
        simp only [hv] at hfail ⊢
        simp at hfail
    · simp only [hp, hl]
      simpa using string_append_ne_empty "GLSL link error: " _ (by decide)
  · simp only [hp]
    simpa using string_append_ne_empty "GLSL parse error: " _ (by decide)

/-- The three outcomes of `CompileWGSLToSPIRV`: a cache hit returns the cached
result and does no work; a failure leaves the cache alone; a success adds the
result under the request's key. -/
theorem SPIRVCompilerVk.CompileWGSLToSPIRV_cases (T : Toolchain) (s : SPIRVCompilerVk)
    (src ep : String) (stage : GPUShaderStage) (opts : SPIRVCompileOptions) :
    (∃ cached, s.GetCachedShader (SPIRVCompilerVk.GenerateCacheKey T src ep stage opts) =
          some cached ∧
        s.CompileWGSLToSPIRV T src ep stage opts = (s, cached, [])) ∨
    (s.GetCachedShader (SPIRVCompilerVk.GenerateCacheKey T src ep stage opts) = none ∧
      (s.CompileWGSLToSPIRV T src ep stage opts).1 = s ∧
      (s.CompileWGSLToSPIRV T src ep stage opts).2.1.success = false ∧
      (s.CompileWGSLToSPIRV T src ep stage opts).2.1.error_message ≠ "") ∨
    (s.GetCachedShader (SPIRVCompilerVk.GenerateCacheKey T src ep stage opts) = none ∧
      (s.CompileWGSLToSPIRV T src ep stage opts).2.1.success = true ∧
      (s.CompileWGSLToSPIRV T src ep stage opts).1 =
        s.CacheShader (SPIRVCompilerVk.GenerateCacheKey T src ep stage opts)
          (s.CompileWGSLToSPIRV T src ep stage opts).2.1) := by
  cases hc : s.GetCachedShader (SPIRVCompilerVk.GenerateCacheKey T src ep stage opts) with
  | some cached =>
      left
      refine ⟨cached, rfl, ?_⟩
      simp only [SPIRVCompilerVk.CompileWGSLToSPIRV, hc]
  | none =>
      right
      cases hg : SPIRVCompilerVk.ConvertWGSLToGLSL T src ep stage with
      | none =>
          left
          simp only [SPIRVCompilerVk.CompileWGSLToSPIRV, hc, hg]
          refine ⟨trivial, trivial, rfl, ?_⟩
          decide
      | some glsl =>
          cases hr : (SPIRVCompilerVk.CompileGLSLToSPIRV T glsl stage opts).success with
          | false =>
              left
              simp only [SPIRVCompilerVk.CompileWGSLToSPIRV, hc, hg, hr, Bool.false_eq_true,
                if_false]
              refine ⟨?_, ?_, ?_, ?_⟩ <;>
                first
                | trivial
                | exact hr
                | exact SPIRVCompilerVk.CompileGLSLToSPIRV_error T glsl stage opts hr
          | true =>
              right
              simp only [SPIRVCompilerVk.CompileWGSLToSPIRV, hc, hg, hr, if_true]
              exact ⟨trivial, trivial, trivial⟩

theorem SPIRVCompilerVk.step_preserves_AllCachedSucceeded (T : Toolchain) (s : SPIRVCompilerVk)
    (c : CompilerCall) (h : s.AllCachedSucceeded) : (s.step T c).AllCachedSucceeded := by
  cases c with
  | CompileWGSLToSPIRV src ep stage opts =>
      simp only [SPIRVCompilerVk.step]
      rcases SPIRVCompilerVk.CompileWGSLToSPIRV_cases T s src ep stage opts with
        ⟨cached, -, heq⟩ | ⟨-, hst, -, -⟩ | ⟨-, hsucc, hst⟩
      · rw [heq]
        exact h
      · rw [hst]
        exact h
      · rw [hst]
        intro e he
        rcases unordered_map.mem_assign _ _ _ e he with h1 | h1
        · exact h e h1
        · rw [h1]
          exact hsucc
  | CompileGLSLToSPIRV glsl stage opts => exact h
  | ClearCache =>
      intro e he
      simp [SPIRVCompilerVk.step, SPIRVCompilerVk.ClearCache] at he

theorem SPIRVCompilerVk.run_preserves_AllCachedSucceeded (T : Toolchain)
    (calls : List CompilerCall) (s : SPIRVCompilerVk) (h : s.AllCachedSucceeded) :
    (s.run T calls).AllCachedSucceeded := by
  induction calls generalizing s with
  | nil => exact h
  | cons c rest ih =>
      simp only [SPIRVCompilerVk.run, List.foldl_cons]
      exact ih _ (SPIRVCompilerVk.step_preserves_AllCachedSucceeded T s c h)

/-- C9: a `CompileWGSLToSPIRV` call that fails at the WGSL-to-GLSL translation,
or at the GLSL-to-SPIR-V compilation (parse, link or validation), returns a
result with `success = false` and a non-empty error message and leaves the
shader cache unchanged; and in every state that a new compiler reaches by
`CompileWGSLToSPIRV`, `CompileGLSLToSPIRV` and `ClearCache` calls, every cached
entry has `success = true`, so that there a call that returns a failed result
is one of those failures. -/
theorem failed_compiles_never_cached (T : Toolchain) :
    (∀ (s : SPIRVCompilerVk) (src ep : String) (stage : GPUShaderStage)
        (opts : SPIRVCompileOptions),
      s.GetCachedShader (SPIRVCompilerVk.GenerateCacheKey T src ep stage opts) = none →
      (SPIRVCompilerVk.ConvertWGSLToGLSL T src ep stage = none ∨
        ∃ glsl, SPIRVCompilerVk.ConvertWGSLToGLSL T src ep stage = some glsl ∧
          (SPIRVCompilerVk.CompileGLSLToSPIRV T glsl stage opts).success = false) →
      (s.CompileWGSLToSPIRV T src ep stage opts).2.1.success = false ∧
      (s.CompileWGSLToSPIRV T src ep stage opts).2.1.error_message ≠ "" ∧
      (s.CompileWGSLToSPIRV T src ep stage opts).1 = s) ∧
    (∀ s : SPIRVCompilerVk, SPIRVCompilerVk.Reachable T s →
      (∀ e ∈ s.shader_cache_, e.2.success = true) ∧
      ∀ (src ep : String) (stage : GPUShaderStage) (opts : SPIRVCompileOptions),
        (s.CompileWGSLToSPIRV T src ep stage opts).2.1.success = false →
        (s.CompileWGSLToSPIRV T src ep stage opts).2.1.error_message ≠ "" ∧
        (s.CompileWGSLToSPIRV T src ep stage opts).1 = s) := by
  have hfind : ∀ (m : List (String × SPIRVCompileResult)) (k : String) (v : SPIRVCompileResult),
      unordered_map.find m k = some v → (k, v) ∈ m := by
    intro m k v
    induction m with
    | nil => simp [unordered_map.find]
    | cons x rest ih =>
        obtain ⟨k', v'⟩ := x
        by_cases hk : k' = k
        · simp only [unordered_map.find, hk, if_true, Option.some.injEq, List.mem_cons]
          intro hv
          left
          rw [hv]
        · simp only [unordered_map.find, hk, if_false, List.mem_cons]
          intro hv
          right
          exact ih hv
  constructor
  · intro s src ep stage opts hmiss hfail
    rcases SPIRVCompilerVk.CompileWGSLToSPIRV_cases T s src ep stage opts with
      ⟨cached, hhit, -⟩ | ⟨-, hst, hsucc, hmsg⟩ | ⟨-, hsucc, -⟩
    · rw [hmiss] at hhit
      cases hhit
    · exact ⟨hsucc, hmsg, hst⟩
    · exfalso
      rcases hfail with hnone | ⟨glsl, hg, hr⟩
      · simp [SPIRVCompilerVk.CompileWGSLToSPIRV, hmiss, hnone,
          SPIRVCompileResult.default] at hsucc
      · simp [SPIRVCompilerVk.CompileWGSLToSPIRV, hmiss, hg, hr] at hsucc
  · intro s hreach
    obtain ⟨calls, rfl⟩ := hreach
    have hall : (SPIRVCompilerVk.run T SPIRVCompilerVk.new calls).AllCachedSucceeded :=
      SPIRVCompilerVk.run_preserves_AllCachedSucceeded T calls SPIRVCompilerVk.new
        (by
          intro e he
          simp [SPIRVCompilerVk.new] at he)
    refine ⟨hall, ?_⟩
    intro src ep stage opts hfail
    rcases SPIRVCompilerVk.CompileWGSLToSPIRV_cases T
        (SPIRVCompilerVk.run T SPIRVCompilerVk.new calls) src ep stage opts with
      ⟨cached, hhit, heq⟩ | ⟨-, hst, -, hmsg⟩ | ⟨-, hsucc, -⟩
    · exfalso
      have hmem := hfind _ _ _ hhit
      have hs := hall _ hmem
      rw [heq] at hfail
      simp only at hfail hs
      rw [hs] at hfail
      cases hfail
    · exact ⟨hmsg, hst⟩
    · rw [hsucc] at hfail
      cases hfail

/-- Witness for C9: with a WGSL parser that rejects the source, the request
fails at translation: no success, the message of the translation step, and the
cache of the new compiler stays empty. -/
theorem failed_compiles_never_cached_witness :
    (SPIRVCompilerVk.new.CompileWGSLToSPIRV (Toolchain.sample false) "fn main() -> void"
        "main" GPUShaderStage.kVertex SPIRVCompileOptions.default).2.1.success = false ∧
    (SPIRVCompilerVk.new.CompileWGSLToSPIRV (Toolchain.sample false) "fn main() -> void"
        "main" GPUShaderStage.kVertex SPIRVCompileOptions.default).2.1.error_message ≠ "" ∧
    (SPIRVCompilerVk.new.CompileWGSLToSPIRV (Toolchain.sample false) "fn main() -> void"
        "main" GPUShaderStage.kVertex SPIRVCompileOptions.default).1 = SPIRVCompilerVk.new :=
  (failed_compiles_never_cached (Toolchain.sample false)).1 SPIRVCompilerVk.new
    "fn main() -> void" "main" GPUShaderStage.kVertex SPIRVCompileOptions.default rfl
    (Or.inl rfl)

theorem SPIRVCompilerVk.step_preserves_entry (T : Toolchain) (s : SPIRVCompilerVk)
    (c : CompilerCall) (key : String) (v : SPIRVCompileResult)
    (hc : c.isClearCache = false) (h : s.GetCachedShader key = some v) :
    (s.step T c).GetCachedShader key = some v := by
  cases c with
  | CompileWGSLToSPIRV src ep stage opts =>
      simp only [SPIRVCompilerVk.step]
      rcases SPIRVCompilerVk.CompileWGSLToSPIRV_cases T s src ep stage opts with
        ⟨cached, -, heq⟩ | ⟨-, hst, -, -⟩ | ⟨hmiss, -, hst⟩
      · rw [heq]
        exact h
      · rw [hst]
        exact h
      · rw [hst]
        have hne : SPIRVCompilerVk.GenerateCacheKey T src ep stage opts ≠ key := by
          intro hk
          rw [hk, h] at hmiss
          cases hmiss
        simp only [SPIRVCompilerVk.CacheShader, SPIRVCompilerVk.GetCachedShader]
        rw [unordered_map.find_assign_of_ne _ _ _ _ hne]
        exact h
  | CompileGLSLToSPIRV glsl stage opts => exact h
  | ClearCache => cases hc

theorem SPIRVCompilerVk.run_preserves_entry (T : Toolchain) (calls : List CompilerCall)
    (s : SPIRVCompilerVk) (key : String) (v : SPIRVCompileResult)
    (hc : ∀ c ∈ calls, c.isClearCache = false) (h : s.GetCachedShader key = some v) :
    (s.run T calls).GetCachedShader key = some v := by
  induction calls generalizing s with
  | nil => exact h
  | cons c rest ih =>
      simp only [SPIRVCompilerVk.run, List.foldl_cons]
      exact ih _ (fun c' hc' => hc c' (List.mem_cons_of_mem _ hc'))
        (SPIRVCompilerVk.step_preserves_entry T s c key v (hc c (List.mem_cons_self _ _)) h)

/-- C10: if `CompileWGSLToSPIRV` succeeded for `(source, entry point, stage,
options)`, then after any further compile calls, none of them a `ClearCache`,
a call with the same four arguments returns a result equal to the first one
(same SPIR-V words, same reflection, `success = true`), performs neither
translation nor compilation, and leaves the compiler unchanged. -/
theorem shader_cache_hit (T : Toolchain) (s : SPIRVCompilerVk) (src ep : String)
    (stage : GPUShaderStage) (opts : SPIRVCompileOptions) (calls : List CompilerCall)
    (hsucc : (s.CompileWGSLToSPIRV T src ep stage opts).2.1.success = true)
    (hclear : ∀ c ∈ calls, c.isClearCache = false) :
    (((s.CompileWGSLToSPIRV T src ep stage opts).1.run T calls).CompileWGSLToSPIRV T src ep
        stage opts).2.1 = (s.CompileWGSLToSPIRV T src ep stage opts).2.1 ∧
    (((s.CompileWGSLToSPIRV T src ep stage opts).1.run T calls).CompileWGSLToSPIRV T src ep
        stage opts).2.1.spirv_code = (s.CompileWGSLToSPIRV T src ep stage opts).2.1.spirv_code ∧
    (((s.CompileWGSLToSPIRV T src ep stage opts).1.run T calls).CompileWGSLToSPIRV T src ep
        stage opts).2.1.reflection = (s.CompileWGSLToSPIRV T src ep stage opts).2.1.reflection ∧
    (((s.CompileWGSLToSPIRV T src ep stage opts).1.run T calls).CompileWGSLToSPIRV T src ep
        stage opts).2.1.success = true ∧
    (((s.CompileWGSLToSPIRV T src ep stage opts).1.run T calls).CompileWGSLToSPIRV T src ep
        stage opts).2.2 = [] ∧
    (((s.CompileWGSLToSPIRV T src ep stage opts).1.run T calls).CompileWGSLToSPIRV T src ep
        stage opts).1 = (s.CompileWGSLToSPIRV T src ep stage opts).1.run T calls := by
  have hcached : (s.CompileWGSLToSPIRV T src ep stage opts).1.GetCachedShader
      (SPIRVCompilerVk.GenerateCacheKey T src ep stage opts) =
      some (s.CompileWGSLToSPIRV T src ep stage opts).2.1 := by
    rcases SPIRVCompilerVk.CompileWGSLToSPIRV_cases T s src ep stage opts with
      ⟨cached, hhit, heq⟩ | ⟨-, -, hfail, -⟩ | ⟨-, -, hst⟩
    · rw [heq]
      exact hhit
    · rw [hfail] at hsucc
      cases hsucc
    · rw [hst]
      simp only [SPIRVCompilerVk.CacheShader, SPIRVCompilerVk.GetCachedShader]
      exact unordered_map.find_assign_self _ _ _
  have hlater := SPIRVCompilerVk.run_preserves_entry T calls _ _ _ hclear hcached
  have hcall : ((s.CompileWGSLToSPIRV T src ep stage opts).1.run T calls).CompileWGSLToSPIRV T
      src ep stage opts =
      ((s.CompileWGSLToSPIRV T src ep stage opts).1.run T calls,
        (s.CompileWGSLToSPIRV T src ep stage opts).2.1, []) := by
    rcases SPIRVCompilerVk.CompileWGSLToSPIRV_cases T
        ((s.CompileWGSLToSPIRV T src ep stage opts).1.run T calls) src ep stage opts with
      ⟨cached, hhit, heq⟩ | ⟨hmiss, -, -, -⟩ | ⟨hmiss, -, -⟩
    · rw [hlater] at hhit
      cases hhit
      exact heq
    · rw [hlater] at hmiss
      cases hmiss
    · rw [hlater] at hmiss
      cases hmiss
  rw [hcall]
  exact ⟨rfl, rfl, rfl, hsucc, rfl, rfl⟩

/-- Witness for C10: with the sample toolchain a vertex shader compiles; after
a fragment-shader compile and a direct GLSL compile the same request is served
from the cache: no translation, no compilation. -/
theorem shader_cache_hit_witness :
    (((SPIRVCompilerVk.new.CompileWGSLToSPIRV (Toolchain.sample true) "fn vs() -> void" "vs"
          GPUShaderStage.kVertex SPIRVCompileOptions.default).1.run (Toolchain.sample true)
        [CompilerCall.CompileWGSLToSPIRV "fn fs() -> void" "fs" GPUShaderStage.kFragment
            SPIRVCompileOptions.default,
          CompilerCall.CompileGLSLToSPIRV "void main();" GPUShaderStage.kVertex
            SPIRVCompileOptions.default]).CompileWGSLToSPIRV (Toolchain.sample true)
      "fn vs() -> void" "vs" GPUShaderStage.kVertex SPIRVCompileOptions.default).2.2 = [] :=
  (shader_cache_hit (Toolchain.sample true) SPIRVCompilerVk.new "fn vs() -> void" "vs"
    GPUShaderStage.kVertex SPIRVCompileOptions.default
    [CompilerCall.CompileWGSLToSPIRV "fn fs() -> void" "fs" GPUShaderStage.kFragment
        SPIRVCompileOptions.default,
      CompilerCall.CompileGLSLToSPIRV "void main();" GPUShaderStage.kVertex
        SPIRVCompileOptions.default]
    rfl (by decide)).2.2.2.2.1

/-! ### Format translators -/

/-- C14: `GPUTextureFormatToVkFormat` is total; it maps `kInvalid` and every
value outside the seven canonical formats to `VK_FORMAT_UNDEFINED`, maps each
of the seven canonical formats to a native format other than
`VK_FORMAT_UNDEFINED`, and is injective on those seven, so that an inverse
mapping exists on them. -/
theorem texture_format_translation :
    GPUTextureFormatToVkFormat GPUTextureFormat.kInvalid = VK_FORMAT_UNDEFINED ∧
    (∀ f : GPUTextureFormat, f.isCanonical = false →
      GPUTextureFormatToVkFormat f = VK_FORMAT_UNDEFINED) ∧
    (∀ f : GPUTextureFormat, f.isCanonical = true →
      GPUTextureFormatToVkFormat f ≠ VK_FORMAT_UNDEFINED ∧
      isTranslatedVkFormat (GPUTextureFormatToVkFormat f) = true) ∧
    (∀ f g : GPUTextureFormat, f.isCanonical = true → g.isCanonical = true →
      GPUTextureFormatToVkFormat f = GPUTextureFormatToVkFormat g → f = g) ∧
    (∃ inverse : Nat → GPUTextureFormat, ∀ f : GPUTextureFormat, f.isCanonical = true →
      inverse (GPUTextureFormatToVkFormat f) = f) := by
  refine ⟨rfl, ?_, ?_, ?_, ?_⟩
  · intro f hf
    cases f <;> first | rfl | simp [GPUTextureFormat.isCanonical] at hf
  · intro f hf
    cases f <;>
      first
      | exact ⟨by decide, by decide⟩
      | simp [GPUTextureFormat.isCanonical] at hf
  · intro f g hf hg h
    cases f <;> cases g <;>
      first
      | rfl
      | exact absurd h (by decide)
      | simp [GPUTextureFormat.isCanonical] at hf hg
  · refine ⟨fun v =>
      if v = VK_FORMAT_R8_UNORM then GPUTextureFormat.kR8Unorm
      else if v = VK_FORMAT_R8G8B8_UNORM then GPUTextureFormat.kRGB8Unorm
      else if v = VK_FORMAT_R5G6B5_UNORM_PACK16 then GPUTextureFormat.kRGB565Unorm
      else if v = VK_FORMAT_R8G8B8A8_UNORM then GPUTextureFormat.kRGBA8Unorm
      else if v = VK_FORMAT_B8G8R8A8_UNORM then GPUTextureFormat.kBGRA8Unorm
      else if v = VK_FORMAT_S8_UINT then GPUTextureFormat.kStencil8
      else if v = VK_FORMAT_D24_UNORM_S8_UINT then GPUTextureFormat.kDepth24Stencil8
      else GPUTextureFormat.kInvalid, ?_⟩
    intro f hf
    cases f <;> first | decide | simp [GPUTextureFormat.isCanonical] at hf

/-- Witness for C14: the swapchain format `kBGRA8Unorm` is translated to a
defined native format, and a value outside the enumerators is not. -/
theorem texture_format_translation_witness :
    (GPUTextureFormatToVkFormat GPUTextureFormat.kBGRA8Unorm ≠ VK_FORMAT_UNDEFINED ∧
      isTranslatedVkFormat (GPUTextureFormatToVkFormat GPUTextureFormat.kBGRA8Unorm) = true) ∧
    GPUTextureFormatToVkFormat (GPUTextureFormat.unnamed 200) = VK_FORMAT_UNDEFINED :=
  ⟨texture_format_translation.2.2.1 GPUTextureFormat.kBGRA8Unorm rfl,
   texture_format_translation.2.1 (GPUTextureFormat.unnamed 200) rfl⟩

/-- C15: for every usage mask `u` and format `f`,
`GPUTextureUsageToVkImageUsage (u, f)` is `TRANSFER_DST` OR-ed with
`TRANSFER_SRC` if `kCopySrc` is in `u`, `SAMPLED` if `kTextureBinding` is in
`u`, `STORAGE` if `kStorageBinding` is in `u`, and, if `kRenderAttachment` is
in `u`, `DEPTH_STENCIL_ATTACHMENT` when `f` is `kDepth24Stencil8` or
`kStencil8` and `COLOR_ATTACHMENT` otherwise. So the result always contains
`TRANSFER_DST`, and a depth/stencil format never receives
`COLOR_ATTACHMENT`. The bit values of `GPUTextureUsage` are arbitrary. -/
theorem texture_usage_translation (U : GPUTextureUsage) (u : Nat) (f : GPUTextureFormat) :
    GPUTextureUsageToVkImageUsage U u f =
      VK_IMAGE_USAGE_TRANSFER_DST_BIT |||
        (if u &&& U.kCopySrc ≠ 0 then VK_IMAGE_USAGE_TRANSFER_SRC_BIT else 0) |||
        (if u &&& U.kTextureBinding ≠ 0 then VK_IMAGE_USAGE_SAMPLED_BIT else 0) |||
        (if u &&& U.kStorageBinding ≠ 0 then VK_IMAGE_USAGE_STORAGE_BIT else 0) |||
        (if u &&& U.kRenderAttachment ≠ 0 then
          (if f = GPUTextureFormat.kDepth24Stencil8 ∨ f = GPUTextureFormat.kStencil8 then
            VK_IMAGE_USAGE_DEPTH_STENCIL_ATTACHMENT_BIT
          else VK_IMAGE_USAGE_COLOR_ATTACHMENT_BIT)
        else 0) ∧
    GPUTextureUsageToVkImageUsage U u f &&& VK_IMAGE_USAGE_TRANSFER_DST_BIT =
      VK_IMAGE_USAGE_TRANSFER_DST_BIT ∧
    (f = GPUTextureFormat.kDepth24Stencil8 ∨ f = GPUTextureFormat.kStencil8 →
      GPUTextureUsageToVkImageUsage U u f &&& VK_IMAGE_USAGE_COLOR_ATTACHMENT_BIT = 0) := by
  unfold GPUTextureUsageToVkImageUsage
  by_cases h1 : u &&& U.kCopySrc = 0 <;> by_cases h2 : u &&& U.kCopyDst = 0 <;>
    by_cases h3 : u &&& U.kTextureBinding = 0 <;>
    by_cases h4 : u &&& U.kStorageBinding = 0 <;>
    by_cases h5 : u &&& U.kRenderAttachment = 0 <;>
    by_cases h6 : (f = GPUTextureFormat.kDepth24Stencil8 ∨ f = GPUTextureFormat.kStencil8) <;>
    simp only [h1, h2, h3, h4, h5, h6, ne_eq, not_true_eq_false, not_false_eq_true, if_true,
      if_false] <;>
    refine ⟨by decide, by decide, ?_⟩ <;>
    first
    | (intro _; decide)
    | (intro h; exact False.elim h)

/-- Witness for C15: a depth/stencil render target that is also sampled gets
`TRANSFER_DST | SAMPLED | DEPTH_STENCIL_ATTACHMENT` and no `COLOR_ATTACHMENT`
(usage bits 1, 2, 4, 8, 16 for the five enumerators). -/
theorem texture_usage_translation_witness :
    GPUTextureUsageToVkImageUsage ⟨1, 2, 4, 8, 16⟩ 20 GPUTextureFormat.kDepth24Stencil8 = 0x26 ∧
    GPUTextureUsageToVkImageUsage ⟨1, 2, 4, 8, 16⟩ 20 GPUTextureFormat.kDepth24Stencil8 &&&
      VK_IMAGE_USAGE_COLOR_ATTACHMENT_BIT = 0 :=
  ⟨(texture_usage_translation ⟨1, 2, 4, 8, 16⟩ 20 GPUTextureFormat.kDepth24Stencil8).1.trans
      (by decide),
   (texture_usage_translation ⟨1, 2, 4, 8, 16⟩ 20 GPUTextureFormat.kDepth24Stencil8).2.2
      (Or.inl rfl)⟩

/-- C16, as stated, fails: `VK_FORMAT_UNDEFINED` is none of the seven translated
formats, and `VkFormatBytesPerPixel` returns 4 for it, the pixel size it
returns for `VK_FORMAT_R8G8B8A8_UNORM`: no value distinct from 1, 2, 3, 4. -/
theorem bytes_per_pixel_sentinel_counterexample :
    isTranslatedVkFormat VK_FORMAT_UNDEFINED = false ∧
    VkFormatBytesPerPixel VK_FORMAT_UNDEFINED = 4 ∧
    VkFormatBytesPerPixel VK_FORMAT_UNDEFINED =
      VkFormatBytesPerPixel VK_FORMAT_R8G8B8A8_UNORM := by
  decide

/-- C16, amended: for every native format that is not one of the seven formats
the translator produces, `VkFormatBytesPerPixel` returns the default 4, which
is also the pixel size of the 4-byte formats; for the seven formats it returns
1, 2, 3 or 4 as listed. There is no sentinel value. -/
theorem bytes_per_pixel_default (format : Nat) :
    (isTranslatedVkFormat format = false → VkFormatBytesPerPixel format = 4) ∧
    VkFormatBytesPerPixel VK_FORMAT_R8_UNORM = 1 ∧
    VkFormatBytesPerPixel VK_FORMAT_S8_UINT = 1 ∧
    VkFormatBytesPerPixel VK_FORMAT_R5G6B5_UNORM_PACK16 = 2 ∧
    VkFormatBytesPerPixel VK_FORMAT_R8G8B8_UNORM = 3 ∧
    VkFormatBytesPerPixel VK_FORMAT_R8G8B8A8_UNORM = 4 ∧
    VkFormatBytesPerPixel VK_FORMAT_B8G8R8A8_UNORM = 4 ∧
    VkFormatBytesPerPixel VK_FORMAT_D24_UNORM_S8_UINT = 4 := by
  refine ⟨?_, by decide, by decide, by decide, by decide, by decide, by decide, by decide⟩
  intro h
  simp only [isTranslatedVkFormat, Bool.or_eq_false_iff, decide_eq_false_iff_not] at h
  obtain ⟨⟨⟨⟨⟨⟨h1, h2⟩, h3⟩, h4⟩, h5⟩, h6⟩, h7⟩ := h
  simp [VkFormatBytesPerPixel, h1, h2, h3, h4, h5, h6, h7]

/-- Witness for C16: `VK_FORMAT_B8G8R8A8_SRGB`, the format the pipelines are
built against, is not one of the seven and gets the default 4. -/
theorem bytes_per_pixel_default_witness :
    VkFormatBytesPerPixel VK_FORMAT_B8G8R8A8_SRGB = 4 :=
  (bytes_per_pixel_default VK_FORMAT_B8G8R8A8_SRGB).1 (by decide)

/-! ### Shader-cache key -/

theorem digitChar_ne_underscore (d : Nat) (hd : d < 16) : Nat.digitChar d ≠ '_' := by
  interval_cases d <;> decide

theorem toDigitsCore_no_underscore (fuel n : Nat) (acc : List Char)
    (hacc : ∀ c ∈ acc, c ≠ '_') : ∀ c ∈ Nat.toDigitsCore 16 fuel n acc, c ≠ '_' := by
  induction fuel generalizing n acc with
  | zero => simpa [Nat.toDigitsCore] using hacc
  | succ fuel ih =>
      have hcons : ∀ c ∈ Nat.digitChar (n % 16) :: acc, c ≠ '_' := by
        intro c hc
        rcases List.mem_cons.mp hc with h | h
        · rw [h]
          exact digitChar_ne_underscore _ (Nat.mod_lt _ (by decide))
        · exact hacc c h
      unfold Nat.toDigitsCore
      by_cases hz : n / 16 = 0
      · simpa [hz] using hcons
      · simp only [hz, if_false]
        exact ih _ _ hcons

/-- The printed source hash is a hexadecimal numeral: it has no underscore. -/
theorem SPIRVUtils.HashShaderSource_no_underscore (T : Toolchain) (source : String) :
    ∀ c ∈ (SPIRVUtils.HashShaderSource T source).data, c ≠ '_' := by
  unfold SPIRVUtils.HashShaderSource Nat.toDigits
  exact toDigitsCore_no_underscore _ _ [] (by simp)

theorem split_at_first_separator (sep : Char) (a a2 r r2 : List Char)
    (ha : ∀ c ∈ a, c ≠ sep) (ha2 : ∀ c ∈ a2, c ≠ sep)
    (h : a ++ sep :: r = a2 ++ sep :: r2) : a = a2 ∧ r = r2 := by
  induction a generalizing a2 with
  | nil =>
      cases a2 with
      | nil => simpa using h
      | cons x xs =>
          simp only [List.nil_append, List.cons_append, List.cons.injEq] at h
          exact absurd h.1.symm (ha2 x (List.mem_cons_self _ _))
  | cons y ys ih =>
      cases a2 with
      | nil =>
          simp only [List.nil_append, List.cons_append, List.cons.injEq] at h
          exact absurd h.1 (ha y (List.mem_cons_self _ _))
      | cons x xs =>
          simp only [List.cons_append, List.cons.injEq] at h
          obtain ⟨h1, h2⟩ := ih xs (fun c hc => ha c (List.mem_cons_of_mem _ hc))
            (fun c hc => ha2 c (List.mem_cons_of_mem _ hc)) h.2
          exact ⟨by rw [h.1, h1], h2⟩

theorem split_at_last_separator (sep : Char) (r r2 t t2 : List Char)
    (ht : ∀ c ∈ t, c ≠ sep) (ht2 : ∀ c ∈ t2, c ≠ sep)
    (h : r ++ sep :: t = r2 ++ sep :: t2) : r = r2 ∧ t = t2 := by
  have hrev : t.reverse ++ sep :: r.reverse = t2.reverse ++ sep :: r2.reverse := by
    have := congrArg List.reverse h
    simpa using this
  obtain ⟨h1, h2⟩ := split_at_first_separator sep t.reverse t2.reverse r.reverse r2.reverse
    (fun c hc => ht c (List.mem_reverse.mp hc)) (fun c hc => ht2 c (List.mem_reverse.mp hc)) hrev
  exact ⟨List.reverse_injective h2, List.reverse_injective h1⟩

theorem SPIRVCompilerVk.GenerateCacheKey_data (T : Toolchain) (source entry_point : String)
    (stage : GPUShaderStage) (options : SPIRVCompileOptions) :
    (SPIRVCompilerVk.GenerateCacheKey T source entry_point stage options).data =
      (((((SPIRVUtils.HashShaderSource T source).data ++ '_' :: entry_point.data) ++
        '_' :: (toString stage.toNat).data) ++
        '_' :: (if options.optimize then "opt" else "noopt").data) ++
        '_' :: (if options.debug_info then "debug" else "nodebug").data) ++
        '_' :: (if options.validate then "val" else "noval").data := by
  have hsep : ("_" : String).data = ['_'] := rfl
  simp only [SPIRVCompilerVk.GenerateCacheKey, String.data_append, hsep, List.append_assoc,
    List.singleton_append]

theorem stage_token_no_underscore (stage : GPUShaderStage) :
    ∀ c ∈ (toString stage.toNat).data, c ≠ '_' := by
  cases stage <;> decide

theorem stage_token_injective (stage stage2 : GPUShaderStage)
    (h : (toString stage.toNat).data = (toString stage2.toNat).data) : stage = stage2 := by
  cases stage <;> cases stage2 <;> first | rfl | exact absurd h (by decide)

theorem flag_token_no_underscore (yes no : String) (b : Bool)
    (hyes : ∀ c ∈ yes.data, c ≠ '_') (hno : ∀ c ∈ no.data, c ≠ '_') :
    ∀ c ∈ (if b then yes else no).data, c ≠ '_' := by
  cases b
  · simpa using hno
  · simpa using hyes

theorem flag_token_injective (yes no : String) (b b2 : Bool) (hne : yes.data ≠ no.data)
    (h : (if b then yes else no).data = (if b2 then yes else no).data) : b = b2 := by
  cases b <;> cases b2
  · rfl
  · simp only [if_true, Bool.false_eq_true, if_false] at h
    exact absurd h.symm hne
  · simp only [if_true, Bool.false_eq_true, if_false] at h
    exact absurd h hne
  · rfl

/-- C11, as stated, fails: two compile requests that differ in the option
`target_env_version` (0 and 1) and agree on everything else get the same cache
key. -/
theorem shader_cache_key_counterexample :
    ({ optimize := true, debug_info := false, validate := true, target_env_version := 0 } :
        SPIRVCompileOptions) ≠
      { optimize := true, debug_info := false, validate := true, target_env_version := 1 } ∧
    SPIRVCompilerVk.GenerateCacheKey (Toolchain.sample true) "fn vs() -> void" "vs"
        GPUShaderStage.kVertex
        { optimize := true, debug_info := false, validate := true, target_env_version := 0 } =
      SPIRVCompilerVk.GenerateCacheKey (Toolchain.sample true) "fn vs() -> void" "vs"
        GPUShaderStage.kVertex
        { optimize := true, debug_info := false, validate := true, target_env_version := 1 } :=
  ⟨by decide, rfl⟩

/-- C11, amended: `GenerateCacheKey` gives two compile requests the same key
exactly when they agree on the source hash (as `HashShaderSource` prints it),
the entry point, the stage and the three options `optimize`, `debug_info` and
`validate`; requests that differ in any of these get different keys. The
option `target_env_version` is not part of the key. -/
theorem shader_cache_key_eq_iff (T : Toolchain) (source entry_point : String)
    (stage : GPUShaderStage) (options : SPIRVCompileOptions) (source2 entry_point2 : String)
    (stage2 : GPUShaderStage) (options2 : SPIRVCompileOptions) :
    SPIRVCompilerVk.GenerateCacheKey T source entry_point stage options =
        SPIRVCompilerVk.GenerateCacheKey T source2 entry_point2 stage2 options2 ↔
      (SPIRVUtils.HashShaderSource T source = SPIRVUtils.HashShaderSource T source2 ∧
        entry_point = entry_point2 ∧ stage = stage2 ∧
        options.optimize = options2.optimize ∧ options.debug_info = options2.debug_info ∧
        options.validate = options2.validate) := by
  constructor
  · intro h
    have hd := congrArg String.data h
    rw [SPIRVCompilerVk.GenerateCacheKey_data, SPIRVCompilerVk.GenerateCacheKey_data] at hd
    obtain ⟨hd, hval⟩ := split_at_last_separator '_' _ _ _ _
      (flag_token_no_underscore "val" "noval" options.validate (by decide) (by decide))
      (flag_token_no_underscore "val" "noval" options2.validate (by decide) (by decide)) hd
    obtain ⟨hd, hdebug⟩ := split_at_last_separator '_' _ _ _ _
      (flag_token_no_underscore "debug" "nodebug" options.debug_info (by decide) (by decide))
      (flag_token_no_underscore "debug" "nodebug" options2.debug_info (by decide) (by decide)) hd
    obtain ⟨hd, hopt⟩ := split_at_last_separator '_' _ _ _ _
      (flag_token_no_underscore "opt" "noopt" options.optimize (by decide) (by decide))
      (flag_token_no_underscore "opt" "noopt" options2.optimize (by decide) (by decide)) hd
    obtain ⟨hd, hstage⟩ := split_at_last_separator '_' _ _ _ _
      (stage_token_no_underscore stage) (stage_token_no_underscore stage2) hd
    obtain ⟨hhash, hep⟩ := split_at_first_separator '_' _ _ _ _
      (SPIRVUtils.HashShaderSource_no_underscore T source)
      (SPIRVUtils.HashShaderSource_no_underscore T source2) hd
    exact ⟨String.ext hhash, String.ext hep, stage_token_injective _ _ hstage,
      flag_token_injective "opt" "noopt" _ _ (by decide) hopt,
      flag_token_injective "debug" "nodebug" _ _ (by decide) hdebug,
      flag_token_injective "val" "noval" _ _ (by decide) hval⟩
  · rintro ⟨hhash, hep, hstage, hopt, hdebug, hval⟩
    unfold SPIRVCompilerVk.GenerateCacheKey
    rw [hhash, hep, hstage, hopt, hdebug, hval]

/-! ### Descriptor set -/

theorem GPUDescriptorSetVk.bind_events (s : GPUDescriptorSetVk) (call : BindCall) :
    (s.bind call).2 = [] := by
  cases call with
  | BindBuffer binding buffer offset range =>
      cases buffer with
      | none => rfl
      | some b =>
          simp only [GPUDescriptorSetVk.bind, GPUDescriptorSetVk.BindBuffer]
          split_ifs <;> rfl
  | BindTexture binding texture sampler => cases texture <;> rfl
  | BindSampler binding sampler => cases sampler <;> rfl

theorem GPUDescriptorSetVk.bind_rejected (s : GPUDescriptorSetVk) (call : BindCall)
    (h : call.isAccepted = false) : (s.bind call).1 = s := by
  cases call with
  | BindBuffer binding buffer offset range =>
      cases buffer with
      | none => rfl
      | some b =>
          simp only [BindCall.isAccepted, decide_eq_false_iff_not, not_and, not_not] at h
          simp only [GPUDescriptorSetVk.bind, GPUDescriptorSetVk.BindBuffer]
          by_cases h0 : b.buffer_ = 0
          · simp [h0]
          · simp [h0, h h0]
  | BindTexture binding texture sampler =>
      cases texture with
      | none => rfl
      | some t => simp [BindCall.isAccepted] at h
  | BindSampler binding sampler =>
      cases sampler with
      | none => rfl
      | some t => simp [BindCall.isAccepted] at h

theorem GPUDescriptorSetVk.bind_accepted (s : GPUDescriptorSetVk) (call : BindCall)
    (h : call.isAccepted = true) :
    ∃ w : VkWriteDescriptorSet,
      (s.bind call).1.write_descriptor_sets_ = s.write_descriptor_sets_ ++ [w] ∧
      w.dstSet = s.descriptor_set_ ∧ w.descriptorCount = 1 ∧ w.pBufferInfo = none ∧
      (s.bind call).1.descriptor_set_ = s.descriptor_set_ := by
  cases call with
  | BindBuffer binding buffer offset range =>
      cases buffer with
      | none => simp [BindCall.isAccepted] at h
      | some b =>
          simp only [BindCall.isAccepted, decide_eq_true_eq] at h
          have hb : (s.bind (BindCall.BindBuffer binding (some b) offset range)).1 =
              { s with
                buffer_infos_ := s.buffer_infos_ ++
                  [{ buffer := b.buffer_, offset := GPUDescriptorSetVk.alignedOffset offset,
                     range := range }]
                write_descriptor_sets_ := s.write_descriptor_sets_ ++
                  [{ dstSet := s.descriptor_set_, dstBinding := binding, dstArrayElement := 0,
                     descriptorCount := 1,
                     descriptorType := VkDescriptorType.VK_DESCRIPTOR_TYPE_UNIFORM_BUFFER,
                     pImageInfo := none, pBufferInfo := none }] } := by
            simp only [GPUDescriptorSetVk.bind, GPUDescriptorSetVk.BindBuffer, h.1, h.2,
              if_false]
          rw [hb]
          exact ⟨_, rfl, rfl, rfl, rfl, rfl⟩
  | BindTexture binding texture sampler =>
      cases texture with
      | none => simp [BindCall.isAccepted] at h
      | some t => exact ⟨_, rfl, rfl, rfl, rfl, rfl⟩
  | BindSampler binding sampler =>
      cases sampler with
      | none => simp [BindCall.isAccepted] at h
      | some t => exact ⟨_, rfl, rfl, rfl, rfl, rfl⟩

theorem VkWriteDescriptorSet.uniformWrites_append (xs ys : List VkWriteDescriptorSet) :
    VkWriteDescriptorSet.uniformWrites (xs ++ ys) =
      VkWriteDescriptorSet.uniformWrites xs ++ VkWriteDescriptorSet.uniformWrites ys := by
  simp [VkWriteDescriptorSet.uniformWrites]

/-- What one bind call does to the pending uniform-buffer writes and to the
recorded buffer infos. -/
theorem GPUDescriptorSetVk.bind_buffers (s : GPUDescriptorSetVk) (call : BindCall)
    (rest : List BindCall) :
    ∃ recorded : List (Nat × VkDescriptorBufferInfo),
      BindCall.recordedBuffers (call :: rest) = recorded ++ BindCall.recordedBuffers rest ∧
      (s.bind call).1.buffer_infos_ = s.buffer_infos_ ++ recorded.map Prod.snd ∧
      (VkWriteDescriptorSet.uniformWrites (s.bind call).1.write_descriptor_sets_).map
          (fun w => w.dstBinding) =
        (VkWriteDescriptorSet.uniformWrites s.write_descriptor_sets_).map
          (fun w => w.dstBinding) ++ recorded.map Prod.fst ∧
      (s.bind call).1.write_descriptor_sets_.length =
        s.write_descriptor_sets_.length + (if call.isAccepted then 1 else 0) := by
  cases call with
  | BindBuffer binding buffer offset range =>
      cases buffer with
      | none =>
          exact ⟨[], by simp [BindCall.recordedBuffers],
            by simp [GPUDescriptorSetVk.bind, GPUDescriptorSetVk.BindBuffer],
            by simp [GPUDescriptorSetVk.bind, GPUDescriptorSetVk.BindBuffer],
            by simp [GPUDescriptorSetVk.bind, GPUDescriptorSetVk.BindBuffer,
              BindCall.isAccepted]⟩
      | some b =>
          by_cases h0 : b.buffer_ = 0
          · exact ⟨[], by simp [BindCall.recordedBuffers, h0],
              by simp [GPUDescriptorSetVk.bind, GPUDescriptorSetVk.BindBuffer, h0],
              by simp [GPUDescriptorSetVk.bind, GPUDescriptorSetVk.BindBuffer, h0],
              by simp [GPUDescriptorSetVk.bind, GPUDescriptorSetVk.BindBuffer, h0,
                BindCall.isAccepted]⟩
          · by_cases h1 : b.buffer_ < 0x1000
            · exact ⟨[], by simp [BindCall.recordedBuffers, h1],
                by simp [GPUDescriptorSetVk.bind, GPUDescriptorSetVk.BindBuffer, h0, h1],
                by simp [GPUDescriptorSetVk.bind, GPUDescriptorSetVk.BindBuffer, h0, h1],
                by simp [GPUDescriptorSetVk.bind, GPUDescriptorSetVk.BindBuffer, h0, h1,
                  BindCall.isAccepted]⟩
            · exact ⟨[(binding, { buffer := b.buffer_
                                  offset := GPUDescriptorSetVk.alignedOffset offset
                                  range := range })],
                by simp [BindCall.recordedBuffers, h0, h1],
                by simp [GPUDescriptorSetVk.bind, GPUDescriptorSetVk.BindBuffer, h0, h1],
                by simp [GPUDescriptorSetVk.bind, GPUDescriptorSetVk.BindBuffer, h0, h1,
                  VkWriteDescriptorSet.uniformWrites],
                by simp [GPUDescriptorSetVk.bind, GPUDescriptorSetVk.BindBuffer, h0, h1,
                  BindCall.isAccepted]⟩
  | BindTexture binding texture sampler =>
      cases texture with
      | none =>
          exact ⟨[], by simp [BindCall.recordedBuffers],
            by simp [GPUDescriptorSetVk.bind, GPUDescriptorSetVk.BindTexture],
            by simp [GPUDescriptorSetVk.bind, GPUDescriptorSetVk.BindTexture],
            by simp [GPUDescriptorSetVk.bind, GPUDescriptorSetVk.BindTexture,
              BindCall.isAccepted]⟩
      | some t =>
          refine ⟨[], by simp [BindCall.recordedBuffers],
            by simp [GPUDescriptorSetVk.bind, GPUDescriptorSetVk.BindTexture], ?_,
            by simp [GPUDescriptorSetVk.bind, GPUDescriptorSetVk.BindTexture,
              BindCall.isAccepted]⟩
          cases sampler <;>
            simp [GPUDescriptorSetVk.bind, GPUDescriptorSetVk.BindTexture,
              VkWriteDescriptorSet.uniformWrites]
  | BindSampler binding sampler =>
      cases sampler with
      | none =>
          exact ⟨[], by simp [BindCall.recordedBuffers],
            by simp [GPUDescriptorSetVk.bind, GPUDescriptorSetVk.BindSampler],
            by simp [GPUDescriptorSetVk.bind, GPUDescriptorSetVk.BindSampler],
            by simp [GPUDescriptorSetVk.bind, GPUDescriptorSetVk.BindSampler,
              BindCall.isAccepted]⟩
      | some t =>
          exact ⟨[], by simp [BindCall.recordedBuffers],
            by simp [GPUDescriptorSetVk.bind, GPUDescriptorSetVk.BindSampler],
            by simp [GPUDescriptorSetVk.bind, GPUDescriptorSetVk.BindSampler,
              VkWriteDescriptorSet.uniformWrites],
            by simp [GPUDescriptorSetVk.bind, GPUDescriptorSetVk.BindSampler,
              BindCall.isAccepted]⟩

/-- The state after a sequence of bind calls: no native call has been made,
the buffer infos have grown by those of the accepted `BindBuffer` calls, the
uniform-buffer writes by one per accepted `BindBuffer` call with its binding
slot, and the pending writes by one per accepted call. -/
theorem GPUDescriptorSetVk.bindAll_spec (calls : List BindCall) (s : GPUDescriptorSetVk) :
    (s.bindAll calls).2 = [] ∧
    (s.bindAll calls).1.buffer_infos_ =
      s.buffer_infos_ ++ (BindCall.recordedBuffers calls).map Prod.snd ∧
    (VkWriteDescriptorSet.uniformWrites (s.bindAll calls).1.write_descriptor_sets_).map
        (fun w => w.dstBinding) =
      (VkWriteDescriptorSet.uniformWrites s.write_descriptor_sets_).map
        (fun w => w.dstBinding) ++ (BindCall.recordedBuffers calls).map Prod.fst ∧
    (s.bindAll calls).1.write_descriptor_sets_.length =
      s.write_descriptor_sets_.length + (calls.filter BindCall.isAccepted).length := by
  induction calls generalizing s with
  | nil => simp [GPUDescriptorSetVk.bindAll, BindCall.recordedBuffers]
  | cons call rest ih =>
      obtain ⟨recorded, hrec, hinfos, hwrites, hlen⟩ :=
        GPUDescriptorSetVk.bind_buffers s call rest
      obtain ⟨i1, i2, i3, i4⟩ := ih (s.bind call).1
      have hev := GPUDescriptorSetVk.bind_events s call
      have hunfold : s.bindAll (call :: rest) =
          (((s.bind call).1.bindAll rest).1, (s.bind call).2 ++ ((s.bind call).1.bindAll rest).2) :=
        rfl
      rw [hunfold]
      refine ⟨by simp [hev, i1], ?_, ?_, ?_⟩
      · simp only [i2, hinfos, hrec, List.map_append, List.append_assoc]
      · simp only [i3, hwrites, hrec, List.map_append, List.append_assoc]
      · simp only [i4, hlen, List.filter_cons]
        by_cases ha : call.isAccepted = true
        · simp [ha]
          omega
        · simp [ha]

/-- The pointer fix-up keeps the writes, their order and every field but
`pBufferInfo`, and gives the uniform-buffer writes the consecutive indices
`buffer_index, buffer_index + 1, ...` when there are enough buffer infos. -/
theorem GPUDescriptorSetVk.fixBufferPointers_spec (buffer_count : Nat)
    (writes : List VkWriteDescriptorSet) (buffer_index : Nat) :
    (GPUDescriptorSetVk.fixBufferPointers buffer_count buffer_index writes).length =
        writes.length ∧
    (GPUDescriptorSetVk.fixBufferPointers buffer_count buffer_index writes).map
        (fun w => { w with pBufferInfo := none }) =
      writes.map (fun w => { w with pBufferInfo := none }) ∧
    (VkWriteDescriptorSet.uniformWrites
        (GPUDescriptorSetVk.fixBufferPointers buffer_count buffer_index writes)).map
        (fun w => w.dstBinding) =
      (VkWriteDescriptorSet.uniformWrites writes).map (fun w => w.dstBinding) ∧
    (buffer_index + (VkWriteDescriptorSet.uniformWrites writes).length ≤ buffer_count →
      (VkWriteDescriptorSet.uniformWrites
          (GPUDescriptorSetVk.fixBufferPointers buffer_count buffer_index writes)).map
          (fun w => w.pBufferInfo) =
        (List.range' buffer_index (VkWriteDescriptorSet.uniformWrites writes).length).map
          some) := by
  induction writes generalizing buffer_index with
  | nil =>
      simp [GPUDescriptorSetVk.fixBufferPointers, VkWriteDescriptorSet.uniformWrites]
  | cons w rest ih =>
      by_cases hu : w.descriptorType = VkDescriptorType.VK_DESCRIPTOR_TYPE_UNIFORM_BUFFER
      · by_cases hlt : buffer_index < buffer_count
        · obtain ⟨i1, i2, i3, i4⟩ := ih (buffer_index + 1)
          have hfix : GPUDescriptorSetVk.fixBufferPointers buffer_count buffer_index (w :: rest) =
              { w with pBufferInfo := some buffer_index } ::
                GPUDescriptorSetVk.fixBufferPointers buffer_count (buffer_index + 1) rest := by
            simp [GPUDescriptorSetVk.fixBufferPointers, hu, hlt]
          rw [hfix]
          refine ⟨by simp [i1], by simp [i2], ?_, ?_⟩
          · have h3 := i3
            simp only [VkWriteDescriptorSet.uniformWrites] at h3 ⊢
            simp [List.filter_cons, hu, h3]
          · intro hle
            have hlen : (VkWriteDescriptorSet.uniformWrites (w :: rest)).length =
                (VkWriteDescriptorSet.uniformWrites rest).length + 1 := by
              simp [VkWriteDescriptorSet.uniformWrites, List.filter_cons, hu]
            have h4 := i4 (by omega)
            rw [hlen, List.range'_succ]
            simp only [VkWriteDescriptorSet.uniformWrites] at h4 ⊢
            simp [List.filter_cons, hu, h4]
        · obtain ⟨i1, i2, i3, i4⟩ := ih buffer_index
          have hfix : GPUDescriptorSetVk.fixBufferPointers buffer_count buffer_index (w :: rest) =
              w :: GPUDescriptorSetVk.fixBufferPointers buffer_count buffer_index rest := by
            simp [GPUDescriptorSetVk.fixBufferPointers, hlt]
          rw [hfix]
          refine ⟨by simp [i1], by simp [i2], ?_, ?_⟩
          · have h3 := i3
            simp only [VkWriteDescriptorSet.uniformWrites] at h3 ⊢
            simp [List.filter_cons, hu, h3]
          · intro hle
            have hlen : (VkWriteDescriptorSet.uniformWrites (w :: rest)).length =
                (VkWriteDescriptorSet.uniformWrites rest).length + 1 := by
              simp [VkWriteDescriptorSet.uniformWrites, List.filter_cons, hu]
            omega
      · obtain ⟨i1, i2, i3, i4⟩ := ih buffer_index
        have hfix : GPUDescriptorSetVk.fixBufferPointers buffer_count buffer_index (w :: rest) =
            w :: GPUDescriptorSetVk.fixBufferPointers buffer_count buffer_index rest := by
          simp [GPUDescriptorSetVk.fixBufferPointers, hu]
        rw [hfix]
        have hlen : (VkWriteDescriptorSet.uniformWrites (w :: rest)).length =
            (VkWriteDescriptorSet.uniformWrites rest).length := by
          simp [VkWriteDescriptorSet.uniformWrites, List.filter_cons, hu]
        refine ⟨by simp [i1], by simp [i2], ?_, ?_⟩
        · have h3 := i3
          simp only [VkWriteDescriptorSet.uniformWrites] at h3 ⊢
          simp [List.filter_cons, hu, h3]
        · intro hle
          have h4 := i4 (by omega)
          rw [hlen]
          simp only [VkWriteDescriptorSet.uniformWrites] at h4 ⊢
          simp [List.filter_cons, hu, h4]

theorem GPUDescriptorSetVk.UpdateDescriptorSet_writes (s : GPUDescriptorSetVk) :
    s.UpdateDescriptorSet.1.write_descriptor_sets_ =
      GPUDescriptorSetVk.fixBufferPointers s.buffer_infos_.length 0 s.write_descriptor_sets_ ∧
    s.UpdateDescriptorSet.1.buffer_infos_ = s.buffer_infos_ ∧
    s.UpdateDescriptorSet.2.2 =
      (if s.write_descriptor_sets_ = [] then []
       else [DescriptorCall.vkUpdateDescriptorSets
          ((GPUDescriptorSetVk.fixBufferPointers s.buffer_infos_.length 0
            s.write_descriptor_sets_).length % 2 ^ 32)
          (GPUDescriptorSetVk.fixBufferPointers s.buffer_infos_.length 0
            s.write_descriptor_sets_)]) := by
  unfold GPUDescriptorSetVk.UpdateDescriptorSet
  cases hw : s.write_descriptor_sets_ with
  | nil => simp [GPUDescriptorSetVk.fixBufferPointers, hw]
  | cons w rest => simp

/-- The write that an accepted bind call appends names the binding slot of the
call and has no buffer-info pointer yet. -/
theorem GPUDescriptorSetVk.bind_accepted_binding (s : GPUDescriptorSetVk) (call : BindCall)
    (h : call.isAccepted = true) :
    ∃ w : VkWriteDescriptorSet,
      (s.bind call).1.write_descriptor_sets_ = s.write_descriptor_sets_ ++ [w] ∧
      w.dstBinding = call.binding ∧ w.pBufferInfo = none := by
  cases call with
  | BindBuffer binding buffer offset range =>
      cases buffer with
      | none => simp [BindCall.isAccepted] at h
      | some b =>
          simp only [BindCall.isAccepted, decide_eq_true_eq] at h
          refine ⟨{ dstSet := s.descriptor_set_, dstBinding := binding, dstArrayElement := 0,
                    descriptorCount := 1,
                    descriptorType := VkDescriptorType.VK_DESCRIPTOR_TYPE_UNIFORM_BUFFER,
                    pImageInfo := none, pBufferInfo := none }, ?_, rfl, rfl⟩
          simp only [GPUDescriptorSetVk.bind, GPUDescriptorSetVk.BindBuffer, h.1, h.2, if_false]
  | BindTexture binding texture sampler =>
      cases texture with
      | none => simp [BindCall.isAccepted] at h
      | some t => exact ⟨_, rfl, rfl, rfl⟩
  | BindSampler binding sampler =>
      cases sampler with
      | none => simp [BindCall.isAccepted] at h
      | some t => exact ⟨_, rfl, rfl, rfl⟩

/-- After a sequence of bind calls the pending writes name, in order, the
binding slots of the accepted calls, after those of the writes that were
pending before; and no new write has a buffer-info pointer. -/
theorem GPUDescriptorSetVk.bindAll_bindings (calls : List BindCall) (s : GPUDescriptorSetVk) :
    (s.bindAll calls).1.write_descriptor_sets_.map (fun w => w.dstBinding) =
      s.write_descriptor_sets_.map (fun w => w.dstBinding) ++
        (calls.filter BindCall.isAccepted).map BindCall.binding ∧
    ((∀ w ∈ s.write_descriptor_sets_, w.pBufferInfo = none) →
      ∀ w ∈ (s.bindAll calls).1.write_descriptor_sets_, w.pBufferInfo = none) := by
  induction calls generalizing s with
  | nil => simp [GPUDescriptorSetVk.bindAll]
  | cons call rest ih =>
      have hunfold : (s.bindAll (call :: rest)).1 = ((s.bind call).1.bindAll rest).1 := rfl
      rw [hunfold]
      obtain ⟨i1, i2⟩ := ih (s.bind call).1
      by_cases ha : call.isAccepted = true
      · obtain ⟨w, hw, hb, hp⟩ := GPUDescriptorSetVk.bind_accepted_binding s call ha
        refine ⟨?_, ?_⟩
        · rw [i1, hw]
          simp [List.filter_cons, ha, hb]
        · intro hs
          apply i2
          intro w2 hw2
          rw [hw, List.mem_append, List.mem_singleton] at hw2
          rcases hw2 with hw2 | rfl
          · exact hs w2 hw2
          · exact hp
      · have hrej := GPUDescriptorSetVk.bind_rejected s call (by simpa using ha)
        rw [hrej] at i1 i2 ⊢
        refine ⟨?_, i2⟩
        rw [i1]
        simp [List.filter_cons, ha]

/-- The pointer fix-up changes only uniform-buffer writes. -/
theorem GPUDescriptorSetVk.fixBufferPointers_mem (buffer_count : Nat)
    (writes : List VkWriteDescriptorSet) (buffer_index : Nat) :
    ∀ w ∈ GPUDescriptorSetVk.fixBufferPointers buffer_count buffer_index writes,
      w.descriptorType ≠ VkDescriptorType.VK_DESCRIPTOR_TYPE_UNIFORM_BUFFER → w ∈ writes := by
  induction writes generalizing buffer_index with
  | nil => simp [GPUDescriptorSetVk.fixBufferPointers]
  | cons w0 rest ih =>
      intro w hw hne
      by_cases hc : w0.descriptorType = VkDescriptorType.VK_DESCRIPTOR_TYPE_UNIFORM_BUFFER ∧
          buffer_index < buffer_count
      · simp only [GPUDescriptorSetVk.fixBufferPointers, hc, and_self, if_true,
          List.mem_cons] at hw
        rcases hw with rfl | hw
        · exact absurd rfl hne
        · exact List.mem_cons_of_mem _ (ih (buffer_index + 1) w hw hne)
      · simp only [GPUDescriptorSetVk.fixBufferPointers, hc, if_false, List.mem_cons] at hw
        rcases hw with rfl | hw
        · exact List.mem_cons_self _ _
        · exact List.mem_cons_of_mem _ (ih buffer_index w hw hne)

/-- C12: `BindBuffer`, `BindTexture` and `BindSampler` never issue a native
descriptor update; a call with a null resource (or a buffer whose native
handle the method rejects) changes nothing, and a call with a valid resource
appends exactly one pending write. `UpdateDescriptorSet` then issues exactly
one batched update that contains all pending writes in bind order, unchanged
but for the buffer-info pointers (none when there are no pending writes), and
for any interleaving of the three bind calls on a new descriptor set the k-th
uniform-buffer write in it points at element k of the buffer infos, which is
the info recorded by the k-th accepted `BindBuffer` call, for that call's
binding slot. The last two parts are about the writes handed to the one
`vkUpdateDescriptorSets` call: one write per accepted bind call, in call
order and for its binding slot, equal to the pending write but for the
pointer, the uniform-buffer ones pointing at the buffer infos 0, 1, ... -/
theorem deferred_descriptor_writes (s : GPUDescriptorSetVk) (call : BindCall)
    (descriptor_set : Nat) (calls : List BindCall) :
    (s.bind call).2 = [] ∧
    (∀ (binding offset range : Nat) (sampler : Option GPUSamplerVk),
      s.BindBuffer binding none offset range = (s, []) ∧
      s.BindTexture binding none sampler = (s, []) ∧
      s.BindSampler binding none = (s, [])) ∧
    (call.isAccepted = false → (s.bind call).1 = s) ∧
    (call.isAccepted = true →
      ∃ w : VkWriteDescriptorSet,
        (s.bind call).1.write_descriptor_sets_ = s.write_descriptor_sets_ ++ [w]) ∧
    (s.write_descriptor_sets_ = [] → s.UpdateDescriptorSet.2.2 = []) ∧
    (s.write_descriptor_sets_ ≠ [] →
      ∃ writes : List VkWriteDescriptorSet,
        s.UpdateDescriptorSet.2.2 =
          [DescriptorCall.vkUpdateDescriptorSets (writes.length % 2 ^ 32) writes] ∧
        writes.length = s.write_descriptor_sets_.length ∧
        writes.map (fun w => { w with pBufferInfo := none }) =
          s.write_descriptor_sets_.map (fun w => { w with pBufferInfo := none })) ∧
    ((GPUDescriptorSetVk.new descriptor_set).bindAll calls).2 = [] ∧
    ((GPUDescriptorSetVk.new descriptor_set).bindAll calls).1.write_descriptor_sets_.length =
      (calls.filter BindCall.isAccepted).length ∧
    ((GPUDescriptorSetVk.new descriptor_set).bindAll
        calls).1.UpdateDescriptorSet.1.buffer_infos_ =
      (BindCall.recordedBuffers calls).map Prod.snd ∧
    (VkWriteDescriptorSet.uniformWrites
        ((GPUDescriptorSetVk.new descriptor_set).bindAll
          calls).1.UpdateDescriptorSet.1.write_descriptor_sets_).map
        (fun w => w.pBufferInfo) =
      (List.range (BindCall.recordedBuffers calls).length).map some ∧
    (VkWriteDescriptorSet.uniformWrites
        ((GPUDescriptorSetVk.new descriptor_set).bindAll
          calls).1.UpdateDescriptorSet.1.write_descriptor_sets_).map
        (fun w => w.dstBinding) =
      (BindCall.recordedBuffers calls).map Prod.fst ∧
    (calls.filter BindCall.isAccepted = [] →
      ((GPUDescriptorSetVk.new descriptor_set).bindAll calls).1.UpdateDescriptorSet.2.2 = []) ∧
    (calls.filter BindCall.isAccepted ≠ [] →
      ∃ writes : List VkWriteDescriptorSet,
        ((GPUDescriptorSetVk.new descriptor_set).bindAll calls).1.UpdateDescriptorSet.2.2 =
          [DescriptorCall.vkUpdateDescriptorSets
            ((calls.filter BindCall.isAccepted).length % 2 ^ 32) writes] ∧
        writes.map (fun w => w.dstBinding) =
          (calls.filter BindCall.isAccepted).map BindCall.binding ∧
        writes.map (fun w => { w with pBufferInfo := none }) =
          ((GPUDescriptorSetVk.new descriptor_set).bindAll calls).1.write_descriptor_sets_ ∧
        (VkWriteDescriptorSet.uniformWrites writes).map (fun w => w.pBufferInfo) =
          (List.range (BindCall.recordedBuffers calls).length).map some ∧
        (VkWriteDescriptorSet.uniformWrites writes).map (fun w => w.dstBinding) =
          (BindCall.recordedBuffers calls).map Prod.fst ∧
        (∀ w ∈ writes,
          w.descriptorType ≠ VkDescriptorType.VK_DESCRIPTOR_TYPE_UNIFORM_BUFFER →
            w.pBufferInfo = none)) := by
  obtain ⟨b1, b2, b3, b4⟩ :=
    GPUDescriptorSetVk.bindAll_spec calls (GPUDescriptorSetVk.new descriptor_set)
  obtain ⟨c1, c2⟩ :=
    GPUDescriptorSetVk.bindAll_bindings calls (GPUDescriptorSetVk.new descriptor_set)
  have hlen : ((GPUDescriptorSetVk.new descriptor_set).bindAll
      calls).1.write_descriptor_sets_.length = (calls.filter BindCall.isAccepted).length := by
    rw [b4]
    simp [GPUDescriptorSetVk.new]
  have hpending : ∀ w ∈ ((GPUDescriptorSetVk.new descriptor_set).bindAll
      calls).1.write_descriptor_sets_, w.pBufferInfo = none :=
    c2 (by simp [GPUDescriptorSetVk.new])
  have herase : ((GPUDescriptorSetVk.new descriptor_set).bindAll
      calls).1.write_descriptor_sets_.map (fun w => { w with pBufferInfo := none }) =
      ((GPUDescriptorSetVk.new descriptor_set).bindAll calls).1.write_descriptor_sets_ := by
    conv_rhs => rw [← List.map_id ((GPUDescriptorSetVk.new descriptor_set).bindAll
      calls).1.write_descriptor_sets_]
    apply List.map_congr_left
    intro w hw
    have hnone := hpending w hw
    cases w
    simp only at hnone
    subst hnone
    rfl
  obtain ⟨u1, u2, u3⟩ := GPUDescriptorSetVk.UpdateDescriptorSet_writes
    ((GPUDescriptorSetVk.new descriptor_set).bindAll calls).1
  obtain ⟨f1, f2, f3, f4⟩ := GPUDescriptorSetVk.fixBufferPointers_spec
    ((GPUDescriptorSetVk.new descriptor_set).bindAll calls).1.buffer_infos_.length
    ((GPUDescriptorSetVk.new descriptor_set).bindAll calls).1.write_descriptor_sets_ 0
  have hnew3 : (VkWriteDescriptorSet.uniformWrites
      ((GPUDescriptorSetVk.new descriptor_set).bindAll calls).1.write_descriptor_sets_).map
      (fun w => w.dstBinding) = (BindCall.recordedBuffers calls).map Prod.fst := by
    rw [b3]
    simp [GPUDescriptorSetVk.new, VkWriteDescriptorSet.uniformWrites]
  have hnew2 : ((GPUDescriptorSetVk.new descriptor_set).bindAll calls).1.buffer_infos_ =
      (BindCall.recordedBuffers calls).map Prod.snd := by
    rw [b2]
    simp [GPUDescriptorSetVk.new]
  have hcount : (VkWriteDescriptorSet.uniformWrites
      ((GPUDescriptorSetVk.new descriptor_set).bindAll calls).1.write_descriptor_sets_).length =
      (BindCall.recordedBuffers calls).length := by
    have := congrArg List.length hnew3
    simpa using this
  refine ⟨GPUDescriptorSetVk.bind_events s call, ?_, GPUDescriptorSetVk.bind_rejected s call,
    ?_, ?_, ?_, b1, ?_, ?_, ?_, ?_, ?_, ?_⟩
  · intro binding offset range sampler
    exact ⟨rfl, rfl, rfl⟩
  · intro h
    obtain ⟨w, hw, -⟩ := GPUDescriptorSetVk.bind_accepted s call h
    exact ⟨w, hw⟩
  · intro h
    rw [(GPUDescriptorSetVk.UpdateDescriptorSet_writes s).2.2, if_pos h]
  · intro h
    obtain ⟨g1, g2, -, -⟩ := GPUDescriptorSetVk.fixBufferPointers_spec s.buffer_infos_.length
      s.write_descriptor_sets_ 0
    refine ⟨_, ?_, g1, g2⟩
    rw [(GPUDescriptorSetVk.UpdateDescriptorSet_writes s).2.2, if_neg h]
  · rw [b4]
    simp [GPUDescriptorSetVk.new]
  · rw [u2, hnew2]
  · rw [u1, f4 (by rw [hcount, hnew2]; simp), hcount, List.range_eq_range']
  · rw [u1, f3, hnew3]
  · intro hnone
    have hnil : ((GPUDescriptorSetVk.new descriptor_set).bindAll
        calls).1.write_descriptor_sets_ = [] := by
      apply List.eq_nil_of_length_eq_zero
      rw [hlen, hnone]
      rfl
    rw [u3, if_pos hnil]
  · intro hsome
    have hne : ((GPUDescriptorSetVk.new descriptor_set).bindAll
        calls).1.write_descriptor_sets_ ≠ [] := by
      intro hnil
      apply hsome
      apply List.eq_nil_of_length_eq_zero
      rw [← hlen, hnil]
      rfl
    refine ⟨GPUDescriptorSetVk.fixBufferPointers
      ((GPUDescriptorSetVk.new descriptor_set).bindAll calls).1.buffer_infos_.length 0
      ((GPUDescriptorSetVk.new descriptor_set).bindAll calls).1.write_descriptor_sets_,
      ?_, ?_, ?_, ?_, ?_, ?_⟩
    · rw [u3, if_neg hne, f1, hlen]
    · have hmap := congrArg (List.map (fun w : VkWriteDescriptorSet => w.dstBinding)) f2
      simp only [List.map_map] at hmap
      have hcomp : ((fun w : VkWriteDescriptorSet => w.dstBinding) ∘
          fun w : VkWriteDescriptorSet => { w with pBufferInfo := none }) =
          fun w : VkWriteDescriptorSet => w.dstBinding := rfl
      rw [hcomp] at hmap
      rw [hmap, c1]
      simp [GPUDescriptorSetVk.new]
    · rw [f2, herase]
    · rw [f4 (by rw [hcount, hnew2]; simp), hcount, List.range_eq_range']
    · rw [f3, hnew3]
    · intro w hw hnon
      exact hpending w (GPUDescriptorSetVk.fixBufferPointers_mem _ _ 0 w hw hnon)

/-- Witness for C12: a uniform buffer for slot 0, a texture for slot 1, a null
sampler and a second uniform buffer for slot 2 are bound to a new descriptor
set. `UpdateDescriptorSet` issues one `vkUpdateDescriptorSets` with three
writes, for the slots 0, 1 and 2 in that order; its two uniform-buffer writes
point at the buffer infos 0 and 1, which are the ones of the two buffers. -/
theorem deferred_descriptor_writes_witness :
    (((GPUDescriptorSetVk.new 7).bindAll BindCall.sample).1.UpdateDescriptorSet.2.2 =
      [DescriptorCall.vkUpdateDescriptorSets 3
        [{ dstSet := 7, dstBinding := 0, dstArrayElement := 0, descriptorCount := 1,
           descriptorType := VkDescriptorType.VK_DESCRIPTOR_TYPE_UNIFORM_BUFFER,
           pImageInfo := none, pBufferInfo := some 0 },
         { dstSet := 7, dstBinding := 1, dstArrayElement := 0, descriptorCount := 1,
           descriptorType := VkDescriptorType.VK_DESCRIPTOR_TYPE_SAMPLED_IMAGE,
           pImageInfo := some 0, pBufferInfo := none },
         { dstSet := 7, dstBinding := 2, dstArrayElement := 0, descriptorCount := 1,
           descriptorType := VkDescriptorType.VK_DESCRIPTOR_TYPE_UNIFORM_BUFFER,
           pImageInfo := none, pBufferInfo := some 1 }]]) ∧
    ((GPUDescriptorSetVk.new 7).bindAll BindCall.sample).1.UpdateDescriptorSet.1.buffer_infos_ =
      [{ buffer := 0x2000, offset := 0, range := 64 },
       { buffer := 0x3000, offset := 32, range := 32 }] ∧
    ∃ writes : List VkWriteDescriptorSet,
      ((GPUDescriptorSetVk.new 7).bindAll BindCall.sample).1.UpdateDescriptorSet.2.2 =
        [DescriptorCall.vkUpdateDescriptorSets 3 writes] ∧
      writes.map (fun w => w.dstBinding) = [0, 1, 2] ∧
      (VkWriteDescriptorSet.uniformWrites writes).map (fun w => w.pBufferInfo) =
        [some 0, some 1] := by
  have h := deferred_descriptor_writes (GPUDescriptorSetVk.new 7) (BindCall.BindSampler 3 none)
    7 BindCall.sample
  obtain ⟨writes, h1, h2, -, h4, -, -⟩ := h.2.2.2.2.2.2.2.2.2.2.2.2 (by decide)
  refine ⟨by decide, h.2.2.2.2.2.2.2.2.1.trans (by decide), writes, ?_,
    h2.trans (by decide), h4.trans (by decide)⟩
  rw [h1]
  rfl

theorem and_align_mask (x : Nat) (hx : x < 2 ^ 64) :
    x &&& 0xFFFFFFFFFFFFFFF0 = x / 16 * 16 := by
  have hm : (0xFFFFFFFFFFFFFFF0 : Nat) = (2 ^ 60 - 1) <<< 4 := by decide
  have hx16 : x / 16 * 16 = (x >>> 4) <<< 4 := by
    simp [Nat.shiftLeft_eq, Nat.shiftRight_eq_div_pow]
  rw [hm, hx16]
  apply Nat.eq_of_testBit_eq
  intro i
  rw [Nat.testBit_and, Nat.testBit_shiftLeft, Nat.testBit_shiftLeft,
    Nat.testBit_two_pow_sub_one, Nat.testBit_shiftRight]
  by_cases h4 : 4 ≤ i
  · have hi : 4 + (i - 4) = i := by omega
    rw [hi]
    by_cases h64 : i < 64
    · have : i - 4 < 60 := by omega
      simp [h4, this]
    · have hxi : x.testBit i = false := by
        apply Nat.testBit_lt_two_pow
        calc x < 2 ^ 64 := hx
          _ ≤ 2 ^ i := Nat.pow_le_pow_right (by decide) (by omega)
      simp [hxi]
  · simp [h4]

theorem GPUDescriptorSetVk.alignedOffset_eq (offset : Nat) (h : offset ≤ 2 ^ 64 - 1 - 15) :
    GPUDescriptorSetVk.alignedOffset offset = (offset + 15) / 16 * 16 := by
  unfold GPUDescriptorSetVk.alignedOffset
  have hlt : offset + 15 < 2 ^ 64 := by omega
  rw [Nat.mod_eq_of_lt hlt, and_align_mask _ hlt]

/-- C13: for every offset `<= SIZE_MAX - 15`, the offset that `BindBuffer`
records in the buffer info (for a buffer it accepts) is the least multiple of
16 that is `>= offset`: it is unchanged when `offset` is a multiple of 16 and
exceeds `offset` by at most 15; the recorded range is the caller's range and
the recorded handle the buffer's current native handle. -/
theorem bind_buffer_offset_alignment (s : GPUDescriptorSetVk) (binding : Nat)
    (buffer : GPUBufferVk) (offset range : Nat)
    (hbuffer : buffer.buffer_ ≠ 0 ∧ ¬ buffer.buffer_ < 0x1000)
    (hoffset : offset ≤ 2 ^ 64 - 1 - 15) :
    (∃ recorded : Nat,
      (s.BindBuffer binding (some buffer) offset range).1.buffer_infos_ =
        s.buffer_infos_ ++ [{ buffer := buffer.buffer_, offset := recorded, range := range }] ∧
      16 ∣ recorded ∧ offset ≤ recorded ∧
      (∀ m : Nat, 16 ∣ m → offset ≤ m → recorded ≤ m) ∧
      recorded ≤ offset + 15 ∧
      (16 ∣ offset → recorded = offset)) := by
  refine ⟨GPUDescriptorSetVk.alignedOffset offset, ?_, ?_⟩
  · simp [GPUDescriptorSetVk.BindBuffer, hbuffer.1, hbuffer.2]
  · rw [GPUDescriptorSetVk.alignedOffset_eq offset hoffset]
    refine ⟨Nat.dvd_mul_left 16 _, by omega, ?_, by omega, ?_⟩
    · rintro m ⟨k, rfl⟩ hle
      omega
    · rintro ⟨k, rfl⟩
      omega

/-- Witness for C13: offset 20 is recorded as 32, with the range 100. -/
theorem bind_buffer_offset_alignment_witness :
    ∃ recorded : Nat,
      ((GPUDescriptorSetVk.new 7).BindBuffer 0
          (some { usage := 0x40, buffer_ := 0x2000, allocation_ := 1, mapped_ptr_ := 0,
                  size_ := 256, is_mapped_ := false }) 20 100).1.buffer_infos_ =
        (GPUDescriptorSetVk.new 7).buffer_infos_ ++
          [{ buffer := 0x2000, offset := recorded, range := 100 }] ∧
      16 ∣ recorded ∧ 20 ≤ recorded ∧
      (∀ m : Nat, 16 ∣ m → 20 ≤ m → recorded ≤ m) ∧
      recorded ≤ 20 + 15 ∧
      (16 ∣ 20 → recorded = 20) :=
  bind_buffer_offset_alignment (GPUDescriptorSetVk.new 7) 0
    { usage := 0x40, buffer_ := 0x2000, allocation_ := 1, mapped_ptr_ := 0, size_ := 256,
      is_mapped_ := false } 20 100 (by decide) (by decide)

/-! ### Wrapped textures -/

/-- `Destroy` on a texture without allocation: at most the image view is
destroyed, the image is kept, and the device pointer is cleared. -/
theorem GPUTextureVk.Destroy_without_allocation (t : GPUTextureVk) (ha : t.allocation_ = 0) :
    t.Destroy.2 =
        (if t.device_ ≠ 0 ∧ t.image_view_ ≠ 0 then [TextureCall.vkDestroyImageView t.image_view_]
         else []) ∧
    t.Destroy.1.device_ = 0 ∧ t.Destroy.1.allocation_ = 0 ∧ t.Destroy.1.image_ = t.image_ := by
  unfold GPUTextureVk.Destroy
  by_cases hd : t.device_ = 0
  · simp [hd, ha]
  · by_cases hv : t.image_view_ = 0
    · simp [hd, hv, ha]
    · simp [hd, hv, ha]

theorem GPUTextureVk.destroyTimes_without_device (n : Nat) (t : GPUTextureVk)
    (hd : t.device_ = 0) (ha : t.allocation_ = 0) :
    (GPUTextureVk.destroyTimes n t).2 = [] ∧
    (GPUTextureVk.destroyTimes n t).1.allocation_ = 0 ∧
    (GPUTextureVk.destroyTimes n t).1.image_ = t.image_ := by
  induction n generalizing t with
  | zero => exact ⟨rfl, ha, rfl⟩
  | succ n ih =>
      obtain ⟨e1, e2, e3, e4⟩ := GPUTextureVk.Destroy_without_allocation t ha
      obtain ⟨i1, i2, i3⟩ := ih t.Destroy.1 e2 e3
      have hunfold : GPUTextureVk.destroyTimes (n + 1) t =
          ((GPUTextureVk.destroyTimes n t.Destroy.1).1,
            t.Destroy.2 ++ (GPUTextureVk.destroyTimes n t.Destroy.1).2) := rfl
      rw [hunfold]
      refine ⟨?_, i2, ?_⟩
      · simp only [i1, e1, hd]
        simp
      · simp only [i3, e4]

/-- C17: for every texture returned by `CreateFromVkImage`, any number of
`Destroy` calls (the destructor is one more) never frees the wrapped native
image or an allocation: no `vmaDestroyImage` is issued and the wrapper still
holds the image handle; the only native call they can make is one
`vkDestroyImageView` of the image view the wrapper created. -/
theorem non_owning_wrapper (U : GPUTextureUsage) (defaults : GPUTextureDescriptor)
    (device vk_image vk_format width height : Nat) (view : Option Nat) (t : GPUTextureVk)
    (n : Nat)
    (hreturned : (GPUTextureVk.CreateFromVkImage U defaults device vk_image vk_format width
      height view).1 = some t) :
    t.image_ = vk_image ∧ t.allocation_ = 0 ∧ view = some t.image_view_ ∧
    (∀ c ∈ (GPUTextureVk.destroyTimes n t).2, c.isDestroyImage = false) ∧
    (∀ c ∈ (GPUTextureVk.destroyTimes n t).2, c = TextureCall.vkDestroyImageView t.image_view_) ∧
    (GPUTextureVk.destroyTimes n t).2.length ≤ 1 ∧
    (GPUTextureVk.destroyTimes n t).1.image_ = vk_image := by
  have hshape : t.image_ = vk_image ∧ t.allocation_ = 0 ∧ view = some t.image_view_ := by
    unfold GPUTextureVk.CreateFromVkImage at hreturned
    by_cases hnull : device = 0 ∨ vk_image = 0
    · simp [hnull] at hreturned
    · cases view with
      | none => simp [hnull, GPUTextureVk.CreateImageView] at hreturned
      | some v =>
          simp only [hnull, if_false, GPUTextureVk.CreateImageView, Option.some.injEq]
            at hreturned
          subst hreturned
          exact ⟨rfl, rfl, rfl⟩
  obtain ⟨himg, halloc, hview⟩ := hshape
  refine ⟨himg, halloc, hview, ?_⟩
  have hevents : (GPUTextureVk.destroyTimes n t).2 = [] ∨
      (GPUTextureVk.destroyTimes n t).2 = [TextureCall.vkDestroyImageView t.image_view_] := by
    cases n with
    | zero => exact Or.inl rfl
    | succ n =>
        obtain ⟨e1, e2, e3, -⟩ := GPUTextureVk.Destroy_without_allocation t halloc
        obtain ⟨i1, -, -⟩ := GPUTextureVk.destroyTimes_without_device n t.Destroy.1 e2 e3
        have hunfold : GPUTextureVk.destroyTimes (n + 1) t =
            ((GPUTextureVk.destroyTimes n t.Destroy.1).1,
              t.Destroy.2 ++ (GPUTextureVk.destroyTimes n t.Destroy.1).2) := rfl
        rw [hunfold]
        simp only [i1, e1, List.append_nil]
        by_cases hc : t.device_ ≠ 0 ∧ t.image_view_ ≠ 0
        · exact Or.inr (by simp [hc])
        · exact Or.inl (by simp [hc])
  have himage : (GPUTextureVk.destroyTimes n t).1.image_ = vk_image := by
    cases n with
    | zero => exact himg
    | succ n =>
        obtain ⟨-, e2, e3, e4⟩ := GPUTextureVk.Destroy_without_allocation t halloc
        obtain ⟨-, -, i3⟩ := GPUTextureVk.destroyTimes_without_device n t.Destroy.1 e2 e3
        have hunfold : GPUTextureVk.destroyTimes (n + 1) t =
            ((GPUTextureVk.destroyTimes n t.Destroy.1).1,
              t.Destroy.2 ++ (GPUTextureVk.destroyTimes n t.Destroy.1).2) := rfl
        rw [hunfold]
        simp only [i3, e4, himg]
  rcases hevents with h | h
  · rw [h]
    exact ⟨by simp, by simp, by simp, himage⟩
  · rw [h]
    exact ⟨by simp [TextureCall.isDestroyImage], by simp, by simp, himage⟩

/-- Witness for C17: a swapchain image (handle 0x5000) wrapped with the view
0x6000; three `Destroy` calls destroy that view once and nothing else. -/
theorem non_owning_wrapper_witness :
    (GPUTextureVk.destroyTimes 3
        { desc_ := ⟨800, 600, GPUTextureFormat.kBGRA8Unorm, 16, 1, 1, 0⟩, image_ := 0x5000,
          image_view_ := 0x6000, allocation_ := 0, format_ := 50, current_layout_ := 0,
          device_ := 0x7000 }).2.length ≤ 1 ∧
    (GPUTextureVk.destroyTimes 3
        { desc_ := ⟨800, 600, GPUTextureFormat.kBGRA8Unorm, 16, 1, 1, 0⟩, image_ := 0x5000,
          image_view_ := 0x6000, allocation_ := 0, format_ := 50, current_layout_ := 0,
          device_ := 0x7000 }).1.image_ = 0x5000 :=
  (non_owning_wrapper ⟨1, 2, 4, 8, 16⟩ ⟨0, 0, GPUTextureFormat.kInvalid, 0, 1, 1, 0⟩ 0x7000
    0x5000 50 800 600 (some 0x6000)
    { desc_ := ⟨800, 600, GPUTextureFormat.kBGRA8Unorm, 16, 1, 1, 0⟩, image_ := 0x5000,
      image_view_ := 0x6000, allocation_ := 0, format_ := 50, current_layout_ := 0,
      device_ := 0x7000 } 3 (by decide)).2.2.2.2.2


/-! ### Pipeline creation -/

/-- What `Create` returns, step by step: the object exists exactly when the
pipeline layout, the two shader functions and the graphics pipeline are
there, and it then carries the two native handles and the valid flag. -/
theorem GPURenderPipelineVk.Create_eq (device : Nat) (desc : GPURenderPipelineDescriptor)
    (descriptor_layout pipeline_layout : NativeResult) (render_pass : Nat)
    (graphics_pipeline : NativeResult) :
    (((GPURenderPipelineVk.Create device desc descriptor_layout pipeline_layout render_pass
        graphics_pipeline).1.isSome = true ↔
      (pipeline_layout.success = true ∧ desc.vertex_function.isSome = true ∧
        desc.fragment_function.isSome = true ∧ graphics_pipeline.success = true))) ∧
    ∀ p, (GPURenderPipelineVk.Create device desc descriptor_layout pipeline_layout render_pass
        graphics_pipeline).1 = some p →
      p.valid_ = true ∧ p.pipeline_ = graphics_pipeline.handle ∧
        p.pipeline_layout_ = pipeline_layout.handle ∧
        p.descriptor_set_layouts_ =
          (if descriptor_layout.success = true ∧ descriptor_layout.handle ≠ 0
            then [descriptor_layout.handle] else []) := by
  obtain ⟨pls, plh⟩ := pipeline_layout
  obtain ⟨gps, gph⟩ := graphics_pipeline
  obtain ⟨vf, ff, tf, ed, es, bufs, sbf, dbf, wm, sc, dst, sst⟩ := desc
  by_cases hd : descriptor_layout.success = true ∧ descriptor_layout.handle ≠ 0 <;>
    cases pls <;> cases gps <;> cases vf <;> cases ff <;>
    simp [GPURenderPipelineVk.Create, GPURenderPipelineVk.CreatePipelineLayout,
      GPURenderPipelineVk.CreateGraphicsPipeline, GPURenderPipelineVk.new, hd]


/-- C18, counterexample: the descriptor-set layout step fails while the
pipeline layout and the graphics pipeline are created; `Create` still returns
an object, valid and with no descriptor-set layout. -/
theorem pipeline_creation_counterexample :
    ∃ p, (GPURenderPipelineVk.Create 1
        { vertex_function := some { label_ := "vs", shader_module_ := 0x100 }
          fragment_function := some { label_ := "fs", shader_module_ := 0x200 }
          target_format := GPUTextureFormat.kBGRA8Unorm
          enable_depth := false
          enable_stencil := false }
        { success := false, handle := 0 } { success := true, handle := 0x300 } 0x400
        { success := true, handle := 0x500 }).1 = some p ∧
      p.IsValid = true ∧ p.descriptor_set_layouts_ = [] :=
  ⟨_, rfl, rfl, rfl⟩

/-- C18, amended: `GPURenderPipelineVk::Create` returns an object exactly
when the pipeline layout is created, both shader functions are present and
the graphics pipeline is created, whatever the outcome of the descriptor-set
layout step; if one of these fails it returns `nullptr`. With native calls
that hand out a non-null handle when they succeed, every returned object
satisfies `IsValid()` and has non-null pipeline and pipeline-layout
handles. -/
theorem pipeline_creation_outcome (device : Nat) (desc : GPURenderPipelineDescriptor)
    (descriptor_layout pipeline_layout : NativeResult) (render_pass : Nat)
    (graphics_pipeline : NativeResult)
    (hlayout : pipeline_layout.success = true → pipeline_layout.handle ≠ 0)
    (hpipeline : graphics_pipeline.success = true → graphics_pipeline.handle ≠ 0) :
    ((GPURenderPipelineVk.Create device desc descriptor_layout pipeline_layout render_pass
        graphics_pipeline).1.isSome = true ↔
      (pipeline_layout.success = true ∧ desc.vertex_function.isSome = true ∧
        desc.fragment_function.isSome = true ∧ graphics_pipeline.success = true)) ∧
    ((pipeline_layout.success = false ∨ desc.vertex_function = none ∨
        desc.fragment_function = none ∨ graphics_pipeline.success = false) →
      (GPURenderPipelineVk.Create device desc descriptor_layout pipeline_layout render_pass
        graphics_pipeline).1 = none) ∧
    ∀ p, (GPURenderPipelineVk.Create device desc descriptor_layout pipeline_layout render_pass
        graphics_pipeline).1 = some p →
      p.IsValid = true ∧ p.pipeline_ ≠ 0 ∧ p.pipeline_layout_ ≠ 0 := by
  obtain ⟨hiff, hfields⟩ := GPURenderPipelineVk.Create_eq device desc descriptor_layout
    pipeline_layout render_pass graphics_pipeline
  refine ⟨hiff, ?_, ?_⟩
  · intro hfail
    cases hc : (GPURenderPipelineVk.Create device desc descriptor_layout pipeline_layout
      render_pass graphics_pipeline).1 with
    | none => rfl
    | some p =>
        have hsome := hiff.mp (by rw [hc]; rfl)
        obtain ⟨h1, h2, h3, h4⟩ := hsome
        rcases hfail with h | h | h | h
        · rw [h] at h1; cases h1
        · rw [h] at h2; cases h2
        · rw [h] at h3; cases h3
        · rw [h] at h4; cases h4
  · intro p hp
    obtain ⟨hv, hpipe, hlay, _⟩ := hfields p hp
    obtain ⟨h1, _, _, h4⟩ := hiff.mp (by rw [hp]; rfl)
    have hp0 : p.pipeline_ ≠ 0 := by rw [hpipe]; exact hpipeline h4
    have hl0 : p.pipeline_layout_ ≠ 0 := by rw [hlay]; exact hlayout h1
    refine ⟨?_, hp0, hl0⟩
    simp [GPURenderPipelineVk.IsValid, hv, hp0, hl0]

/-- C18, witness: a creation in which only the descriptor-set layout step
fails. -/
theorem pipeline_creation_outcome_witness :
    ((GPURenderPipelineVk.Create 1
        { vertex_function := some { label_ := "vs", shader_module_ := 0x100 }
          fragment_function := some { label_ := "fs", shader_module_ := 0x200 }
          target_format := GPUTextureFormat.kBGRA8Unorm
          enable_depth := false
          enable_stencil := true }
        { success := false, handle := 0 } { success := true, handle := 0x300 } 0x400
        { success := true, handle := 0x500 }).1.isSome = true ↔
      (true = true ∧ true = true ∧ true = true ∧ true = true)) :=
  (pipeline_creation_outcome 1
    { vertex_function := some { label_ := "vs", shader_module_ := 0x100 }
      fragment_function := some { label_ := "fs", shader_module_ := 0x200 }
      target_format := GPUTextureFormat.kBGRA8Unorm
      enable_depth := false
      enable_stencil := true }
    { success := false, handle := 0 } { success := true, handle := 0x300 } 0x400
    { success := true, handle := 0x500 } (fun _ => by decide) (fun _ => by decide)).1


/-! ### Command-buffer lifecycle -/

/-- A pass-opening call whose recording start succeeds (the buffer is already
recording, or the native begin succeeds): it returns the new pass, appends it
to its list, leaves the buffer recording, and begins native recording only
when the buffer was not recording. -/
theorem GPUCommandBufferVk.beginPass_ok (s : GPUCommandBufferVk) (call : BeginPassCall)
    (hstart : s.is_recording_ = true ∨ call.begin_ok = true) :
    (s.beginPass call).1.is_recording_ = true ∧
    (s.beginPass call).1.command_buffer_ = s.command_buffer_ ∧
    (s.beginPass call).1.render_passes_ = s.render_passes_ ++ BeginPassCall.renderPasses [call] ∧
    (s.beginPass call).1.blit_passes_ = s.blit_passes_ ++ BeginPassCall.blitPasses [call] ∧
    (s.beginPass call).2 =
      if s.is_recording_ = true then []
      else [CommandBufferCall.vkBeginCommandBuffer s.command_buffer_] := by
  cases call with
  | BeginRenderPass begin_ok render_pass =>
      cases hr : s.is_recording_ <;> cases begin_ok <;>
        simp_all [GPUCommandBufferVk.beginPass, GPUCommandBufferVk.BeginRenderPass,
          GPUCommandBufferVk.BeginRecording, BeginPassCall.renderPasses,
          BeginPassCall.blitPasses, BeginPassCall.begin_ok]
  | BeginBlitPass begin_ok blit_pass =>
      cases hr : s.is_recording_ <;> cases begin_ok <;>
        simp_all [GPUCommandBufferVk.beginPass, GPUCommandBufferVk.BeginBlitPass,
          GPUCommandBufferVk.BeginRecording, BeginPassCall.renderPasses,
          BeginPassCall.blitPasses, BeginPassCall.begin_ok]

/-- The sequences of opened passes of a call followed by others. -/
theorem BeginPassCall.renderPasses_cons (call : BeginPassCall) (rest : List BeginPassCall) :
    BeginPassCall.renderPasses (call :: rest) =
      BeginPassCall.renderPasses [call] ++ BeginPassCall.renderPasses rest := by
  cases call <;> simp [BeginPassCall.renderPasses]

/-- The sequences of opened blit passes of a call followed by others. -/
theorem BeginPassCall.blitPasses_cons (call : BeginPassCall) (rest : List BeginPassCall) :
    BeginPassCall.blitPasses (call :: rest) =
      BeginPassCall.blitPasses [call] ++ BeginPassCall.blitPasses rest := by
  cases call <;> simp [BeginPassCall.blitPasses]

/-- Every call opens one pass, a render pass or a blit pass. -/
theorem BeginPassCall.opened_length (calls : List BeginPassCall) :
    (BeginPassCall.renderPasses calls).length + (BeginPassCall.blitPasses calls).length =
      calls.length := by
  induction calls with
  | nil => rfl
  | cons call rest ih =>
      cases call <;> simp [BeginPassCall.renderPasses, BeginPassCall.blitPasses] <;> omega

/-- While the buffer is recording, pass-opening calls only append their
passes: no native call is made. -/
theorem GPUCommandBufferVk.beginPasses_recording (calls : List BeginPassCall) :
    ∀ s : GPUCommandBufferVk, s.is_recording_ = true →
      (s.beginPasses calls).1.is_recording_ = true ∧
      (s.beginPasses calls).1.command_buffer_ = s.command_buffer_ ∧
      (s.beginPasses calls).1.render_passes_ =
        s.render_passes_ ++ BeginPassCall.renderPasses calls ∧
      (s.beginPasses calls).1.blit_passes_ = s.blit_passes_ ++ BeginPassCall.blitPasses calls ∧
      (s.beginPasses calls).2 = [] := by
  induction calls with
  | nil =>
      intro s hs
      simp [GPUCommandBufferVk.beginPasses, BeginPassCall.renderPasses,
        BeginPassCall.blitPasses, hs]
  | cons call rest ih =>
      intro s hs
      obtain ⟨h1, h2, h3, h4, h5⟩ := GPUCommandBufferVk.beginPass_ok s call (Or.inl hs)
      obtain ⟨i1, i2, i3, i4, i5⟩ := ih (s.beginPass call).1 h1
      rw [BeginPassCall.renderPasses_cons call rest, BeginPassCall.blitPasses_cons call rest]
      simp only [GPUCommandBufferVk.beginPasses]
      refine ⟨i1, by rw [i2, h2], ?_, ?_, ?_⟩
      · rw [i3, h3, List.append_assoc]
      · rw [i4, h4, List.append_assoc]
      · rw [i5, h5, hs]; simp


/-- A successful `Submit` leaves the buffer not recording, with both pass
lists empty. -/
theorem GPUCommandBufferVk.Submit_ok (t : GPUCommandBufferVk) (end_ok submit_ok : Bool)
    (hsubmit : (t.Submit end_ok submit_ok).2.1 = true) :
    (t.Submit end_ok submit_ok).1.is_recording_ = false ∧
    (t.Submit end_ok submit_ok).1.render_passes_ = [] ∧
    (t.Submit end_ok submit_ok).1.blit_passes_ = [] ∧
    (t.Submit end_ok submit_ok).1.isIdle = true := by
  cases hr : t.is_recording_ <;> cases end_ok <;> cases submit_ok <;>
    simp_all [GPUCommandBufferVk.Submit, GPUCommandBufferVk.EndRecording,
      GPUCommandBufferVk.Reset, GPUCommandBufferVk.isIdle]

/-- A pass-opening call whose recording start fails: it returns null and
leaves the buffer as it was. -/
theorem GPUCommandBufferVk.beginPass_failed (t : GPUCommandBufferVk) (pass : Nat)
    (hidle : t.is_recording_ = false) :
    t.BeginRenderPass false pass =
      (t, none, [CommandBufferCall.vkBeginCommandBuffer t.command_buffer_]) ∧
    t.BeginBlitPass false pass =
      (t, none, [CommandBufferCall.vkBeginCommandBuffer t.command_buffer_]) := by
  simp [GPUCommandBufferVk.BeginRenderPass, GPUCommandBufferVk.BeginBlitPass,
    GPUCommandBufferVk.BeginRecording, hidle]

/-- When `Submit` succeeds and what it then does: it succeeds exactly when
the recording can be ended (the buffer is not recording, or the native end
succeeds) and the native submit succeeds; it then has ended the recording if
there was one, submitted, waited for the queue and reset the command buffer,
and the buffer is not recording and has no recorded pass. When it fails the
recorded passes stay. -/
theorem GPUCommandBufferVk.Submit_spec (t : GPUCommandBufferVk) (end_ok submit_ok : Bool) :
    ((t.Submit end_ok submit_ok).2.1 = true ↔
      ((t.is_recording_ = false ∨ end_ok = true) ∧ submit_ok = true)) ∧
    ((t.Submit end_ok submit_ok).2.1 = true →
      (t.Submit end_ok submit_ok).1 =
        { command_buffer_ := t.command_buffer_, is_recording_ := false, render_passes_ := [],
          blit_passes_ := [] } ∧
      (t.Submit end_ok submit_ok).2.2 =
        (if t.is_recording_ = true then
          [CommandBufferCall.vkEndCommandBuffer t.command_buffer_] else []) ++
        [CommandBufferCall.vkQueueSubmit t.command_buffer_, CommandBufferCall.vkQueueWaitIdle] ++
        (if t.command_buffer_ ≠ 0 then
          [CommandBufferCall.vkResetCommandBuffer t.command_buffer_] else [])) ∧
    ((t.Submit end_ok submit_ok).2.1 = false →
      (t.Submit end_ok submit_ok).1.render_passes_ = t.render_passes_ ∧
      (t.Submit end_ok submit_ok).1.blit_passes_ = t.blit_passes_) := by
  obtain ⟨cb, rec, rp, bp⟩ := t
  cases rec <;> cases end_ok <;> cases submit_ok <;>
    simp [GPUCommandBufferVk.Submit, GPUCommandBufferVk.EndRecording, GPUCommandBufferVk.Reset]

/-- C19: from an idle command buffer, a sequence of `BeginRenderPass` and
`BeginBlitPass` calls whose recording start succeeds records exactly the
passes asked for, one per call and in order, leaves the buffer recording, and
makes a single native `vkBeginCommandBuffer`, for the first call. In any
state a call whose recording start succeeds appends exactly one pass and
begins native recording only if the buffer is not recording yet; a call whose
recording start fails returns null and changes nothing; a successful `Submit`
leaves the buffer idle with both pass lists empty. `Submit` succeeds exactly
when the recording can be ended and the native submit succeeds; it then ends
the native recording if there is one, submits, waits for the queue and resets
the command buffer, and a failed `Submit` keeps the recorded passes. After
the sequence of pass-opening calls, a `Submit` whose native calls succeed
returns true, ends the recording and leaves the buffer idle. -/
theorem command_buffer_lifecycle (s : GPUCommandBufferVk) (first : BeginPassCall)
    (rest : List BeginPassCall) (hidle : s.isIdle = true) (hstart : first.begin_ok = true) :
    ((s.beginPasses (first :: rest)).1.is_recording_ = true ∧
      (s.beginPasses (first :: rest)).1.render_passes_ =
        BeginPassCall.renderPasses (first :: rest) ∧
      (s.beginPasses (first :: rest)).1.blit_passes_ =
        BeginPassCall.blitPasses (first :: rest) ∧
      (s.beginPasses (first :: rest)).1.render_passes_.length +
        (s.beginPasses (first :: rest)).1.blit_passes_.length = (first :: rest).length ∧
      (s.beginPasses (first :: rest)).2 =
        [CommandBufferCall.vkBeginCommandBuffer s.command_buffer_]) ∧
    (∀ (t : GPUCommandBufferVk) (call : BeginPassCall),
      (t.is_recording_ = true ∨ call.begin_ok = true) →
        (t.beginPass call).1.is_recording_ = true ∧
        (t.beginPass call).1.render_passes_.length + (t.beginPass call).1.blit_passes_.length =
          t.render_passes_.length + t.blit_passes_.length + 1 ∧
        (t.beginPass call).2 =
          if t.is_recording_ = true then []
          else [CommandBufferCall.vkBeginCommandBuffer t.command_buffer_]) ∧
    (∀ (t : GPUCommandBufferVk) (pass : Nat), t.is_recording_ = false →
        t.BeginRenderPass false pass =
          (t, none, [CommandBufferCall.vkBeginCommandBuffer t.command_buffer_]) ∧
        t.BeginBlitPass false pass =
          (t, none, [CommandBufferCall.vkBeginCommandBuffer t.command_buffer_])) ∧
    (∀ (t : GPUCommandBufferVk) (end_ok submit_ok : Bool),
      (t.Submit end_ok submit_ok).2.1 = true →
        (t.Submit end_ok submit_ok).1.is_recording_ = false ∧
        (t.Submit end_ok submit_ok).1.render_passes_ = [] ∧
        (t.Submit end_ok submit_ok).1.blit_passes_ = [] ∧
        (t.Submit end_ok submit_ok).1.isIdle = true) ∧
    (∀ (t : GPUCommandBufferVk) (end_ok submit_ok : Bool),
      ((t.Submit end_ok submit_ok).2.1 = true ↔
        ((t.is_recording_ = false ∨ end_ok = true) ∧ submit_ok = true)) ∧
      ((t.Submit end_ok submit_ok).2.1 = true →
        (t.Submit end_ok submit_ok).1 =
          { command_buffer_ := t.command_buffer_, is_recording_ := false,
            render_passes_ := [], blit_passes_ := [] } ∧
        (t.Submit end_ok submit_ok).2.2 =
          (if t.is_recording_ = true then
            [CommandBufferCall.vkEndCommandBuffer t.command_buffer_] else []) ++
          [CommandBufferCall.vkQueueSubmit t.command_buffer_,
            CommandBufferCall.vkQueueWaitIdle] ++
          (if t.command_buffer_ ≠ 0 then
            [CommandBufferCall.vkResetCommandBuffer t.command_buffer_] else [])) ∧
      ((t.Submit end_ok submit_ok).2.1 = false →
        (t.Submit end_ok submit_ok).1.render_passes_ = t.render_passes_ ∧
        (t.Submit end_ok submit_ok).1.blit_passes_ = t.blit_passes_)) ∧
    ((s.beginPasses (first :: rest)).1.Submit true true =
      ({ command_buffer_ := s.command_buffer_, is_recording_ := false, render_passes_ := [],
         blit_passes_ := [] }, true,
        [CommandBufferCall.vkEndCommandBuffer s.command_buffer_,
          CommandBufferCall.vkQueueSubmit s.command_buffer_,
          CommandBufferCall.vkQueueWaitIdle] ++
        (if s.command_buffer_ ≠ 0 then
          [CommandBufferCall.vkResetCommandBuffer s.command_buffer_] else [])) ∧
      ((s.beginPasses (first :: rest)).1.Submit true true).1.isIdle = true) := by
  have hs : s.is_recording_ = false ∧ s.render_passes_ = [] ∧ s.blit_passes_ = [] := by
    simp only [GPUCommandBufferVk.isIdle, Bool.and_eq_true, Bool.not_eq_true',
      List.isEmpty_iff] at hidle
    exact ⟨hidle.1.1, hidle.1.2, hidle.2⟩
  obtain ⟨hrec, hrp, hbp⟩ := hs
  obtain ⟨h1, h2, h3, h4, h5⟩ := GPUCommandBufferVk.beginPass_ok s first (Or.inr hstart)
  obtain ⟨i1, i2, i3, i4, i5⟩ := GPUCommandBufferVk.beginPasses_recording rest
    (s.beginPass first).1 h1
  have hrender : (s.beginPasses (first :: rest)).1.render_passes_ =
      BeginPassCall.renderPasses (first :: rest) := by
    rw [BeginPassCall.renderPasses_cons first rest]
    simp only [GPUCommandBufferVk.beginPasses]
    rw [i3, h3, hrp, List.nil_append]
  have hblit : (s.beginPasses (first :: rest)).1.blit_passes_ =
      BeginPassCall.blitPasses (first :: rest) := by
    rw [BeginPassCall.blitPasses_cons first rest]
    simp only [GPUCommandBufferVk.beginPasses]
    rw [i4, h4, hbp, List.nil_append]
  have hrecording : (s.beginPasses (first :: rest)).1.is_recording_ = true := by
    simp only [GPUCommandBufferVk.beginPasses]
    exact i1
  have hbuffer : (s.beginPasses (first :: rest)).1.command_buffer_ = s.command_buffer_ := by
    simp only [GPUCommandBufferVk.beginPasses]
    rw [i2, h2]
  obtain ⟨q1, q2, _⟩ := GPUCommandBufferVk.Submit_spec (s.beginPasses (first :: rest)).1 true
    true
  have hsubmitted := q1.mpr ⟨Or.inr rfl, rfl⟩
  obtain ⟨q3, q4⟩ := q2 hsubmitted
  refine ⟨⟨?_, hrender, hblit, ?_, ?_⟩, ?_, GPUCommandBufferVk.beginPass_failed,
    GPUCommandBufferVk.Submit_ok, GPUCommandBufferVk.Submit_spec, ⟨?_, ?_⟩⟩
  · simp only [GPUCommandBufferVk.beginPasses]
    exact i1
  · rw [hrender, hblit]
    exact BeginPassCall.opened_length (first :: rest)
  · simp only [GPUCommandBufferVk.beginPasses]
    rw [i5, h5, hrec]
    simp
  · intro t call hcall
    obtain ⟨k1, _, k3, k4, k5⟩ := GPUCommandBufferVk.beginPass_ok t call hcall
    refine ⟨k1, ?_, k5⟩
    rw [k3, k4, List.length_append, List.length_append]
    have hone := BeginPassCall.opened_length [call]
    simp only [List.length_singleton] at hone
    omega
  · rw [hrecording, hbuffer] at q4
    rw [hbuffer] at q3
    apply Prod.ext
    · exact q3
    · apply Prod.ext
      · exact hsubmitted
      · rw [q4]
        simp
  · exact (GPUCommandBufferVk.Submit_ok _ true true hsubmitted).2.2.2

/-- C19, witness: a render pass, a blit pass and a second render pass on an
idle command buffer, then a `Submit` whose native calls succeed: it returns
true after ending the recording, submitting, waiting and resetting, and the
buffer is idle again. -/
theorem command_buffer_lifecycle_witness :
    (GPUCommandBufferVk.beginPasses
        { command_buffer_ := 7, is_recording_ := false, render_passes_ := [],
          blit_passes_ := [] }
        [BeginPassCall.BeginRenderPass true 100, BeginPassCall.BeginBlitPass false 200,
          BeginPassCall.BeginRenderPass false 101]).1.is_recording_ = true ∧
    (GPUCommandBufferVk.beginPasses
        { command_buffer_ := 7, is_recording_ := false, render_passes_ := [],
          blit_passes_ := [] }
        [BeginPassCall.BeginRenderPass true 100, BeginPassCall.BeginBlitPass false 200,
          BeginPassCall.BeginRenderPass false 101]).1.render_passes_ = [100, 101] ∧
    (GPUCommandBufferVk.beginPasses
        { command_buffer_ := 7, is_recording_ := false, render_passes_ := [],
          blit_passes_ := [] }
        [BeginPassCall.BeginRenderPass true 100, BeginPassCall.BeginBlitPass false 200,
          BeginPassCall.BeginRenderPass false 101]).1.blit_passes_ = [200] ∧
    (GPUCommandBufferVk.beginPasses
        { command_buffer_ := 7, is_recording_ := false, render_passes_ := [],
          blit_passes_ := [] }
        [BeginPassCall.BeginRenderPass true 100, BeginPassCall.BeginBlitPass false 200,
          BeginPassCall.BeginRenderPass false 101]).1.Submit true true =
      ({ command_buffer_ := 7, is_recording_ := false, render_passes_ := [],
         blit_passes_ := [] }, true,
        [CommandBufferCall.vkEndCommandBuffer 7, CommandBufferCall.vkQueueSubmit 7,
          CommandBufferCall.vkQueueWaitIdle, CommandBufferCall.vkResetCommandBuffer 7]) :=
  have h := command_buffer_lifecycle
    { command_buffer_ := 7, is_recording_ := false, render_passes_ := [], blit_passes_ := [] }
    (BeginPassCall.BeginRenderPass true 100)
    [BeginPassCall.BeginBlitPass false 200, BeginPassCall.BeginRenderPass false 101]
    rfl rfl
  ⟨h.1.1, h.1.2.1, h.1.2.2.1, h.2.2.2.2.2.1.trans (by decide)⟩


/-! ### Fence wait -/

/-- C20, counterexample: on a valid fence, `Wait` returns the same value,
false, for a timeout and for a lost device, and also for an invalid fence;
only the error log differs. -/
theorem fence_wait_outcome_counterexample :
    (VkFence.Wait { device_ := 1, fence_ := 0x40 } 1000 VK_TIMEOUT).1 =
      (VkFence.Wait { device_ := 1, fence_ := 0x40 } 1000 VK_ERROR_DEVICE_LOST).1 ∧
    (VkFence.Wait { device_ := 1, fence_ := 0x40 } 1000 VK_TIMEOUT).1 =
      (VkFence.Wait { device_ := 1, fence_ := 0 } 1000 VK_SUCCESS).1 ∧
    (VkFence.Wait { device_ := 1, fence_ := 0x40 } 1000 VK_TIMEOUT).2 ≠
      (VkFence.Wait { device_ := 1, fence_ := 0x40 } 1000 VK_ERROR_DEVICE_LOST).2 := by
  decide

/-- C20, amended: `VkFence::Wait` returns true exactly when the fence is
valid and the native wait returns `VK_SUCCESS`; it returns false on a
timeout, on any other native result and on an invalid fence alike. The native
wait is made exactly for a valid fence, and an error is logged exactly when
the native result of a valid fence is neither success nor timeout. -/
theorem fence_wait_outcome (f : VkFence) (timeout_ns : Nat) (native : VkResult) :
    ((f.Wait timeout_ns native).1 = true ↔ (f.IsValid = true ∧ native = VK_SUCCESS)) ∧
    (native = VK_TIMEOUT → (f.Wait timeout_ns native).1 = false) ∧
    (native ≠ VK_SUCCESS → (f.Wait timeout_ns native).1 = false) ∧
    (f.IsValid = false → f.Wait timeout_ns native = (false, [])) ∧
    (FenceEvent.vkWaitForFences f.fence_ timeout_ns ∈ (f.Wait timeout_ns native).2 ↔
      f.IsValid = true) ∧
    (FenceEvent.LOGE ∈ (f.Wait timeout_ns native).2 ↔
      (f.IsValid = true ∧ native ≠ VK_SUCCESS ∧ native ≠ VK_TIMEOUT)) := by
  have hne : VK_TIMEOUT ≠ VK_SUCCESS := by decide
  cases hv : f.IsValid <;> by_cases h0 : native = VK_SUCCESS <;>
    by_cases h2 : native = VK_TIMEOUT <;>
    simp_all [VkFence.Wait]


/-! ### Shader names -/

theorem and_255_eq_mod (x : Nat) : x &&& 0xFF = x % 256 :=
  Nat.and_pow_two_sub_one_eq_mod x 8

/-- The four fields of a fragment sub-key built by `MakeFunctionBaseKey` over
`MakeMainKey`, as `FragmentKeyToShaderName` extracts them. -/
theorem function_base_key_fields (main custom sub filter : Nat) (hm : main < 256)
    (hc : custom < 256) (hs : sub < 256) (hf : filter < 256) :
    ((MakeFunctionBaseKey (MakeMainKey main custom) sub filter >>> kMainKeyShift) >>>
        kCustomKeyShift) &&& 0xFF = custom ∧
    (MakeFunctionBaseKey (MakeMainKey main custom) sub filter >>> kMainKeyShift) &&& 0xFF =
      main ∧
    (MakeFunctionBaseKey (MakeMainKey main custom) sub filter >>> kSubKeyShift) &&& 0xFF =
      sub ∧
    MakeFunctionBaseKey (MakeMainKey main custom) sub filter &&& 0xFF = filter := by
  have hmain := MakeMainKey_eq_add main custom hm hc
  have hkey := MakeFunctionBaseKey_eq_add (MakeMainKey main custom) sub filter
    (by rw [hmain]; omega) hs hf
  rw [hkey, hmain]
  simp only [kMainKeyShift, kCustomKeyShift, kSubKeyShift, and_255_eq_mod,
    Nat.shiftRight_eq_div_pow]
  refine ⟨?_, ?_, ?_, ?_⟩ <;> omega

theorem string_append_ite (ss word : String) (b : Prop) [Decidable b] :
    (if b then ss ++ word else ss) = ss ++ (if b then word else "") := by
  by_cases h : b <;> simp [h]

theorem bit_set_iff_testBit (c i : Nat) : ((c >>> i) &&& 0x01 ≠ 0) ↔ c.testBit i = true := by
  simp [Nat.testBit, Nat.and_comm]

/-- The name that `CustomKeyToGradientName` builds is the one the
specification words. -/
theorem CustomKeyToGradientName_eq (c : Nat) : CustomKeyToGradientName c = specGradientName c := by
  have hs : (c >>> 3) &&& 7 ≤ 7 := Nat.and_le_right
  have hcount : (1 <<< ((c >>> 3) &&& 7)) % 2 ^ 32 = 2 ^ ((c >>> 3) &&& 7) := by
    rw [Nat.one_shiftLeft]
    apply Nat.mod_eq_of_lt
    exact lt_of_le_of_lt (Nat.pow_le_pow_right (by norm_num) hs) (by norm_num)
  have htype : (if c &&& 7 = 1 then "Gradient" ++ "Linear"
      else if c &&& 7 = 2 then "Gradient" ++ "Radial"
      else if c &&& 7 = 3 then "Gradient" ++ "Conical"
      else if c &&& 7 = 4 then "Gradient" ++ "Sweep"
      else "Gradient" ++ "Unknown") = "Gradient" ++ gradientTypeWord c := by
    unfold gradientTypeWord
    split_ifs <;> rfl
  unfold CustomKeyToGradientName specGradientName
  simp only [kMaxColorCountShift, kOffsetFastShift, kColorFastShift, kGradientTypeLinear,
    kGradientTypeRadial, kGradientTypeConical, kGradientTypeSweep, hcount, htype,
    string_append_ite, bit_set_iff_testBit]


/-- C21: for every custom byte `c`, the fragment shader name of the key
`MakeFunctionBaseKey (MakeMainKey (kGradient, c))` without compose keys is
`"Gradient"`, the type word for `c & 7` (Linear, Radial, Conical, Sweep for 1,
2, 3, 4, Unknown otherwise), the decimal form of `2 ^ ((c >> 3) & 7)`, then
`"OffsetFast"` if bit 6 of `c` is set and `"ColorFast"` if bit 7 is set; for
the main type `kGradientText` it is the same string followed by
`"TextWGSL"`. -/
theorem gradient_name_decoding (c : Nat) (hc : c < 256) :
    FragmentKeyToShaderName
        (MakeFunctionBaseKey (MakeMainKey HWFragmentKeyType.kGradient.toNat c) 0 0) none =
      specGradientName c ∧
    FragmentKeyToShaderName
        (MakeFunctionBaseKey (MakeMainKey HWFragmentKeyType.kGradientText.toNat c) 0 0) none =
      specGradientName c ++ "TextWGSL" := by
  constructor
  · obtain ⟨h1, h2, h3, h4⟩ := function_base_key_fields HWFragmentKeyType.kGradient.toNat c 0 0
      (by decide) hc (by decide) (by decide)
    unfold FragmentKeyToShaderName
    simp only [h1, h2, h3, h4]
    simp [HWFragmentKeyTypeToName, HWFragmentKeyType.toNat, HWFragmentKeyType.ofValue,
      CustomKeyToGradientName_eq]
  · obtain ⟨h1, h2, h3, h4⟩ := function_base_key_fields HWFragmentKeyType.kGradientText.toNat
      c 0 0 (by decide) hc (by decide) (by decide)
    unfold FragmentKeyToShaderName
    simp only [h1, h2, h3, h4]
    simp [HWFragmentKeyTypeToName, HWFragmentKeyType.toNat, HWFragmentKeyType.ofValue,
      CustomKeyToGradientName_eq]

/-- Witness for C21: the three custom bytes of the unit tests, `0b11001001`,
`0b01010001` and `0b00100010`. -/
theorem gradient_name_decoding_witness :
    FragmentKeyToShaderName (MakeFunctionBaseKey (MakeMainKey 3 0b11001001) 0 0) none =
      "GradientLinear2OffsetFastColorFast" ∧
    FragmentKeyToShaderName (MakeFunctionBaseKey (MakeMainKey 3 0b01010001) 0 0) none =
      "GradientLinear4OffsetFast" ∧
    FragmentKeyToShaderName (MakeFunctionBaseKey (MakeMainKey 3 0b00100010) 0 0) none =
      "GradientRadial16" ∧
    FragmentKeyToShaderName (MakeFunctionBaseKey (MakeMainKey 9 0b00100010) 0 0) none =
      "GradientRadial16TextWGSL" :=
  ⟨(gradient_name_decoding 0b11001001 (by decide)).1.trans (by decide),
   (gradient_name_decoding 0b01010001 (by decide)).1.trans (by decide),
   (gradient_name_decoding 0b00100010 (by decide)).1.trans (by decide),
   (gradient_name_decoding 0b00100010 (by decide)).2.trans (by decide)⟩


/-- The compose loop appends the names of the compose keys, in list order. -/
theorem FragmentKeyToShaderName.appendComposeKeys_eq (keys : List Nat) :
    ∀ ss : String, FragmentKeyToShaderName.appendComposeKeys ss keys =
      ss ++ specComposeSuffix keys := by
  induction keys with
  | nil =>
      intro ss
      simp [FragmentKeyToShaderName.appendComposeKeys, specComposeSuffix]
  | cons key rest ih =>
      intro ss
      simp only [FragmentKeyToShaderName.appendComposeKeys, specComposeSuffix, ih,
        String.append_assoc]

/-- The name of a key in terms of the four fields that
`FragmentKeyToShaderName` extracts from it. -/
theorem FragmentKeyToShaderName_eq (base_key : Nat) (compose_keys : Option (List Nat)) :
    FragmentKeyToShaderName base_key compose_keys =
      specFragmentName ((base_key >>> kMainKeyShift) &&& 0xFF)
        (((base_key >>> kMainKeyShift) >>> kCustomKeyShift) &&& 0xFF)
        ((base_key >>> kSubKeyShift) &&& 0xFF) (base_key &&& 0xFF) compose_keys := by
  unfold FragmentKeyToShaderName specFragmentName
  cases compose_keys with
  | none =>
      simp only [Option.getD_none, specComposeSuffix, String.append_empty,
        Nat.pos_iff_ne_zero, gt_iff_lt]
      split_ifs <;> simp [String.append_assoc]
  | some keys =>
      simp only [Option.getD_some, FragmentKeyToShaderName.appendComposeKeys_eq,
        Nat.pos_iff_ne_zero, gt_iff_lt]
      split_ifs <;> simp [String.append_assoc]

/-- C22: for every fragment sub-key `k` and optional compose list, the name
`FragmentKeyToShaderName (k, L)` is the main-type name, then `"_"` and the
geometry sub-type name if the sub field of `k` is not 0, then `"_"` and the
colour-filter name if the filter field of `k` is not 0, then `"_"` and the
colour-filter name of each element of `L` in list order; so the name for
`(k, L)` is the name for `(k, nullopt)` extended by the compose names. For a
key packed by `MakeFunctionBaseKey` over `MakeMainKey` the fields are the
packed ones. -/
theorem fragment_name_structure (k : Nat) (compose_keys : List Nat) :
    FragmentKeyToShaderName k (some compose_keys) =
      FragmentKeyToShaderName k none ++ specComposeSuffix compose_keys ∧
    (∀ L : Option (List Nat), FragmentKeyToShaderName k L =
      specFragmentName ((k >>> kMainKeyShift) &&& 0xFF)
        (((k >>> kMainKeyShift) >>> kCustomKeyShift) &&& 0xFF)
        ((k >>> kSubKeyShift) &&& 0xFF) (k &&& 0xFF) L) ∧
    (∀ (main custom sub filter : Nat) (L : Option (List Nat)),
      main < 256 → custom < 256 → sub < 256 → filter < 256 →
      FragmentKeyToShaderName (MakeFunctionBaseKey (MakeMainKey main custom) sub filter) L =
        specFragmentName main custom sub filter L) := by
  refine ⟨?_, fun L => FragmentKeyToShaderName_eq k L, ?_⟩
  · rw [FragmentKeyToShaderName_eq k (some compose_keys), FragmentKeyToShaderName_eq k none]
    simp [specFragmentName, specComposeSuffix]
  · intro main custom sub filter L hm hc hs hf
    obtain ⟨h1, h2, h3, h4⟩ := function_base_key_fields main custom sub filter hm hc hs hf
    rw [FragmentKeyToShaderName_eq, h1, h2, h3, h4]

/-- Witness for C22: the fragment key of the test `RRect_SolidVertex_Compose`,
`MakeFunctionBaseKey (kSolidVertex, kRRect, kCompose)` with the compose list
`[kSrcIn, kSrcATop]`. -/
theorem fragment_name_structure_witness :
    FragmentKeyToShaderName (MakeFunctionBaseKey 2 7 0xFF) (some [6, 10]) =
      "SolidVertexColor_RRect_ComposeFilter_BlendSrcInFilter_BlendSrcATopFilter" ∧
    FragmentKeyToShaderName (MakeFunctionBaseKey 2 7 0xFF) none =
      "SolidVertexColor_RRect_ComposeFilter" :=
  ⟨((fragment_name_structure (MakeFunctionBaseKey 2 7 0xFF) [6, 10]).2.1 _).trans (by decide),
   ((fragment_name_structure (MakeFunctionBaseKey 2 7 0xFF) [6, 10]).2.1 _).trans (by decide)⟩


/-! ### Buffer-layout map -/

/-- C23: the map that the constructor of `HWBufferLayoutMap` fills has a
layout for every geometry key value from `kPath` (1) to `kLast` (9), so
`GetBufferLayout` does not fail for any of them, and the layout is the one of
the matching geometry class: `kClip` gets the Path layout, `kColorText` and
`kGradientText` both get the Text layout. -/
theorem buffer_layout_map_total (G : GeometryBufferLayouts) :
    (∀ key : Nat, HWGeometryKeyType.kPath.toNat ≤ key → key ≤ HWGeometryKeyType.kFilter.toNat →
      (HWBufferLayoutMap.GetBufferLayout (HWBufferLayoutMap.new G) key).isSome = true) ∧
    (∀ key : HWGeometryKeyType,
      HWBufferLayoutMap.GetBufferLayout (HWBufferLayoutMap.new G) key.toNat =
        some (G.expected key)) ∧
    HWBufferLayoutMap.GetBufferLayout (HWBufferLayoutMap.new G) HWGeometryKeyType.kClip.toNat =
      some G.WGSLPathGeometry ∧
    HWBufferLayoutMap.GetBufferLayout (HWBufferLayoutMap.new G)
      HWGeometryKeyType.kColorText.toNat = some G.WGSLTextGeometry ∧
    HWBufferLayoutMap.GetBufferLayout (HWBufferLayoutMap.new G)
      HWGeometryKeyType.kGradientText.toNat = some G.WGSLTextGeometry := by
  have hall : ∀ key : HWGeometryKeyType,
      HWBufferLayoutMap.GetBufferLayout (HWBufferLayoutMap.new G) key.toNat =
        some (G.expected key) := by
    intro key
    cases key <;>
      simp [HWBufferLayoutMap.GetBufferLayout, HWBufferLayoutMap.new,
        HWBufferLayoutMap.RegisterAllBufferLayouts, unordered_map.assign, unordered_map.find,
        HWGeometryKeyType.toNat, GeometryBufferLayouts.expected]
  refine ⟨?_, hall, hall .kClip, hall .kColorText, hall .kGradientText⟩
  intro key hlo hhi
  simp only [HWGeometryKeyType.toNat] at hlo hhi
  have hkey : ∃ t : HWGeometryKeyType, t.toNat = key := by
    interval_cases key
    · exact ⟨.kPath, rfl⟩
    · exact ⟨.kPathAA, rfl⟩
    · exact ⟨.kTessFill, rfl⟩
    · exact ⟨.kTessStroke, rfl⟩
    · exact ⟨.kColorText, rfl⟩
    · exact ⟨.kGradientText, rfl⟩
    · exact ⟨.kRRect, rfl⟩
    · exact ⟨.kClip, rfl⟩
    · exact ⟨.kFilter, rfl⟩
  obtain ⟨t, rfl⟩ := hkey
  rw [hall t]
  rfl


/-! ### Function keys -/

/-- The base key of a function key in arithmetic form: the 32-bit sub-key
plus the stage value times `2 ^ 32`. -/
theorem HWPipelineKey.GetFunctionKey_base_key (k : HWPipelineKey) :
    (k.GetFunctionKey GPUShaderStage.kVertex).base_key = 2 ^ 32 + k.GetVertexBaseKey ∧
    (k.GetFunctionKey GPUShaderStage.kFragment).base_key = 2 * 2 ^ 32 + k.GetFragmentBaseKey ∧
    k.GetVertexBaseKey < 2 ^ 32 ∧ k.GetFragmentBaseKey < 2 ^ 32 := by
  have hv : k.GetVertexBaseKey < 2 ^ 32 := Nat.mod_lt _ (by norm_num)
  have hf : k.GetFragmentBaseKey < 2 ^ 32 := Nat.mod_lt _ (by norm_num)
  have h1 : (1 <<< 32) % 2 ^ 64 = 1 <<< 32 := by decide
  have h2 : (2 <<< 32) % 2 ^ 64 = 2 <<< 32 := by decide
  refine ⟨?_, ?_, hv, hf⟩
  · simp only [HWPipelineKey.GetFunctionKey, GPUShaderStage.toNat, h1]
    rw [Nat.lor_comm, shl_or_eq_add 1 _ 32 hv]
    omega
  · simp only [HWPipelineKey.GetFunctionKey, GPUShaderStage.toNat, h2]
    rw [Nat.lor_comm, shl_or_eq_add 2 _ 32 hf]

/-- C24: a vertex function key and a fragment function key never coincide,
whatever pipeline keys they come from: their base keys differ. The vertex
function key is the vertex sub-key with `1 << 32` OR-ed in and no compose
list, so it depends only on the vertex sub-key; the fragment function key is
the fragment sub-key with `2 << 32` OR-ed in and the compose list of the
pipeline key. -/
theorem function_keys_never_coincide (k1 k2 : HWPipelineKey) :
    k1.GetFunctionKey GPUShaderStage.kVertex ≠ k2.GetFunctionKey GPUShaderStage.kFragment ∧
    (k1.GetFunctionKey GPUShaderStage.kVertex).operatorEq
      (k2.GetFunctionKey GPUShaderStage.kFragment) = false ∧
    k1.GetFunctionKey GPUShaderStage.kVertex =
      { base_key := k1.GetVertexBaseKey ||| 1 <<< 32, compose_keys := none } ∧
    k2.GetFunctionKey GPUShaderStage.kFragment =
      { base_key := k2.GetFragmentBaseKey ||| 2 <<< 32, compose_keys := k2.compose_keys } ∧
    (k1.GetVertexBaseKey = k2.GetVertexBaseKey →
      k1.GetFunctionKey GPUShaderStage.kVertex = k2.GetFunctionKey GPUShaderStage.kVertex) := by
  obtain ⟨hv1, _, hlt1, _⟩ := HWPipelineKey.GetFunctionKey_base_key k1
  obtain ⟨_, hf2, _, hlt2⟩ := HWPipelineKey.GetFunctionKey_base_key k2
  have hne : (k1.GetFunctionKey GPUShaderStage.kVertex).base_key ≠
      (k2.GetFunctionKey GPUShaderStage.kFragment).base_key := by
    rw [hv1, hf2]
    omega
  have hkey : k1.GetFunctionKey GPUShaderStage.kVertex ≠
      k2.GetFunctionKey GPUShaderStage.kFragment := fun h => hne (congrArg _ h)
  refine ⟨hkey, ?_, ?_, ?_, ?_⟩
  · cases hop : (k1.GetFunctionKey GPUShaderStage.kVertex).operatorEq
      (k2.GetFunctionKey GPUShaderStage.kFragment) with
    | false => rfl
    | true => exact absurd ((HWPipelineKey.operatorEq_iff_eq _ _).mp hop) hkey
  · simp [HWPipelineKey.GetFunctionKey, GPUShaderStage.toNat]
  · simp [HWPipelineKey.GetFunctionKey, GPUShaderStage.toNat]
  · intro h
    simp [HWPipelineKey.GetFunctionKey, h]


/-! ### Per-command encoding -/

/-- The descriptor block records no pipeline bind, scissor, stencil reference
or draw. -/
theorem GPURenderPassVk.bindDescriptorSets_not_counted (pipeline_vk : GPURenderPipelineVk)
    (command : Command) (descriptor_set : Option Nat) :
    ∀ c ∈ (GPURenderPassVk.bindDescriptorSets pipeline_vk command descriptor_set).2,
      c.isBindPipeline = false ∧ c.isSetScissor = false ∧ c.isSetStencilReference = false ∧
        c.isDrawIndexed = false := by
  intro c hc
  unfold GPURenderPassVk.bindDescriptorSets at hc
  split_ifs at hc
  · cases descriptor_set with
    | none => simp at hc
    | some handle =>
        simp only [List.mem_append, List.mem_map, List.mem_singleton] at hc
        rcases hc with ⟨d, _, rfl⟩ | rfl
        · cases d
          exact ⟨rfl, rfl, rfl, rfl⟩
        · exact ⟨rfl, rfl, rfl, rfl⟩
  · simp at hc

/-- Filtering the calls of the descriptor block by one of the four counted
kinds leaves nothing. -/
theorem GPURenderPassVk.bindDescriptorSets_filter (pipeline_vk : GPURenderPipelineVk)
    (command : Command) (descriptor_set : Option Nat) :
    (GPURenderPassVk.bindDescriptorSets pipeline_vk command descriptor_set).2.filter
        RenderPassCall.isBindPipeline = [] ∧
    (GPURenderPassVk.bindDescriptorSets pipeline_vk command descriptor_set).2.filter
        RenderPassCall.isSetScissor = [] ∧
    (GPURenderPassVk.bindDescriptorSets pipeline_vk command descriptor_set).2.filter
        RenderPassCall.isSetStencilReference = [] ∧
    (GPURenderPassVk.bindDescriptorSets pipeline_vk command descriptor_set).2.filter
        RenderPassCall.isDrawIndexed = [] := by
  have h := GPURenderPassVk.bindDescriptorSets_not_counted pipeline_vk command descriptor_set
  refine ⟨?_, ?_, ?_, ?_⟩ <;> rw [List.filter_eq_nil_iff] <;> intro c hc
  · simp [(h c hc).1]
  · simp [(h c hc).2.1]
  · simp [(h c hc).2.2.1]
  · simp [(h c hc).2.2.2]

/-- The calls of `ExecuteSingleCommand` for a command with a valid pipeline,
block by block. -/
theorem GPURenderPassVk.ExecuteSingleCommand_valid (command : Command)
    (pipeline_vk : GPURenderPipelineVk) (descriptor_set : Option Nat)
    (hpipeline : command.pipeline = some pipeline_vk) (hvalid : pipeline_vk.IsValid = true) :
    ∃ ev2 ev3 : List RenderPassCall,
      (∀ c ∈ ev2 ++ ev3, c.isCounted = false) ∧
      (GPURenderPassVk.ExecuteSingleCommand (some command) descriptor_set).2 =
        [RenderPassCall.vkCmdBindPipeline pipeline_vk.pipeline_] ++ ev2 ++ ev3 ++
          (GPURenderPassVk.bindDescriptorSets pipeline_vk command descriptor_set).2 ++
          (if command.scissor_rect.width > 0 ∧ command.scissor_rect.height > 0 then
            [RenderPassCall.vkCmdSetScissor (toInt32 command.scissor_rect.x)
              (toInt32 command.scissor_rect.y) (command.scissor_rect.width % 2 ^ 32)
              (command.scissor_rect.height % 2 ^ 32)]
          else []) ++
          (if pipeline_vk.has_stencil_testing_ = true then
            [RenderPassCall.vkCmdSetStencilReference command.stencil_reference]
          else []) ++
          (if command.index_count > 0 then
            [RenderPassCall.vkCmdDrawIndexed command.index_count]
          else []) := by
  refine ⟨match command.vertex_buffer.buffer with
      | some vertex_buffer_vk =>
          [RenderPassCall.vkCmdBindVertexBuffers vertex_buffer_vk.buffer_
            command.vertex_buffer.offset]
      | none => [],
    match command.index_buffer.buffer with
      | some index_buffer_vk =>
          [RenderPassCall.vkCmdBindIndexBuffer index_buffer_vk.buffer_
            command.index_buffer.offset]
      | none => [], ?_, ?_⟩
  · intro c hc
    cases hv : command.vertex_buffer.buffer <;> cases hi : command.index_buffer.buffer <;>
      simp only [hv, hi, List.nil_append, List.not_mem_nil, List.mem_append,
        List.mem_singleton, or_false, false_or] at hc
    · rcases hc with rfl
      rfl
    · rcases hc with rfl
      rfl
    · rcases hc with rfl | rfl <;> rfl
  · simp [GPURenderPassVk.ExecuteSingleCommand, hpipeline, hvalid]


/-- A pipeline that `Create` returns remembers stencil testing exactly when
the descriptor enables it, which is also when its one
`vkCreateGraphicsPipelines` call declares the stencil reference dynamic. -/
theorem GPURenderPipelineVk.Create_stencil (device : Nat) (desc : GPURenderPipelineDescriptor)
    (descriptor_layout pipeline_layout : NativeResult) (render_pass : Nat)
    (graphics_pipeline : NativeResult) (p : GPURenderPipelineVk)
    (hcreated : (GPURenderPipelineVk.Create device desc descriptor_layout pipeline_layout
      render_pass graphics_pipeline).1 = some p) :
    p.has_stencil_testing_ = desc.enable_stencil ∧
    PipelineCall.dynamicStates (GPURenderPipelineVk.Create device desc descriptor_layout
        pipeline_layout render_pass graphics_pipeline).2 =
      [[VkDynamicState.VK_DYNAMIC_STATE_VIEWPORT, VkDynamicState.VK_DYNAMIC_STATE_SCISSOR] ++
        (if desc.enable_stencil = true then [VkDynamicState.VK_DYNAMIC_STATE_STENCIL_REFERENCE]
         else [])] := by
  obtain ⟨pls, plh⟩ := pipeline_layout
  obtain ⟨gps, gph⟩ := graphics_pipeline
  obtain ⟨vf, ff, tf, ed, es, bufs, sbf, dbf, wm, sc, dst, sst⟩ := desc
  revert hcreated
  by_cases hd : descriptor_layout.success = true ∧ descriptor_layout.handle ≠ 0 <;>
    cases pls <;> cases gps <;> cases vf <;> cases ff <;> cases es <;>
    simp [GPURenderPipelineVk.Create, GPURenderPipelineVk.CreatePipelineLayout,
      GPURenderPipelineVk.CreateGraphicsPipeline, GPURenderPipelineVk.new, hd,
      PipelineCall.dynamicStates] <;>
    (intro h; subst h; rfl)


/-- C25: for a command whose pipeline is valid, `ExecuteSingleCommand`
records exactly one pipeline bind (of the pipeline's native handle), a
scissor set exactly when the command's scissor width and height are both
positive, a stencil-reference set (with the command's reference) exactly when
the pipeline has stencil testing, and one indexed draw with the command's
index count when that count is positive, no draw otherwise. It records
nothing for a null command, a null pipeline or an invalid pipeline. A
pipeline made by `Create` has stencil testing exactly when its creation
declared the stencil reference dynamic. -/
theorem per_command_encoding (command : Command) (pipeline_vk : GPURenderPipelineVk)
    (descriptor_set : Option Nat) (hpipeline : command.pipeline = some pipeline_vk)
    (hvalid : pipeline_vk.IsValid = true) :
    (GPURenderPassVk.ExecuteSingleCommand (some command) descriptor_set).2.filter
        RenderPassCall.isBindPipeline =
      [RenderPassCall.vkCmdBindPipeline pipeline_vk.pipeline_] ∧
    (GPURenderPassVk.ExecuteSingleCommand (some command) descriptor_set).2.filter
        RenderPassCall.isSetScissor =
      (if command.scissor_rect.width > 0 ∧ command.scissor_rect.height > 0 then
        [RenderPassCall.vkCmdSetScissor (toInt32 command.scissor_rect.x)
          (toInt32 command.scissor_rect.y) (command.scissor_rect.width % 2 ^ 32)
          (command.scissor_rect.height % 2 ^ 32)]
      else []) ∧
    (GPURenderPassVk.ExecuteSingleCommand (some command) descriptor_set).2.filter
        RenderPassCall.isSetStencilReference =
      (if pipeline_vk.has_stencil_testing_ = true then
        [RenderPassCall.vkCmdSetStencilReference command.stencil_reference]
      else []) ∧
    (GPURenderPassVk.ExecuteSingleCommand (some command) descriptor_set).2.filter
        RenderPassCall.isDrawIndexed =
      (if command.index_count > 0 then [RenderPassCall.vkCmdDrawIndexed command.index_count]
      else []) ∧
    (∀ ds : Option Nat, GPURenderPassVk.ExecuteSingleCommand none ds = ([], [])) ∧
    (∀ (c : Command) (ds : Option Nat), c.pipeline = none →
      GPURenderPassVk.ExecuteSingleCommand (some c) ds = ([], [])) ∧
    (∀ (c : Command) (q : GPURenderPipelineVk) (ds : Option Nat), c.pipeline = some q →
      q.IsValid = false → GPURenderPassVk.ExecuteSingleCommand (some c) ds = ([], [])) ∧
    (∀ (device : Nat) (desc : GPURenderPipelineDescriptor)
      (descriptor_layout pipeline_layout : NativeResult) (render_pass : Nat)
      (graphics_pipeline : NativeResult),
      (GPURenderPipelineVk.Create device desc descriptor_layout pipeline_layout render_pass
        graphics_pipeline).1 = some pipeline_vk →
      ∀ dynamic_states ∈ PipelineCall.dynamicStates (GPURenderPipelineVk.Create device desc
          descriptor_layout pipeline_layout render_pass graphics_pipeline).2,
        (VkDynamicState.VK_DYNAMIC_STATE_STENCIL_REFERENCE ∈ dynamic_states ↔
          pipeline_vk.has_stencil_testing_ = true)) := by
  obtain ⟨ev2, ev3, hrest, hevents⟩ :=
    GPURenderPassVk.ExecuteSingleCommand_valid command pipeline_vk descriptor_set hpipeline hvalid
  obtain ⟨f1, f2, f3, f4⟩ :=
    GPURenderPassVk.bindDescriptorSets_filter pipeline_vk command descriptor_set
  have hnil : ∀ q : RenderPassCall → Bool, (∀ c, q c = true → c.isCounted = true) →
      (ev2 ++ ev3).filter q = [] := by
    intro q hq
    rw [List.filter_eq_nil_iff]
    intro c hc hqc
    have := hrest c hc
    rw [hq c hqc] at this
    cases this
  have n1 := hnil RenderPassCall.isBindPipeline (fun c h => by simp [RenderPassCall.isCounted, h])
  have n2 := hnil RenderPassCall.isSetScissor (fun c h => by simp [RenderPassCall.isCounted, h])
  have n3 := hnil RenderPassCall.isSetStencilReference
    (fun c h => by simp [RenderPassCall.isCounted, h])
  have n4 := hnil RenderPassCall.isDrawIndexed (fun c h => by simp [RenderPassCall.isCounted, h])
  rw [List.filter_append] at n1 n2 n3 n4
  rw [List.append_eq_nil] at n1 n2 n3 n4
  refine ⟨?_, ?_, ?_, ?_, ?_, ?_, ?_, ?_⟩
  · rw [hevents]
    simp only [List.filter_append, f1, n1.1, n1.2]
    split_ifs <;> simp [RenderPassCall.isBindPipeline]
  · rw [hevents]
    simp only [List.filter_append, f2, n2.1, n2.2]
    split_ifs <;> simp [RenderPassCall.isSetScissor]
  · rw [hevents]
    simp only [List.filter_append, f3, n3.1, n3.2]
    split_ifs <;> simp [RenderPassCall.isSetStencilReference]
  · rw [hevents]
    simp only [List.filter_append, f4, n4.1, n4.2]
    split_ifs <;> simp [RenderPassCall.isDrawIndexed]
  · intro ds
    rfl
  · intro c ds hc
    simp [GPURenderPassVk.ExecuteSingleCommand, hc]
  · intro c q ds hc hq
    simp [GPURenderPassVk.ExecuteSingleCommand, hc, hq]
  · intro device desc dl pl rp gp hcreated dynamic_states hmem
    obtain ⟨hst, hdyn⟩ := GPURenderPipelineVk.Create_stencil device desc dl pl rp gp
      pipeline_vk hcreated
    rw [hdyn, List.mem_singleton] at hmem
    subst hmem
    rw [hst]
    cases desc.enable_stencil <;> simp


/-- Witness for C25: the sample command (valid pipeline with stencil testing,
scissor 10 by 20 at (1, 2), stencil reference 3, 6 indices). -/
theorem per_command_encoding_witness :
    (GPURenderPassVk.ExecuteSingleCommand (some (Command.sample [] [] [])) none).2.filter
        RenderPassCall.isBindPipeline = [RenderPassCall.vkCmdBindPipeline 0x5000] ∧
    (GPURenderPassVk.ExecuteSingleCommand (some (Command.sample [] [] [])) none).2.filter
        RenderPassCall.isSetScissor = [RenderPassCall.vkCmdSetScissor 1 2 10 20] ∧
    (GPURenderPassVk.ExecuteSingleCommand (some (Command.sample [] [] [])) none).2.filter
        RenderPassCall.isSetStencilReference = [RenderPassCall.vkCmdSetStencilReference 3] ∧
    (GPURenderPassVk.ExecuteSingleCommand (some (Command.sample [] [] [])) none).2.filter
        RenderPassCall.isDrawIndexed = [RenderPassCall.vkCmdDrawIndexed 6] :=
  have h := per_command_encoding (Command.sample [] [] []) GPURenderPipelineVk.sample none
    rfl rfl
  ⟨h.1, h.2.1.trans (by decide), h.2.2.1, h.2.2.2.1⟩

/-! ### Descriptor set population -/

/-- C26, as stated, fails on the code: take a command whose only binding is a
sampler binding with a non-null sampler. `ExecuteSingleCommand` creates the
descriptor set and binds it, but makes no bind call on it (no `BindSampler`)
and no descriptor update. -/
theorem descriptor_set_population_sampler_binding :
    GPURenderPassVk.ExecuteSingleCommand
        (some (Command.sample [] [] [{ index := 2, sampler := some { sampler_ := 0x7000 } }]))
        (some 0x9000) =
      ([], [RenderPassCall.vkCmdBindPipeline 0x5000,
        RenderPassCall.vkCmdBindDescriptorSets 0x3000 0x9000,
        RenderPassCall.vkCmdSetScissor 1 2 10 20,
        RenderPassCall.vkCmdSetStencilReference 3,
        RenderPassCall.vkCmdDrawIndexed 6]) := by
  decide


/-! ### Render-pass compatibility -/

/-- A render pass that has just been registered with a colour format has
that colour format. -/
theorem hasColorFormat_assign (native : List (Nat × VkRenderPassCreateInfo))
    (render_pass : Nat) (info : VkRenderPassCreateInfo) :
    hasColorFormat (unordered_map.assign native render_pass info) render_pass info.colorFormat =
      true := by
  simp [hasColorFormat, unordered_map.find_assign_self]

/-- The render pass that `GetCompatibleRenderPass` returns, when it is not
null, is held by the native device with the colour format
`VK_FORMAT_B8G8R8A8_UNORM`, whatever format is asked for. -/
theorem GPUDeviceVk.GetCompatibleRenderPass_format (d : GPUDeviceVk)
    (native : List (Nat × VkRenderPassCreateInfo)) (format : Nat) (needsDepthStencil : Bool)
    (created : NativeResult) (hinit : d.RenderPassesRegistered native = true)
    (hnonnull : (d.GetCompatibleRenderPass native format needsDepthStencil created).1 ≠ 0) :
    hasColorFormat (d.GetCompatibleRenderPass native format needsDepthStencil created).2.2
      (d.GetCompatibleRenderPass native format needsDepthStencil created).1
      VK_FORMAT_B8G8R8A8_UNORM = true := by
  obtain ⟨cs, ch⟩ := created
  simp only [GPUDeviceVk.RenderPassesRegistered, Bool.and_eq_true, Bool.or_eq_true,
    decide_eq_true_eq] at hinit
  obtain ⟨hdef, hds⟩ := hinit
  revert hnonnull
  cases needsDepthStencil
  · simp only [GPUDeviceVk.GetCompatibleRenderPass, Bool.false_eq_true, if_false]
    intro hnonnull
    exact hdef.resolve_left hnonnull
  · by_cases hzero : d.depth_stencil_render_pass_ = 0
    · cases cs
      · simp only [GPUDeviceVk.GetCompatibleRenderPass, GPUDeviceVk.CreateDepthStencilRenderPass,
          hzero, if_true, Bool.not_false]
        intro hnonnull
        exact hdef.resolve_left hnonnull
      · simp only [GPUDeviceVk.GetCompatibleRenderPass, GPUDeviceVk.CreateDepthStencilRenderPass,
          hzero, if_true, Bool.not_true, Bool.false_eq_true, if_false]
        intro _
        exact hasColorFormat_assign native ch _
    · simp only [GPUDeviceVk.GetCompatibleRenderPass, hzero, if_true, if_false]
      intro hnonnull
      exact hds.resolve_left hnonnull


/-- The colour format of a render pass that the native device holds is
unique. -/
theorem hasColorFormat_unique (native : List (Nat × VkRenderPassCreateInfo))
    (render_pass format format2 : Nat) (h : hasColorFormat native render_pass format = true)
    (h2 : hasColorFormat native render_pass format2 = true) : format = format2 := by
  unfold hasColorFormat at h h2
  cases hf : unordered_map.find native render_pass with
  | none => simp [hf] at h
  | some info =>
      simp only [hf, decide_eq_true_eq] at h h2
      rw [← h, ← h2]

/-- The only texture format that translates to `VK_FORMAT_B8G8R8A8_UNORM`. -/
theorem GPUTextureFormatToVkFormat_eq_bgra (format : GPUTextureFormat) :
    GPUTextureFormatToVkFormat format = VK_FORMAT_B8G8R8A8_UNORM ↔
      format = GPUTextureFormat.kBGRA8Unorm := by
  cases format <;> simp [GPUTextureFormatToVkFormat, VK_FORMAT_B8G8R8A8_UNORM,
    VK_FORMAT_R8_UNORM, VK_FORMAT_R8G8B8_UNORM, VK_FORMAT_R5G6B5_UNORM_PACK16,
    VK_FORMAT_R8G8B8A8_UNORM, VK_FORMAT_S8_UINT, VK_FORMAT_D24_UNORM_S8_UINT,
    VK_FORMAT_UNDEFINED]

/-- The render pass of the `vkCreateGraphicsPipelines` call is the one that
the device returns for `(VK_FORMAT_B8G8R8A8_SRGB, true)`. -/
theorem GPURenderPipelineVk.CreateGraphicsPipelineOnDevice_renderPasses
    (p : GPURenderPipelineVk) (d : GPUDeviceVk) (native : List (Nat × VkRenderPassCreateInfo))
    (render_pass_created graphics_pipeline : NativeResult) :
    (p.desc_.vertex_function.isSome = true ∧ p.desc_.fragment_function.isSome = true →
      PipelineCall.renderPasses
          (p.CreateGraphicsPipelineOnDevice d native render_pass_created graphics_pipeline).1.2.2 =
        [(d.GetCompatibleRenderPass native VK_FORMAT_B8G8R8A8_SRGB true render_pass_created).1] ∧
      (p.CreateGraphicsPipelineOnDevice d native render_pass_created graphics_pipeline).2.2 =
        (d.GetCompatibleRenderPass native VK_FORMAT_B8G8R8A8_SRGB true
          render_pass_created).2.2) ∧
    (¬ (p.desc_.vertex_function.isSome = true ∧ p.desc_.fragment_function.isSome = true) →
      PipelineCall.renderPasses
          (p.CreateGraphicsPipelineOnDevice d native render_pass_created graphics_pipeline).1.2.2 =
        []) := by
  obtain ⟨gs, gh⟩ := graphics_pipeline
  cases hv : p.desc_.vertex_function <;> cases hf : p.desc_.fragment_function <;>
    cases gs <;>
    simp [GPURenderPipelineVk.CreateGraphicsPipelineOnDevice,
      GPURenderPipelineVk.CreateGraphicsPipeline, hv, hf, PipelineCall.renderPasses]


/-- C27, counterexample: a descriptor with the target format `kRGBA8Unorm`
on a device after `Init`. The native pipeline is built against the render pass
`0x20`, whose colour attachment format is `VK_FORMAT_B8G8R8A8_UNORM` and not
the translation `VK_FORMAT_R8G8B8A8_UNORM` of the target format; and
`GetCompatibleRenderPass (VK_FORMAT_R8G8B8A8_UNORM, false)` returns the default
render pass, whose colour format is not the requested one either. -/
theorem render_pass_compatibility_counterexample :
    PipelineCall.renderPasses
        ((GPURenderPipelineVk.sampleWithTarget GPUTextureFormat.kRGBA8Unorm).CreateGraphicsPipelineOnDevice
          GPUDeviceVk.sample.1 GPUDeviceVk.sample.2 { success := true, handle := 0x20 }
          { success := true, handle := 0x5000 }).1.2.2 = [0x20] ∧
    hasColorFormat
        ((GPURenderPipelineVk.sampleWithTarget GPUTextureFormat.kRGBA8Unorm).CreateGraphicsPipelineOnDevice
          GPUDeviceVk.sample.1 GPUDeviceVk.sample.2 { success := true, handle := 0x20 }
          { success := true, handle := 0x5000 }).2.2 0x20
        (GPUTextureFormatToVkFormat GPUTextureFormat.kRGBA8Unorm) = false ∧
    hasColorFormat
        ((GPURenderPipelineVk.sampleWithTarget GPUTextureFormat.kRGBA8Unorm).CreateGraphicsPipelineOnDevice
          GPUDeviceVk.sample.1 GPUDeviceVk.sample.2 { success := true, handle := 0x20 }
          { success := true, handle := 0x5000 }).2.2 0x20 VK_FORMAT_B8G8R8A8_UNORM = true ∧
    (GPUDeviceVk.sample.1.GetCompatibleRenderPass GPUDeviceVk.sample.2 VK_FORMAT_R8G8B8A8_UNORM
        false { success := true, handle := 0x20 }).1 = 0x10 ∧
    hasColorFormat GPUDeviceVk.sample.2 0x10 VK_FORMAT_R8G8B8A8_UNORM = false := by
  decide

/-- C27, amended: on a device whose render passes are the ones it created,
`CreateGraphicsPipeline` builds the native pipeline against the render pass
that `GetCompatibleRenderPass (VK_FORMAT_B8G8R8A8_SRGB, true)` returns; the
colour attachment format of a render pass that `GetCompatibleRenderPass`
returns is `VK_FORMAT_B8G8R8A8_UNORM`, whatever format is requested and
whatever the target format of the descriptor, so it is the translation of the
target format exactly when the target format is `kBGRA8Unorm`. -/
theorem render_pass_compatibility (p : GPURenderPipelineVk) (d : GPUDeviceVk)
    (native : List (Nat × VkRenderPassCreateInfo))
    (render_pass_created graphics_pipeline : NativeResult)
    (hinit : d.RenderPassesRegistered native = true) :
    (∀ render_pass ∈ PipelineCall.renderPasses
        (p.CreateGraphicsPipelineOnDevice d native render_pass_created graphics_pipeline).1.2.2,
      render_pass =
        (d.GetCompatibleRenderPass native VK_FORMAT_B8G8R8A8_SRGB true render_pass_created).1 ∧
      (render_pass ≠ 0 →
        hasColorFormat
          (p.CreateGraphicsPipelineOnDevice d native render_pass_created graphics_pipeline).2.2
          render_pass VK_FORMAT_B8G8R8A8_UNORM = true ∧
        (hasColorFormat
            (p.CreateGraphicsPipelineOnDevice d native render_pass_created graphics_pipeline).2.2
            render_pass (GPUTextureFormatToVkFormat p.desc_.target_format) = true ↔
          p.desc_.target_format = GPUTextureFormat.kBGRA8Unorm))) ∧
    (∀ (format : Nat) (needsDepthStencil : Bool) (created : NativeResult),
      (d.GetCompatibleRenderPass native format needsDepthStencil created).1 ≠ 0 →
      hasColorFormat (d.GetCompatibleRenderPass native format needsDepthStencil created).2.2
        (d.GetCompatibleRenderPass native format needsDepthStencil created).1
        VK_FORMAT_B8G8R8A8_UNORM = true) := by
  refine ⟨?_, fun format needsDepthStencil created hnonnull =>
    GPUDeviceVk.GetCompatibleRenderPass_format d native format needsDepthStencil created hinit
      hnonnull⟩
  intro render_pass hmem
  obtain ⟨hsome, hnone⟩ := GPURenderPipelineVk.CreateGraphicsPipelineOnDevice_renderPasses p d
    native render_pass_created graphics_pipeline
  by_cases hshaders : p.desc_.vertex_function.isSome = true ∧
      p.desc_.fragment_function.isSome = true
  · obtain ⟨hpasses, hnative⟩ := hsome hshaders
    rw [hpasses, List.mem_singleton] at hmem
    refine ⟨hmem, fun hnonnull => ?_⟩
    rw [hnative]
    subst hmem
    have hcolor := GPUDeviceVk.GetCompatibleRenderPass_format d native VK_FORMAT_B8G8R8A8_SRGB
      true render_pass_created hinit hnonnull
    refine ⟨hcolor, ?_⟩
    constructor
    · intro htarget
      exact (GPUTextureFormatToVkFormat_eq_bgra _).mp
        (hasColorFormat_unique _ _ _ _ htarget hcolor)
    · intro htarget
      rw [htarget]
      exact hcolor
  · rw [hnone hshaders] at hmem
    cases hmem

/-- Witness for C27: the sample device after `Init` and a pipeline with the
target format `kBGRA8Unorm`; the depth/stencil render pass is created on
demand with the handle `0x20`. -/
theorem render_pass_compatibility_witness :
    hasColorFormat
        ((GPURenderPipelineVk.sampleWithTarget GPUTextureFormat.kBGRA8Unorm).CreateGraphicsPipelineOnDevice
          GPUDeviceVk.sample.1 GPUDeviceVk.sample.2 { success := true, handle := 0x20 }
          { success := true, handle := 0x5000 }).2.2 0x20 VK_FORMAT_B8G8R8A8_UNORM = true ∧
    hasColorFormat
        (GPUDeviceVk.sample.1.GetCompatibleRenderPass GPUDeviceVk.sample.2
          VK_FORMAT_R8G8B8A8_UNORM false { success := true, handle := 0x20 }).2.2
        (GPUDeviceVk.sample.1.GetCompatibleRenderPass GPUDeviceVk.sample.2
          VK_FORMAT_R8G8B8A8_UNORM false { success := true, handle := 0x20 }).1
        VK_FORMAT_B8G8R8A8_UNORM = true :=
  have h := render_pass_compatibility
    (GPURenderPipelineVk.sampleWithTarget GPUTextureFormat.kBGRA8Unorm)
    GPUDeviceVk.sample.1 GPUDeviceVk.sample.2 { success := true, handle := 0x20 }
    { success := true, handle := 0x5000 } (by decide)
  ⟨((h.1 0x20 (by decide)).2 (by decide)).1,
    h.2 VK_FORMAT_R8G8B8A8_UNORM false { success := true, handle := 0x20 } (by decide)⟩


/-! ### Mapped pointer and reallocation -/

/-- C28, as stated, fails on the code: take `UploadData` of 16 bytes,
`GetMappedPtr`, `UploadData` of 32 bytes on a new buffer. The second upload
destroys the buffer `0x2000` with its allocation `0xA1` while the buffer is
marked mapped at `0xB000`, creates the allocation `0xA2`, does not map it, and
copies the payload to `0xB000`, the mapping of the destroyed allocation; it
then flushes and unmaps `0xA2`, which was never mapped. -/
theorem stale_mapping_after_grow :
    GPUBufferVk.growWhileMapped.2 =
      [BufferCall.vmaCreateBuffer 16 0x83 VMA_MEMORY_USAGE_CPU_TO_GPU,
        BufferCall.vmaMapMemory 0xA1,
        BufferCall.memcpy 0xB000 0x1000 16,
        BufferCall.vmaFlushAllocation 0xA1 0 16,
        BufferCall.vmaUnmapMemory 0xA1,
        BufferCall.vmaMapMemory 0xA1,
        BufferCall.vmaDestroyBuffer 0x2000 0xA1,
        BufferCall.vmaCreateBuffer 32 0x83 VMA_MEMORY_USAGE_CPU_TO_GPU,
        BufferCall.memcpy 0xB000 0x1000 32,
        BufferCall.vmaFlushAllocation 0xA2 0 32,
        BufferCall.vmaUnmapMemory 0xA2] ∧
    GPUBufferVk.growWhileMapped.1 =
      { usage := 0x20, buffer_ := 0x2100, allocation_ := 0xA2, mapped_ptr_ := 0, size_ := 32,
        is_mapped_ := false } := by
  decide


/-! ### Pipeline-cache key -/

/-- C29, counterexample (with the identity `std::hash` and little-endian
fields): descriptors that differ in the stencil state, descriptors that
differ in the blend factors (2, 0 against 0, 1), and descriptors that differ
in the vertex buffers (17 buffers without attributes against one buffer with
9 attributes) get equal pipeline keys. -/
theorem pipeline_key_separation_counterexample :
    ((GPURenderPipelineDescriptor.sample 0 0 [] {}).stencil_state ≠
        (GPURenderPipelineDescriptor.sample 0 0 []
          { front := { compare := 1 } }).stencil_state ∧
      GPUPipelineCacheVk.CreatePipelineKey PipelineKeyEnv.sample
          (GPURenderPipelineDescriptor.sample 0 0 [] {}) =
        GPUPipelineCacheVk.CreatePipelineKey PipelineKeyEnv.sample
          (GPURenderPipelineDescriptor.sample 0 0 [] { front := { compare := 1 } })) ∧
    ((GPURenderPipelineDescriptor.sample 2 0 [] {}).target_src_blend_factor ≠
        (GPURenderPipelineDescriptor.sample 0 1 [] {}).target_src_blend_factor ∧
      GPUPipelineCacheVk.CreatePipelineKey PipelineKeyEnv.sample
          (GPURenderPipelineDescriptor.sample 2 0 [] {}) =
        GPUPipelineCacheVk.CreatePipelineKey PipelineKeyEnv.sample
          (GPURenderPipelineDescriptor.sample 0 1 [] {})) ∧
    ((GPURenderPipelineDescriptor.sample 0 0
          (List.replicate 17 { array_stride := 0, step_mode := 0, attributes := [] })
          {}).buffers ≠
        (GPURenderPipelineDescriptor.sample 0 0
          [{ array_stride := 0, step_mode := 0
             attributes := List.replicate 9 { format := 0, offset := 0, shader_location := 0 } }]
          {}).buffers ∧
      GPUPipelineCacheVk.CreatePipelineKey PipelineKeyEnv.sample
          (GPURenderPipelineDescriptor.sample 0 0
            (List.replicate 17 { array_stride := 0, step_mode := 0, attributes := [] }) {}) =
        GPUPipelineCacheVk.CreatePipelineKey PipelineKeyEnv.sample
          (GPURenderPipelineDescriptor.sample 0 0
            [{ array_stride := 0, step_mode := 0
               attributes :=
                 List.replicate 9 { format := 0, offset := 0, shader_location := 0 } }] {})) := by
  refine ⟨⟨by decide, by decide⟩, ⟨by decide, by decide⟩, ⟨by decide, by decide⟩⟩


/-- C29, amended: `CreatePipelineKey` yields equal keys for two descriptors
exactly when they have the same vertex and fragment shader labels (a null
function counting as the empty label), the same bytes from `HashVertexLayout`
and the same 32-bit value from `HashRenderState`. So equal keys mean equal
labels when the functions are present; the key does not depend on the depth
state or the stencil state of the descriptor. -/
theorem pipeline_key_separation (E : PipelineKeyEnv) (d1 d2 : GPURenderPipelineDescriptor) :
    ((GPUPipelineCacheVk.CreatePipelineKey E d1).operatorEq
        (GPUPipelineCacheVk.CreatePipelineKey E d2) = true ↔
      ((d1.vertex_function.map fun f => f.label_).getD "" =
          (d2.vertex_function.map fun f => f.label_).getD "" ∧
        (d1.fragment_function.map fun f => f.label_).getD "" =
          (d2.fragment_function.map fun f => f.label_).getD "" ∧
        GPUPipelineCacheVk.HashVertexLayout E d1 = GPUPipelineCacheVk.HashVertexLayout E d2 ∧
        GPUPipelineCacheVk.HashRenderState E d1 = GPUPipelineCacheVk.HashRenderState E d2)) ∧
    (∀ v1 v2 f1 f2 : GPUShaderFunctionVk,
      d1.vertex_function = some v1 → d2.vertex_function = some v2 →
      d1.fragment_function = some f1 → d2.fragment_function = some f2 →
      (GPUPipelineCacheVk.CreatePipelineKey E d1).operatorEq
        (GPUPipelineCacheVk.CreatePipelineKey E d2) = true →
      v1.label_ = v2.label_ ∧ f1.label_ = f2.label_) ∧
    (∀ (depth_state : GPUDepthState) (stencil_state : GPUStencilState),
      GPUPipelineCacheVk.CreatePipelineKey E
          { d1 with depth_state := depth_state, stencil_state := stencil_state } =
        GPUPipelineCacheVk.CreatePipelineKey E d1) := by
  have hiff : (GPUPipelineCacheVk.CreatePipelineKey E d1).operatorEq
        (GPUPipelineCacheVk.CreatePipelineKey E d2) = true ↔
      ((d1.vertex_function.map fun f => f.label_).getD "" =
          (d2.vertex_function.map fun f => f.label_).getD "" ∧
        (d1.fragment_function.map fun f => f.label_).getD "" =
          (d2.fragment_function.map fun f => f.label_).getD "" ∧
        GPUPipelineCacheVk.HashVertexLayout E d1 = GPUPipelineCacheVk.HashVertexLayout E d2 ∧
        GPUPipelineCacheVk.HashRenderState E d1 = GPUPipelineCacheVk.HashRenderState E d2) := by
    rw [PipelineKey.operatorEq_eq_true_iff]
    cases hv1 : d1.vertex_function <;> cases hv2 : d2.vertex_function <;>
      cases hf1 : d1.fragment_function <;> cases hf2 : d2.fragment_function <;>
      simp [GPUPipelineCacheVk.CreatePipelineKey, hv1, hv2, hf1, hf2]
  refine ⟨hiff, ?_, ?_⟩
  · intro v1 v2 f1 f2 hv1 hv2 hf1 hf2 heq
    obtain ⟨h1, h2, _, _⟩ := hiff.mp heq
    simp only [hv1, hv2, hf1, hf2, Option.map_some', Option.getD_some] at h1 h2
    exact ⟨h1, h2⟩
  · intro depth_state stencil_state
    rfl


/-! ### Wrapped-texture format -/

/-- C30, as stated, fails on the code: a surface that offers
`VK_FORMAT_B8G8R8A8_SRGB` and `VK_FORMAT_B8G8R8A8_UNORM` gets the UNORM
swapchain format, and the texture that `CreateFromVkImage` returns for an
image of that format keeps the native format but has the descriptor format
`kRGBA8Unorm`, whose translation is `VK_FORMAT_R8G8B8A8_UNORM` and not the
format of the image. -/
theorem wrapped_texture_format_bgra :
    GPUWindowSurfaceVk.ChooseSwapSurfaceFormat
        [{ format := VK_FORMAT_B8G8R8A8_SRGB, colorSpace := VK_COLOR_SPACE_SRGB_NONLINEAR_KHR },
          { format := VK_FORMAT_B8G8R8A8_UNORM,
            colorSpace := VK_COLOR_SPACE_SRGB_NONLINEAR_KHR }] =
      some { format := VK_FORMAT_B8G8R8A8_UNORM,
             colorSpace := VK_COLOR_SPACE_SRGB_NONLINEAR_KHR } ∧
    ∃ t, (GPUTextureVk.CreateFromVkImage ⟨1, 2, 4, 8, 16⟩
        ⟨0, 0, GPUTextureFormat.kInvalid, 0, 1, 1, 0⟩ 0x7000 0x5000 VK_FORMAT_B8G8R8A8_UNORM
        800 600 (some 0x6000)).1 = some t ∧
      t.format_ = VK_FORMAT_B8G8R8A8_UNORM ∧
      t.desc_.format = GPUTextureFormat.kRGBA8Unorm ∧
      GPUTextureFormatToVkFormat t.desc_.format = VK_FORMAT_R8G8B8A8_UNORM ∧
      GPUTextureFormatToVkFormat t.desc_.format ≠ VK_FORMAT_B8G8R8A8_UNORM :=
  ⟨by decide, _, rfl, by decide, by decide, by decide, by decide⟩

end Skity
